import Mathlib

set_option maxRecDepth 4000

/- Verification development for the mxmldoc documentation scanner
   (mxmldoc.c).  The mxml tree library itself is not among the provided
   sources; its primitives (node store, traversal, attribute access) are
   modelled from the spec as an arena of attributed nodes addressed by
   stable indices.  The functions sort_node, find_public, update_comment,
   add_variable and scan_file are transliterated from mxmldoc.c. -/

/-- C isspace restricted to the ASCII characters the scanner meets. -/
def cIsSpace (c : Char) : Bool :=
  c = ' ' || c = '\t' || c = '\n' || c = '\r' || c = '\x0b' || c = '\x0c'

/-- C isalnum on ASCII. -/
def cIsAlnum (c : Char) : Bool :=
  ('a' ≤ c && c ≤ 'z') || ('A' ≤ c && c ≤ 'Z') || ('0' ≤ c && c ≤ '9')

/-- C isdigit on ASCII. -/
def cIsDigit (c : Char) : Bool :=
  '0' ≤ c && c ≤ '9'

/-- C strcmp comparison, strcmp a b < 0, on code point sequences. -/
def strLtL : List Char → List Char → Bool
  | [], [] => false
  | [], _ :: _ => true
  | _ :: _, [] => false
  | a :: as, b :: bs =>
    if a.toNat < b.toNat then true
    else if b.toNat < a.toNat then false
    else strLtL as bs

/-- C strcmp comparison on strings: strcmp a b < 0. -/
def strLt (a b : String) : Bool :=
  strLtL a.toList b.toList

/-- Whether the first list starts with the second list. -/
def listStartsWith : List Char → List Char → Bool
  | _, [] => true
  | [], _ :: _ => false
  | a :: as, b :: bs => a = b && listStartsWith as bs

/-- Whether the needle occurs somewhere inside the haystack. -/
def listHasInfix : List Char → List Char → Bool
  | hay, needle =>
    if listStartsWith hay needle then true
    else
      match hay with
      | [] => false
      | _ :: rest => listHasInfix rest needle

/-- C strstr as a Boolean test: the needle occurs inside the haystack. -/
def strstrB (hay needle : String) : Bool :=
  listHasInfix hay.toList needle.toList

/-- Modelled from the spec: a node value is an element with a name and an
attribute list, a text fragment with a preceded-by-whitespace flag, or
opaque character data. -/
inductive MxmlValue where
  | element (name : String) (attrs : List (String × String))
  | text (ws : Bool) (str : String)
  | opq (str : String)
deriving Repr, DecidableEq

/-- Modelled from the spec: a tree node with parent link and ordered
children, addressed by stable arena indices. -/
structure MxmlNode where
  value : MxmlValue
  parent : Option Nat
  children : List Nat
deriving Repr, DecidableEq

/-- Modelled from the spec: the node store (arena). -/
structure Arena where
  nextId : Nat
  nodes : List (Nat × MxmlNode)
deriving Repr, DecidableEq

def Arena.get (a : Arena) (id : Nat) : Option MxmlNode :=
  a.nodes.lookup id

def Arena.set (a : Arena) (id : Nat) (n : MxmlNode) : Arena :=
  { a with nodes := a.nodes.map (fun p => if p.1 = id then (id, n) else p) }

def Arena.alloc (a : Arena) (n : MxmlNode) : Arena × Nat :=
  ({ nextId := a.nextId + 1, nodes := a.nodes ++ [(a.nextId, n)] }, a.nextId)

def Arena.childIds (a : Arena) (id : Nat) : List Nat :=
  match a.get id with
  | some n => n.children
  | none => []

/-- Modelled from the spec: attribute lookup on an element node. -/
def mxmlElementGetAttr (a : Arena) (id : Nat) (key : String) : Option String :=
  match a.get id with
  | some ⟨MxmlValue.element _ attrs, _, _⟩ => attrs.lookup key
  | _ => none

/-- Replace the value of a key in an attribute list, else append. -/
def setAttrList : List (String × String) → String → String → List (String × String)
  | [], k, v => [(k, v)]
  | (k', v') :: rest, k, v =>
    if k' = k then (k, v) :: rest else (k', v') :: setAttrList rest k v

/-- Modelled from the spec: set or replace an attribute on an element node. -/
def mxmlElementSetAttr (a : Arena) (id : Nat) (key v : String) : Arena :=
  match a.get id with
  | some ⟨MxmlValue.element nm attrs, p, cs⟩ =>
    a.set id ⟨MxmlValue.element nm (setAttrList attrs key v), p, cs⟩
  | _ => a

/-- Element name of a node, empty for text and missing nodes. -/
def elementNameOf (a : Arena) (id : Nat) : String :=
  match a.get id with
  | some ⟨MxmlValue.element nm _, _, _⟩ => nm
  | _ => ""

/-- Text content of a text node, empty otherwise. -/
def textOf (a : Arena) (id : Nat) : String :=
  match a.get id with
  | some ⟨MxmlValue.text _ s, _, _⟩ => s
  | _ => ""

/-- Whitespace flag of a text node. -/
def wsOf (a : Arena) (id : Nat) : Bool :=
  match a.get id with
  | some ⟨MxmlValue.text w _, _, _⟩ => w
  | _ => false

/-- Set the whitespace flag of a text node. -/
def setTextWs (a : Arena) (id : Nat) (w : Bool) : Arena :=
  match a.get id with
  | some ⟨MxmlValue.text _ s, p, cs⟩ => a.set id ⟨MxmlValue.text w s, p, cs⟩
  | _ => a

/-- The element of a list that follows the first occurrence of t. -/
def listAfter : List Nat → Nat → Option Nat
  | [], _ => none
  | x :: rest, t => if x = t then rest.head? else listAfter rest t

/-- Next sibling of a node: the entry after it in the children list of its
parent. -/
def nextSibling (a : Arena) (id : Nat) : Option Nat :=
  match a.get id with
  | some n =>
    match n.parent with
    | some p => listAfter (a.childIds p) id
    | none => none
  | none => none

/-- Climb the parent chain looking for a next sibling, stopping below top
(the inner while loop of the walk-next traversal). -/
def climbUp : Nat → Arena → Nat → Nat → Option Nat
  | 0, _, _, _ => none
  | fuel + 1, a, cur, top =>
    match nextSibling a cur with
    | some s => some s
    | none =>
      match (a.get cur).bind MxmlNode.parent with
      | none => none
      | some p => if p = top then none else climbUp fuel a p top

/-- Modelled from the spec: the depth-first successor of a node below a top
node (find-first and find-next are built on this traversal step). -/
def mxmlWalkNext (a : Arena) (node top : Nat) (descend : Bool) : Option Nat :=
  match a.get node with
  | none => none
  | some n =>
    if descend && !n.children.isEmpty then n.children.head?
    else if node = top then none
    else
      match nextSibling a node with
      | some s => some s
      | none =>
        match n.parent with
        | some p => if p = top then none else climbUp (a.nodes.length + 1) a p top
        | none => none

/-- Modelled from the spec: descend modes of the find traversal (full
depth-first descent, no descent, or descent only on the first step). -/
inductive MDescend where
  | noDescend
  | descendAll
  | descendFirst
deriving Repr, DecidableEq

/-- Whether a node is an element of the wanted name carrying the wanted
attribute value. -/
def findMatches (a : Arena) (id : Nat) (elem : String) (attr : Option String) (val : Option String) : Bool :=
  match a.get id with
  | some ⟨MxmlValue.element nm attrs, _, _⟩ =>
    nm = elem &&
      (match attr with
       | none => true
       | some k =>
         match attrs.lookup k with
         | none => false
         | some v' =>
           match val with
           | none => true
           | some v => v = v')
  | _ => false

/-- Search loop of the find traversal: in full-descent mode advance with the
walk step, otherwise advance to the raw next sibling. -/
def findElemLoop : Nat → Arena → Option Nat → Nat → String → Option String → Option String → MDescend → Option Nat
  | 0, _, _, _, _, _, _, _ => none
  | fuel + 1, a, cur, top, elem, attr, val, d =>
    match cur with
    | none => none
    | some id =>
      if findMatches a id elem attr val then some id
      else
        let nxt :=
          match d with
          | MDescend.descendAll => mxmlWalkNext a id top true
          | _ => nextSibling a id
        findElemLoop fuel a nxt top elem attr val d

/-- Modelled from the spec: find-first and find-next, the kind-filtered and
optionally attribute-filtered depth-first search below a top node. -/
def mxmlFindElement (a : Arena) (start top : Nat) (elem : String) (attr : Option String) (val : Option String) (d : MDescend) : Option Nat :=
  findElemLoop (a.nodes.length + 1) a
    (mxmlWalkNext a start top (!(d = MDescend.noDescend))) top elem attr val d

/-- Fuel bound for subtree collection: one step per node plus one per child
reference. -/
def Arena.deleteFuel (a : Arena) : Nat :=
  a.nodes.foldl (fun s p => s + 1 + p.2.children.length) 1

/-- Worklist collection of all node indices of a subtree. -/
def subtreeIdsAux (a : Arena) : Nat → List Nat → List Nat → List Nat
  | 0, _, acc => acc
  | _ + 1, [], acc => acc
  | fuel + 1, id :: stack, acc =>
    if id ∈ acc then subtreeIdsAux a fuel stack acc
    else
      match a.get id with
      | none => subtreeIdsAux a fuel stack (id :: acc)
      | some n => subtreeIdsAux a fuel (n.children ++ stack) (id :: acc)

/-- All node indices of the subtree rooted at a node (the node included). -/
def subtreeIds (a : Arena) (id : Nat) : List Nat :=
  subtreeIdsAux a (a.deleteFuel * 2 + 2) [id] []

/-- Unlink a node from the children list of its parent and clear its parent
link. -/
def detachFromParent (a : Arena) (id : Nat) : Arena :=
  match a.get id with
  | some n =>
    match n.parent with
    | some p =>
      let a' :=
        match a.get p with
        | some pn => a.set p { pn with children := pn.children.erase id }
        | none => a
      match a'.get id with
      | some n' => a'.set id { n' with parent := none }
      | none => a'
    | none => a
  | none => a

/-- Modelled from the spec: delete a node, unlinking it from its parent and
removing its whole subtree from the store. -/
def mxmlDelete (a : Arena) (id : Nat) : Arena :=
  let a1 := detachFromParent a id
  let ids := subtreeIds a1 id
  { a1 with nodes := a1.nodes.filter (fun p => !(ids.contains p.1)) }

/-- Positions for attaching a node relative to an existing child. -/
inductive MAdd where
  | before
  | after
deriving Repr, DecidableEq

/-- Insert a new id directly before the first occurrence of a child id,
appending when the child is absent. -/
def insertBeforeId : List Nat → Nat → Nat → List Nat
  | [], _, node => [node]
  | c :: rest, childId, node =>
    if c = childId then node :: c :: rest else c :: insertBeforeId rest childId node

/-- Insert a new id directly after the first occurrence of a child id,
appending when the child is absent. -/
def insertAfterId : List Nat → Nat → Nat → List Nat
  | [], _, node => [node]
  | c :: rest, childId, node =>
    if c = childId then c :: node :: rest else c :: insertAfterId rest childId node

/-- Modelled from the spec: attach a node to a parent before or after a
given sibling (or at the front or back without one), detaching the node
from any previous parent first. -/
def mxmlAdd (a : Arena) (parentId : Nat) (wh : MAdd) (child : Option Nat) (nodeId : Option Nat) : Arena :=
  match nodeId with
  | none => a
  | some node =>
    match a.get node with
    | none => a
    | some _ =>
      let a1 := detachFromParent a node
      let a2 :=
        match a1.get node with
        | some n => a1.set node { n with parent := some parentId }
        | none => a1
      match a2.get parentId with
      | none => a2
      | some pn =>
        let rel : Option Nat :=
          match child with
          | some c => if ((a2.get c).bind MxmlNode.parent) = some parentId then some c else none
          | none => none
        let cs :=
          match wh, rel with
          | MAdd.before, none => node :: pn.children
          | MAdd.before, some c => insertBeforeId pn.children c node
          | MAdd.after, none => pn.children ++ [node]
          | MAdd.after, some c => insertAfterId pn.children c node
        a2.set parentId { pn with children := cs }

/-- Modelled from the spec: create a fresh element node, appended to the
given parent when one is supplied. -/
def mxmlNewElement (a : Arena) (parent : Option Nat) (name : String) : Arena × Nat :=
  let (a1, id) := a.alloc ⟨MxmlValue.element name [], none, []⟩
  match parent with
  | none => (a1, id)
  | some p => (mxmlAdd a1 p MAdd.after none (some id), id)

/-- Modelled from the spec: create a fresh text node with a whitespace flag,
appended to the given parent when one is supplied. -/
def mxmlNewText (a : Arena) (parent : Option Nat) (ws : Bool) (s : String) : Arena × Nat :=
  let (a1, id) := a.alloc ⟨MxmlValue.text ws s, none, []⟩
  match parent with
  | none => (a1, id)
  | some p => (mxmlAdd a1 p MAdd.after none (some id), id)

/-- Transliteration of sort_node from mxmldoc.c: insert a node into a tree
level sorted by name, dropping nameless and underscore-named nodes,
replacing an existing same-kind same-name sibling and inheriting its scope
attribute when the new node has none. -/
def sort_node (a : Arena) (tree node : Option Nat) : Arena :=
  match tree, node with
  | some t, some nd =>
    if ((a.get nd).bind MxmlNode.parent) = some t then a
    else
      match mxmlElementGetAttr a nd "name" with
      | none => a
      | some nodename =>
        if nodename.toList.head? = some '_' then a
        else
          let a1 :=
            match mxmlFindElement a t t (elementNameOf a nd) (some "name") (some nodename) MDescend.descendFirst with
            | some temp =>
              let a' :=
                match mxmlElementGetAttr a temp "scope" with
                | some sc =>
                  if mxmlElementGetAttr a nd "scope" = none then
                    mxmlElementSetAttr a nd "scope" sc
                  else a
                | none => a
              mxmlDelete a' temp
            | none => a
          let ins := (a1.childIds t).find? (fun c =>
            match mxmlElementGetAttr a1 c "name" with
            | none => false
            | some tempname => strLt nodename tempname)
          match ins with
          | some temp => mxmlAdd a1 t MAdd.before (some temp) (some nd)
          | none => mxmlAdd a1 t MAdd.after none (some nd)
  | _, _ => a

/-- Whether a node counts as public for find_public: it has a description
child and no text below the description contains the private marker. -/
def isPublicNode (a : Arena) (id : Nat) : Bool :=
  match mxmlFindElement a id id "description" none none MDescend.descendFirst with
  | none => false
  | some d =>
    !((a.childIds d).any (fun c =>
      match a.get c with
      | some ⟨MxmlValue.text _ s, _, _⟩ => strstrB s "@private@"
      | some ⟨MxmlValue.opq s, _, _⟩ => strstrB s "@private@"
      | _ => false))

/-- Loop of find_public: test the current candidate, else advance with a
no-descend find-next step. -/
def find_public_loop : Nat → Arena → Option Nat → Nat → String → Option String → Option Nat
  | 0, _, _, _, _, _ => none
  | fuel + 1, a, cur, top, elem, nm =>
    match cur with
    | none => none
    | some c =>
      if isPublicNode a c then some c
      else
        find_public_loop fuel a
          (mxmlFindElement a c top elem (nm.map (fun _ => "name")) nm MDescend.noDescend)
          top elem nm

/-- Transliteration of find_public from mxmldoc.c: the first matching node
at or after the start position that has a description free of the private
marker. -/
def find_public (fuel : Nat) (a : Arena) (node top : Nat) (elem : String) (nm : Option String) : Option Nat :=
  find_public_loop fuel a
    (mxmlFindElement a node top elem (nm.map (fun _ => "name")) nm
      (if node = top then MDescend.descendFirst else MDescend.noDescend))
    top elem nm

/-- Loop collecting the successive raw candidates that the find traversal
of find_public would visit. -/
def findCandidatesLoop : Nat → Arena → Option Nat → Nat → String → Option String → List Nat
  | 0, _, _, _, _, _ => []
  | fuel + 1, a, cur, top, elem, nm =>
    match cur with
    | none => []
    | some c =>
      c :: findCandidatesLoop fuel a
        (mxmlFindElement a c top elem (nm.map (fun _ => "name")) nm MDescend.noDescend)
        top elem nm

/-- The list of raw traversal candidates seen by find_public. -/
def findCandidates (fuel : Nat) (a : Arena) (node top : Nat) (elem : String) (nm : Option String) : List Nat :=
  findCandidatesLoop fuel a
    (mxmlFindElement a node top elem (nm.map (fun _ => "name")) nm
      (if node = top then MDescend.descendFirst else MDescend.noDescend))
    top elem nm

/-- Removal of backslash-slash escapes: the in-place strstr loop of
update_comment that rewrites a backslash followed by a slash to a bare
slash, resuming the search at the slash. -/
def remBS : List Char → List Char
  | '\\' :: '/' :: rest => '/' :: remBS rest
  | c :: rest => c :: remBS rest
  | [] => []

/-- Skip to just past the next single quote, or report absence. -/
def afterQuote : List Char → Option (List Char)
  | [] => none
  | '\'' :: rest => some rest
  | _ :: rest => afterQuote rest

/-- Skip whitespace, an optional dash, then whitespace (the common tail of
the comment rewriting branches of update_comment). -/
def dropDashSpaces (s : List Char) : List Char :=
  let s1 := s.dropWhile cIsSpace
  let s2 :=
    match s1 with
    | '-' :: r => r
    | _ => s1
  s2.dropWhile cIsSpace

/-- Split a leading direction marker: text starting with the two-character
runs I-space or O-space, or the three-character run I-O-space, split into
the marker and the remainder after the first space. -/
def dirSplit (s : List Char) : Option (List Char × List Char) :=
  if s.take 2 = ['I', ' '] then some (['I'], s.drop 2)
  else if s.take 2 = ['O', ' '] then some (['O'], s.drop 2)
  else if s.take 3 = ['I', 'O', ' '] then some (['I', 'O'], s.drop 3)
  else none

/-- Strip a leading run of stars, then a leading run of whitespace. -/
def stripLead (s : List Char) : List Char :=
  (s.dropWhile (fun c => c = '*')).dropWhile cIsSpace

/-- Strip a trailing run of characters satisfying p, never touching the
first character (the pointer-greater-than-start guard of update_comment). -/
def rstripKeepHead (p : Char → Bool) : List Char → List Char
  | [] => []
  | c :: cs => c :: (cs.reverse.dropWhile p).reverse

/-- Strip a trailing run of stars and then of whitespace, keeping the first
character. -/
def stripTrail (s : List Char) : List Char :=
  rstripKeepHead cIsSpace (rstripKeepHead (fun c => c = '*') s)

/-- Transliteration of update_comment from mxmldoc.c: normalize a comment
text node (backslash-slash unescaping, quoted-signature stripping,
direction-marker handling with the direction attribute set on an argument
parent, and leading and trailing star and whitespace stripping). -/
def update_comment (a : Arena) (parent comment : Option Nat) : Arena :=
  match parent, comment with
  | some par, some com =>
    match a.get com with
    | some ⟨MxmlValue.text ws s0, p, cs⟩ =>
      let s1 := remBS s0.toList
      let step :=
        match s1 with
        | '\'' :: rest =>
          (match afterQuote rest with
           | some r => dropDashSpaces r
           | none => s1, a)
        | _ =>
          match dirSplit s1 with
          | some (pre, rest) =>
            let a' :=
              if elementNameOf a par = "argument" then
                mxmlElementSetAttr a par "direction" (String.mk pre)
              else a
            (dropDashSpaces rest, a')
          | none => (s1, a)
      let s3 := stripTrail (stripLead step.1)
      step.2.set com ⟨MxmlValue.text ws (String.mk s3), p, cs⟩
    | _ => a
  | _, _ => a

/-- Join the texts of a run of type nodes, inserting a space before a
fragment whose whitespace flag is set unless nothing was emitted yet. -/
def joinTexts (a : Arena) (ids : List Nat) : String :=
  ids.foldl (fun acc id =>
    let s := textOf a id
    if wsOf a id && !(acc = "") then acc ++ " " ++ s else acc ++ s) ""

/-- Delete a run of nodes one after the other. -/
def deleteAll (a : Arena) (ids : List Nat) : Arena :=
  ids.foldl mxmlDelete a

/-- Transliteration of add_variable from mxmldoc.c: build a variable or
argument node from a type sequence, splitting off a default value after an
equals fragment, extracting the declared name (last fragment, or the
parenthesized run for function-pointer forms) and attaching the remaining
type nodes. -/
def add_variable (a : Arena) (parent : Option Nat) (name : String) (type_ : Option Nat) : Arena × Option Nat :=
  match type_ with
  | none => (a, none)
  | some ty =>
    if (a.childIds ty).isEmpty then (a, none)
    else
      let (a1, varId) := mxmlNewElement a parent name
      let defIds := (a1.childIds ty).dropWhile (fun id => !(textOf a1 id = "="))
      let a2 :=
        if defIds.isEmpty then a1
        else
          mxmlElementSetAttr (deleteAll a1 defIds) varId "default" (joinTexts a1 defIds)
      let lastChild := (a2.childIds ty).getLast?
      let step :=
        match lastChild with
        | none => (a2, "")
        | some lc =>
          if (textOf a2 lc).toList.head? = some ')' then
            let fpIds := (a2.childIds ty).dropWhile (fun id => !((textOf a2 id).toList.head? = some '('))
            (deleteAll a2 fpIds, joinTexts a2 fpIds)
          else
            (mxmlDelete a2 lc, textOf a2 lc)
      let a4 := mxmlElementSetAttr step.1 varId "name" step.2
      let a5 := mxmlAdd a4 varId MAdd.after none (some ty)
      (a5, some varId)

/-- Scanner states of scan_file. -/
inductive ScanSt where
  | sNone
  | sPre
  | sCCom
  | sCxxCom
  | sStr
  | sChr
  | sIdent
deriving Repr, DecidableEq

/-- The local variables of one scan_file invocation: finite-state-machine
state, nesting counters, the character buffer, the active member scope and
the pending node slots. -/
structure Locals where
  state : ScanSt
  braces : Nat
  parens : Nat
  buffer : List Char
  scope : Option String
  comment : Nat
  constant : Option Nat
  enumeration : Option Nat
  function : Option Nat
  fstructclass : Option Nat
  structclass : Option Nat
  typedefnode : Option Nat
  var_ : Option Nat
  returnvalue : Option Nat
  type_ : Option Nat
deriving Repr, DecidableEq

/-- Capacity of the scan buffer (one below its 65536 bytes, for the
terminator). -/
def bufMax : Nat := 65535

/-- Bounds-checked append to the scan buffer. -/
def bufPushChk (buf : List Char) (c : Char) : List Char :=
  if buf.length < bufMax then buf ++ [c] else buf

/-- Append a paragraph newline to a nonempty scan buffer, bounds-checked. -/
def bufPushNLChk (buf : List Char) : List Char :=
  if !buf.isEmpty && buf.length < bufMax then buf ++ ['\n'] else buf

/-- First character of the last fragment of a type sequence (NUL when there
is none). -/
def typeLastFirstChar (a : Arena) (ty : Nat) : Char :=
  match (a.childIds ty).getLast? with
  | some lc =>
    match (textOf a lc).toList.head? with
    | some c => c
    | none => Char.ofNat 0
  | none => Char.ofNat 0

/-- Whitespace flag used for operator fragments: set when the previous
fragment starts alphanumerically or with an underscore. -/
def wsAfterAlnum (a : Arena) (ty : Nat) : Bool :=
  let c := typeLastFirstChar a ty
  cIsAlnum c || c = '_'

/-- Whitespace flag used for identifier fragments: set when the sequence is
nonempty and its last fragment starts with neither a parenthesis nor a
star. -/
def wsNotParenStar (a : Arena) (ty : Nat) : Bool :=
  !(a.childIds ty).isEmpty &&
  !(typeLastFirstChar a ty = '(') && !(typeLastFirstChar a ty = '*')

/-- Drop a trailing run of characters satisfying p. -/
def dropTrail (p : Char → Bool) (s : List Char) : List Char :=
  (s.reverse.dropWhile p).reverse

/-- Inner loop of the block-comment newline handler: scan forward for a
closing star-slash on a line of whitespace, preserving blank lines as
paragraph newlines.  Returns the completed comment text when the comment
ended, the updated buffer and the remaining input (with the slash pushed
back when the comment ended, or the offending character pushed back when a
non-space was met). -/
def ccLineScan : List Char → List Char → Option (List Char) × List Char × List Char
  | buf, [] => (none, bufPushNLChk buf, [])
  | buf, '*' :: rest =>
    (match rest with
     | '/' :: rest2 => (some buf, bufPushNLChk buf, '/' :: rest2)
     | _ => ccLineScan buf rest)
  | buf, '\n' :: rest => ccLineScan (bufPushNLChk buf) rest
  | buf, c :: rest =>
    if cIsSpace c then ccLineScan buf rest
    else (none, bufPushNLChk buf, c :: rest)

/-- Completed-comment handling of scan_file (the block triplicated in the
source at the three comment-completion sites): trim the comment history,
then attach the text to the pending variable, constant or typedef (and its
sibling struct or enumeration), deleting privately marked declarations, or
else to the description of the enclosing scope, or record it for later. -/
def processComment (a : Arena) (tree : Nat) (L : Locals) (buf : String) : Arena × Locals :=
  let a :=
    match a.get L.comment with
    | some n =>
      if 2 ≤ n.children.length then
        match n.children.head? with
        | some fc => mxmlDelete a fc
        | none => a
      else a
    | none => a
  match L.var_ with
  | some v =>
    if strstrB buf "@private@" then
      (mxmlDelete a v, { L with var_ := none })
    else
      let (a, descId) := mxmlNewElement a (some v) "description"
      let (a, _) := mxmlNewText a (some L.comment) false buf
      let (a, txtId) := mxmlNewText a (some descId) false buf
      (update_comment a (some v) (some txtId), { L with var_ := none })
  | none =>
    match L.constant with
    | some c =>
      if strstrB buf "@private@" then
        (mxmlDelete a c, { L with constant := none })
      else
        let (a, descId) := mxmlNewElement a (some c) "description"
        let (a, _) := mxmlNewText a (some L.comment) false buf
        let (a, txtId) := mxmlNewText a (some descId) false buf
        (update_comment a (some c) (some txtId), { L with constant := none })
    | none =>
      match L.typedefnode with
      | some td =>
        if strstrB buf "@private@" then
          let a := mxmlDelete a td
          let step1 :=
            match L.structclass with
            | some sc => (mxmlDelete a sc, { L with structclass := none })
            | none => (a, L)
          let a := step1.1
          let L := step1.2
          let step2 :=
            match L.enumeration with
            | some e => (mxmlDelete a e, { L with enumeration := none })
            | none => (a, L)
          (step2.1, { step2.2 with typedefnode := none })
        else
          let (a, descId) := mxmlNewElement a (some td) "description"
          let (a, _) := mxmlNewText a (some L.comment) false buf
          let (a, txtId) := mxmlNewText a (some descId) false buf
          let a := update_comment a (some td) (some txtId)
          let a :=
            match L.structclass with
            | some sc =>
              let (a, d2) := mxmlNewElement a (some sc) "description"
              let (a, t2) := mxmlNewText a (some d2) false buf
              update_comment a (some sc) (some t2)
            | none =>
              match L.enumeration with
              | some e =>
                let (a, d2) := mxmlNewElement a (some e) "description"
                let (a, t2) := mxmlNewText a (some d2) false buf
                update_comment a (some e) (some t2)
              | none => a
          (a, { L with typedefnode := none })
      | none =>
        if !(elementNameOf a tree = "mxmldoc") &&
           (mxmlFindElement a tree tree "description" none none MDescend.descendFirst).isNone then
          let (a, descId) := mxmlNewElement a (some tree) "description"
          let (a, _) := mxmlNewText a (some L.comment) false buf
          let (a, txtId) := mxmlNewText a (some descId) false buf
          (update_comment a (some tree) (some txtId), L)
        else
          ((mxmlNewText a (some L.comment) false buf).1, L)

/-- Split an identifier at a leading double-colon qualification: the first
colon of the buffer must be followed by another colon. -/
def splitScope : List Char → Option (List Char × List Char)
  | [] => none
  | ':' :: ':' :: rest => some ([], rest)
  | ':' :: _ => none
  | c :: rest => (splitScope rest).map (fun p => (c :: p.1, p.2))

/-- Handler for a slash met in the base state: enter a comment state, or
push the slash back into the type sequence as an operator fragment. -/
def stepSlash (a : Arena) (L : Locals) (rest : List Char) : Arena × Locals × List Char :=
  match rest with
  | '*' :: r2 => (a, { L with state := ScanSt.sCCom, buffer := [] }, r2)
  | '/' :: r2 => (a, { L with state := ScanSt.sCxxCom, buffer := [] }, r2)
  | _ =>
    let a' :=
      match L.type_ with
      | some ty => (mxmlNewText a (some ty) (wsAfterAlnum a ty) "/").1
      | none => a
    (a', { L with buffer := [] }, rest)

/-- State resets performed at a closing brace: clear the scope when a
struct or class was pending, clear the enumeration unless a typedef is
pending, and drop the pending constant and aggregate. -/
def closeBraceLocals (L : Locals) : Locals :=
  let L1 := if L.structclass.isSome then { L with scope := none } else L
  let L2 := if L1.typedefnode.isNone then { L1 with enumeration := none } else L1
  { L2 with constant := none, structclass := none }

/-- Handler for a closing brace in the base state: reset the pending scope
and enumeration state and either leave a nested block or finish this scan
invocation with success. -/
def stepCloseBrace (a : Arena) (L : Locals) (rest : List Char) :
    (Arena × Locals × List Char) ⊕ (Arena × List Char × Int) :=
  let L3 := closeBraceLocals L
  if 0 < L3.braces then
    Sum.inl (a, { L3 with braces := L3.braces - 1 }, rest)
  else
    Sum.inr (mxmlDelete a L3.comment, rest, 0)

/-- Handler for a closing parenthesis in the base state: record it in the
type sequence and, at depth zero with a pending function, finalize the
trailing argument or drop a lone void. -/
def stepCloseParen (a : Arena) (L : Locals) : Arena × Locals :=
  let a :=
    match L.type_ with
    | some ty => if 0 < L.parens then (mxmlNewText a (some ty) false ")").1 else a
    | none => a
  let step :=
    match L.function, L.type_ with
    | some f, some ty =>
      if L.parens = 0 then
        if 2 ≤ (a.childIds ty).length then
          let (a, v) := add_variable a (some f) "argument" (some ty)
          (a, { L with var_ := v, type_ := none })
        else
          (mxmlDelete a ty, { L with type_ := none })
      else (a, L)
    | _, _ => (a, L)
  (step.1, { step.2 with parens := step.2.parens - 1 })

/-- Handler for a semicolon in the base state: insert a pending function
prototype when scanning a class body (discard it elsewhere), then finish a
pending typedef (function-pointer form or typedef of a pending
enumeration), else drop the pending type sequence. -/
def stepSemi (a : Arena) (tree : Nat) (L : Locals) : Arena × Locals :=
  let step :=
    match L.function with
    | some f =>
      if elementNameOf a tree = "class" then
        (sort_node a (some tree) (some f), { L with function := none, var_ := none })
      else
        (mxmlDelete a f, { L with function := none, var_ := none })
    | none => (a, L)
  let a := step.1
  let L := step.2
  match L.type_ with
  | none => (a, L)
  | some ty =>
    let cs := a.childIds ty
    match cs.head? with
    | none => (mxmlDelete a ty, { L with type_ := none })
    | some c0 =>
      if textOf a c0 = "typedef" then
        let (a, td) := mxmlNewElement a none "typedef"
        let nameNode :=
          match (cs.drop 1).dropWhile (fun id => !(textOf a id = "(")) with
          | [] =>
            (match cs.getLast? with
             | some x => x
             | none => 0)
          | _ :: afterParen =>
            match afterParen.dropWhile (fun id => textOf a id = "*") with
            | [] =>
              (match cs.getLast? with
               | some x => x
               | none => 0)
            | nd :: _ => nd
        let a := mxmlElementSetAttr a td "name" (textOf a nameNode)
        let a := sort_node a (some tree) (some td)
        let a := if !(c0 = nameNode) then mxmlDelete a c0 else a
        let a := mxmlDelete a nameNode
        let a :=
          match (a.childIds ty).head? with
          | some c => setTextWs a c false
          | none => a
        let a := mxmlAdd a td MAdd.after none (some ty)
        (a, { L with type_ := none, typedefnode := some td })
      else
        match L.typedefnode, L.enumeration with
        | some td, some e =>
          let a := mxmlElementSetAttr a td "name" (textOf a c0)
          let a := sort_node a (some tree) (some td)
          let a := mxmlDelete a ty
          let (a, ty2) := mxmlNewElement a (some td) "type"
          let (a, _) := mxmlNewText a (some ty2) false "enum"
          let enm :=
            match mxmlElementGetAttr a e "name" with
            | some s => s
            | none => ""
          let (a, _) := mxmlNewText a (some ty2) true enm
          (a, { L with enumeration := none, type_ := none })
        | _, _ =>
          (mxmlDelete a ty, { L with type_ := none })

/-- Whether the first fragment of a type sequence has the given text. -/
def headTextIs (a : Arena) (ty : Nat) (s : String) : Bool :=
  match (a.childIds ty).head? with
  | some c0 => textOf a c0 = s
  | none => false

/-- Whether the last buffered character is a star. -/
def lastIsStar (buf : List Char) : Bool :=
  match buf.getLast? with
  | some c => c = '*'
  | none => false

/-- Characters that may extend an identifier, including a comma inside a
deeply parenthesized non-enumeration non-function context. -/
def identAllowed (L : Locals) (ch : Char) : Bool :=
  cIsAlnum ch || ch = '_' || ch = '[' || ch = ']' ||
  (ch = ',' && (1 < L.parens || (L.type_.isSome && L.enumeration.isNone && L.function.isNone))) ||
  ch = ':' || ch = '.' || ch = '~'

/-- Finalization of a buffered identifier on its first disallowed character
(which the caller pushes back): at depth zero, handle visibility keywords,
function starts, argument and variable endings and typedef or aggregate
names; inside braces, collect enumeration constants. -/
def stepIdentEnd (a : Arena) (tree : Nat) (L0 : Locals) (ch : Char) : Arena × Locals :=
  let L := { L0 with state := ScanSt.sNone }
  let buf := String.mk L.buffer
  if L.braces = 0 then
    let typeEmpty :=
      match L.type_ with
      | none => true
      | some ty => (a.childIds ty).isEmpty
    let scopeHit : Option String :=
      if typeEmpty && elementNameOf a tree = "class" then
        if buf = "public" || buf = "public:" then some "public"
        else if buf = "private" || buf = "private:" then some "private"
        else if buf = "protected" || buf = "protected:" then some "protected"
        else none
      else none
    match scopeHit with
    | some sc => (a, { L with scope := some sc })
    | none =>
      let mkTy :=
        match L.type_ with
        | some ty => (a, ty, L)
        | none =>
          let at2 := mxmlNewElement a none "type"
          (at2.1, at2.2, { L with type_ := some at2.2 })
      let a := mkTy.1
      let ty := mkTy.2.1
      let L := mkTy.2.2
      if L.function.isNone && ch = '(' then
        if headTextIs a ty "extern" then
          (mxmlDelete a ty, { L with type_ := none })
        else if headTextIs a ty "static" && elementNameOf a tree = "mxmldoc" then
          (mxmlDelete a ty, { L with type_ := none })
        else
          let (a, f) := mxmlNewElement a none "function"
          let nmFsc :=
            match splitScope L.buffer with
            | some (pre, post) =>
              let cls := mxmlFindElement a tree tree "class" (some "name") (some (String.mk pre)) MDescend.descendFirst
              let fsc' :=
                match cls with
                | some c => some c
                | none => mxmlFindElement a tree tree "struct" (some "name") (some (String.mk pre)) MDescend.descendFirst
              (String.mk post, fsc')
            | none => (buf, L.fstructclass)
          let a := mxmlElementSetAttr a f "name" nmFsc.1
          let a :=
            match L.scope with
            | some sc => mxmlElementSetAttr a f "scope" sc
            | none => a
          let step :=
            if (match (a.childIds ty).getLast? with
                | some lc => !(textOf a lc = "void")
                | none => false) then
              let (a, rv) := mxmlNewElement a (some f) "returnvalue"
              let a := mxmlAdd a rv MAdd.after none (some ty)
              let (a, d) := mxmlNewElement a (some rv) "description"
              let lc := (a.childIds L.comment).getLast?
              let a := update_comment a (some rv) lc
              let a := mxmlAdd a d MAdd.after none lc
              (a, { L with returnvalue := some rv })
            else
              (mxmlDelete a ty, L)
          let a := step.1
          let L2 := step.2
          let (a, d2) := mxmlNewElement a (some f) "description"
          let lc2 := (a.childIds L.comment).getLast?
          let a := update_comment a (some f) lc2
          let a := mxmlAdd a d2 MAdd.after none lc2
          (a, { L2 with function := some f, fstructclass := nmFsc.2, type_ := none })
      else if L.function.isSome && ((ch = ')' && L.parens = 1) || ch = ',') then
        if !(buf = "void") then
          let (a, _) := mxmlNewText a (some ty) (wsNotParenStar a ty) buf
          let (a, v) := add_variable a L.function "argument" (some ty)
          (a, { L with var_ := v, type_ := none })
        else
          (mxmlDelete a ty, { L with type_ := none })
      else if !(a.childIds ty).isEmpty && L.function.isNone && (ch = ';' || ch = ',') then
        if L.typedefnode.isSome || L.structclass.isSome then
          let a :=
            match L.typedefnode with
            | some td => sort_node (mxmlElementSetAttr a td "name" buf) (some tree) (some td)
            | none => a
          let step :=
            match L.structclass with
            | some sc =>
              if mxmlElementGetAttr a sc "name" = none then
                (sort_node (mxmlElementSetAttr a sc "name" buf) (some tree) (some sc),
                 { L with structclass := none })
              else (a, L)
            | none => (a, L)
          let a := step.1
          let L := step.2
          let a :=
            match L.typedefnode with
            | some td => mxmlAdd a td MAdd.before none (some ty)
            | none => mxmlDelete a ty
          (a, { L with type_ := none, typedefnode := none })
        else if headTextIs a ty "typedef" then
          let (a, td) := mxmlNewElement a none "typedef"
          let a := mxmlElementSetAttr a td "name" buf
          let a :=
            match (a.childIds ty).head? with
            | some c0 => mxmlDelete a c0
            | none => a
          let a := sort_node a (some tree) (some td)
          let a :=
            match (a.childIds ty).head? with
            | some c0 => setTextWs a c0 false
            | none => a
          let a := mxmlAdd a td MAdd.after none (some ty)
          (a, { L with type_ := none, typedefnode := some td })
        else if L.parens = 0 then
          if headTextIs a ty "static" && elementNameOf a tree = "mxmldoc" then
            (mxmlDelete a ty, { L with type_ := none })
          else
            let (a, _) := mxmlNewText a (some ty) (wsNotParenStar a ty) buf
            let (a, v) := add_variable a none "variable" (some ty)
            let a := sort_node a (some tree) v
            let a :=
              match v, L.scope with
              | some vid, some sc => mxmlElementSetAttr a vid "scope" sc
              | _, _ => a
            (a, { L with var_ := v, type_ := none })
        else (a, L)
      else
        let (a, _) := mxmlNewText a (some ty) (wsNotParenStar a ty) buf
        (a, L)
  else
    match L.enumeration with
    | some e =>
      if !(match L.buffer.head? with
           | some c => cIsDigit c
           | none => false) then
        let (a, con) := mxmlNewElement a none "constant"
        let a := mxmlElementSetAttr a con "name" buf
        let a := sort_node a (some e) (some con)
        (a, { L with constant := some con })
      else
        match L.type_ with
        | some ty => (mxmlDelete a ty, { L with type_ := none })
        | none => (a, L)
    | none =>
      match L.type_ with
      | some ty => (mxmlDelete a ty, { L with type_ := none })
      | none => (a, L)

/-- Dispatcher for the base state on every character except the opening
brace (which needs the recursive scan and is handled by the scan loop). -/
def stepNoneSimple (a : Arena) (tree : Nat) (L : Locals) (ch : Char) (rest : List Char) :
    (Arena × Locals × List Char) ⊕ (Arena × List Char × Int) :=
  match ch with
  | '/' => Sum.inl (stepSlash a L rest)
  | '#' => Sum.inl (a, { L with state := ScanSt.sPre }, rest)
  | '\'' => Sum.inl (a, { L with state := ScanSt.sChr, buffer := ['\''] }, rest)
  | '\"' => Sum.inl (a, { L with state := ScanSt.sStr, buffer := ['\"'] }, rest)
  | '}' => stepCloseBrace a L rest
  | '(' =>
    let a :=
      match L.type_ with
      | some ty => (mxmlNewText a (some ty) false "(").1
      | none => a
    Sum.inl (a, { L with parens := L.parens + 1 }, rest)
  | ')' =>
    let s := stepCloseParen a L
    Sum.inl (s.1, s.2, rest)
  | ';' =>
    let s := stepSemi a tree L
    Sum.inl (s.1, s.2, rest)
  | ':' =>
    let a :=
      match L.type_ with
      | some ty => (mxmlNewText a (some ty) true ":").1
      | none => a
    Sum.inl (a, L, rest)
  | '*' =>
    let a :=
      match L.type_ with
      | some ty => (mxmlNewText a (some ty) (wsAfterAlnum a ty) "*").1
      | none => a
    Sum.inl (a, L, rest)
  | ',' =>
    let a :=
      match L.type_ with
      | some ty => if L.enumeration.isNone then (mxmlNewText a (some ty) false ",").1 else a
      | none => a
    Sum.inl (a, L, rest)
  | '&' =>
    let a :=
      match L.type_ with
      | some ty => (mxmlNewText a (some ty) true "&").1
      | none => a
    Sum.inl (a, L, rest)
  | '+' =>
    let a :=
      match L.type_ with
      | some ty => (mxmlNewText a (some ty) (wsAfterAlnum a ty) "+").1
      | none => a
    Sum.inl (a, L, rest)
  | '-' =>
    let a :=
      match L.type_ with
      | some ty => (mxmlNewText a (some ty) (wsAfterAlnum a ty) "-").1
      | none => a
    Sum.inl (a, L, rest)
  | '=' =>
    let a :=
      match L.type_ with
      | some ty => (mxmlNewText a (some ty) (wsAfterAlnum a ty) "=").1
      | none => a
    Sum.inl (a, L, rest)
  | _ =>
    if cIsAlnum ch || ch = '_' || ch = '.' || ch = ':' || ch = '~' then
      Sum.inl (a, { L with state := ScanSt.sIdent, buffer := [ch] }, rest)
    else
      Sum.inl (a, L, rest)

/-- Preprocessor state: a newline leaves it, a backslash eats the next
character (line continuation). -/
def stepPre (L : Locals) (ch : Char) (rest : List Char) : Locals × List Char :=
  if ch = '\n' then ({ L with state := ScanSt.sNone }, rest)
  else if ch = '\\' then (L, rest.drop 1)
  else (L, rest)

/-- Block-comment state: a newline triggers the line scan for the closing
star-slash, a slash directly after a buffered star ends the comment with
trailing stars and whitespace trimmed, anything else accumulates (leading
spaces skipped). -/
def stepCCom (a : Arena) (tree : Nat) (L : Locals) (ch : Char) (rest : List Char) :
    Arena × Locals × List Char :=
  match ch with
  | '\n' =>
    (match ccLineScan L.buffer rest with
     | (some txt, buf', input') =>
       let pc := processComment a tree L (String.mk txt)
       (pc.1, { pc.2 with state := ScanSt.sNone, buffer := buf' }, input')
     | (none, buf', input') =>
       (a, { L with buffer := buf' }, input'))
  | '/' =>
    if lastIsStar L.buffer then
      let buf1 := dropTrail (fun c => c = '*' || cIsSpace c) L.buffer
      let pc := processComment a tree L (String.mk buf1)
      (pc.1, { pc.2 with state := ScanSt.sNone, buffer := buf1 }, rest)
    else
      (a, { L with buffer := bufPushChk L.buffer ch }, rest)
  | _ =>
    if ch = ' ' && L.buffer.isEmpty then (a, L, rest)
    else (a, { L with buffer := bufPushChk L.buffer ch }, rest)

/-- Line-comment state: a newline completes the comment, leading spaces are
skipped, everything else accumulates. -/
def stepCxx (a : Arena) (tree : Nat) (L : Locals) (ch : Char) (rest : List Char) :
    Arena × Locals × List Char :=
  if ch = '\n' then
    let pc := processComment a tree L (String.mk L.buffer)
    (pc.1, { pc.2 with state := ScanSt.sNone }, rest)
  else if ch = ' ' && L.buffer.isEmpty then (a, L, rest)
  else (a, { L with buffer := bufPushChk L.buffer ch }, rest)

/-- String-literal state: every character accumulates, a backslash eats and
accumulates the following character, the closing double quote emits the
whole literal (quotes included) into an open type sequence and returns to
the base state. -/
def stepStr (a : Arena) (L : Locals) (ch : Char) (rest : List Char) :
    Arena × Locals × List Char :=
  let buf := L.buffer ++ [ch]
  if ch = '\\' then
    match rest with
    | c2 :: rest2 => (a, { L with buffer := buf ++ [c2] }, rest2)
    | [] => (a, { L with buffer := buf }, [])
  else if ch = '\"' then
    let a :=
      match L.type_ with
      | some ty => (mxmlNewText a (some ty) (!(a.childIds ty).isEmpty) (String.mk buf)).1
      | none => a
    (a, { L with state := ScanSt.sNone, buffer := buf }, rest)
  else
    (a, { L with buffer := buf }, rest)

/-- Character-literal state: like the string state with a single quote as
the closing delimiter. -/
def stepChr (a : Arena) (L : Locals) (ch : Char) (rest : List Char) :
    Arena × Locals × List Char :=
  let buf := L.buffer ++ [ch]
  if ch = '\\' then
    match rest with
    | c2 :: rest2 => (a, { L with buffer := buf ++ [c2] }, rest2)
    | [] => (a, { L with buffer := buf }, [])
  else if ch = '\'' then
    let a :=
      match L.type_ with
      | some ty => (mxmlNewText a (some ty) (!(a.childIds ty).isEmpty) (String.mk buf)).1
      | none => a
    (a, { L with state := ScanSt.sNone, buffer := buf }, rest)
  else
    (a, { L with buffer := buf }, rest)

/-- Whether a type sequence starts an aggregate at an opening brace:
typedef followed by struct, union or class, or a bare struct, union or
class. -/
def aggCond (texts : List String) : Bool :=
  match texts with
  | [] => false
  | t0 :: tl =>
    (t0 = "typedef" &&
      (match tl with
       | t1 :: _ => t1 = "struct" || t1 = "union" || t1 = "class"
       | [] => false)) ||
    t0 = "union" || t0 = "struct" || t0 = "class"

/-- Whether a type sequence starts an enumeration at an opening brace: a
first fragment enum, or typedef followed by enum, with a second fragment
present. -/
def enumCond (texts : List String) : Bool :=
  match texts with
  | t0 :: t1 :: _ => t0 = "enum" || (t0 = "typedef" && t1 = "enum")
  | _ => false

/-- Outcome of the opening-brace handler: continue scanning, or first run
a recursive scan of an aggregate body (continuing with the given locals on
success), or first run a recursive extern-block scan of the same tree. -/
inductive BraceOut where
  | cont (a : Arena) (L : Locals)
  | recurseInto (a : Arena) (sub : Nat) (L : Locals)
  | recurseSame (a : Arena) (L : Locals)
deriving Repr, DecidableEq

/-- Handler for an opening brace in the base state: insert a pending
function (into a resolved class or struct target when one is set), start an
aggregate or enumeration from a matching pending type sequence, request the
recursive scan for aggregate bodies and extern blocks, or discard an
unparseable pending type, tracking the brace depth. -/
def stepBrace (a : Arena) (tree : Nat) (L : Locals) : BraceOut :=
  match L.function with
  | some f =>
    let a1 :=
      match L.fstructclass with
      | some fc => sort_node a (some fc) (some f)
      | none => sort_node a (some tree) (some f)
    BraceOut.cont a1
      { L with
          fstructclass := none
          function := none
          var_ := none
          braces := L.braces + 1 }
  | none =>
    match L.type_ with
    | none =>
      BraceOut.cont a { L with braces := L.braces + 1, function := none, var_ := none }
    | some ty =>
      let texts := (a.childIds ty).map (textOf a)
      if aggCond texts then
        let mkTd :=
          if headTextIs a ty "typedef" then
            let at2 := mxmlNewElement a none "typedef"
            let a3 :=
              match (at2.1.childIds ty).head? with
              | some c0 => mxmlDelete at2.1 c0
              | none => at2.1
            (a3, some at2.2)
          else (a, none)
        let a := mkTd.1
        let tdn := mkTd.2
        let scName :=
          match (a.childIds ty).head? with
          | some c0 => textOf a c0
          | none => ""
        let mkSc := mxmlNewElement a none scName
        let a := mkSc.1
        let sc := mkSc.2
        let a :=
          match ((a.childIds ty).drop 1).head? with
          | some c1 =>
            sort_node (mxmlElementSetAttr a sc "name" (textOf a c1)) (some tree) (some sc)
          | none => a
        let step :=
          if tdn.isSome then
            ((match (a.childIds ty).head? with
              | some c0 => setTextWs a c0 false
              | none => a), some ty)
          else
            let restIds := (a.childIds ty).drop 2
            if restIds.isEmpty then (mxmlDelete a ty, none)
            else
              let v := joinTexts a restIds
              let a := deleteAll a restIds
              let a := mxmlElementSetAttr a sc "parent" v
              (mxmlDelete a ty, none)
        let a := step.1
        let tyOpt := step.2
        let a :=
          match tdn, (a.childIds L.comment).getLast? with
          | some td, some lc =>
            let ant := mxmlNewText a (some L.comment) false (textOf a lc)
            let ad := mxmlNewElement ant.1 (some td) "description"
            let a2 := update_comment ad.1 (some td) (some ant.2)
            mxmlAdd a2 ad.2 MAdd.after none (some ant.2)
          | _, _ => a
        let mkD := mxmlNewElement a (some sc) "description"
        let a := mkD.1
        let lc2 := (a.childIds L.comment).getLast?
        let a := update_comment a (some sc) lc2
        let a := mxmlAdd a mkD.2 MAdd.after none lc2
        BraceOut.recurseInto a sc
          { L with structclass := none, typedefnode := tdn, type_ := tyOpt }
      else if enumCond texts then
        let mkTd :=
          if headTextIs a ty "typedef" then
            let at2 := mxmlNewElement a none "typedef"
            let a3 :=
              match (at2.1.childIds ty).head? with
              | some c0 => mxmlDelete at2.1 c0
              | none => at2.1
            (a3, some at2.2)
          else (a, none)
        let a := mkTd.1
        let tdn := mkTd.2
        let mkE := mxmlNewElement a none "enumeration"
        let a := mkE.1
        let e := mkE.2
        let a :=
          match ((a.childIds ty).drop 1).head? with
          | some c1 =>
            sort_node (mxmlElementSetAttr a e "name" (textOf a c1)) (some tree) (some e)
          | none => a
        let step :=
          if tdn.isSome && !(a.childIds ty).isEmpty then
            ((match (a.childIds ty).head? with
              | some c0 => setTextWs a c0 false
              | none => a), some ty)
          else
            (mxmlDelete a ty, none)
        let a := step.1
        let tyOpt := step.2
        let a :=
          match tdn, (a.childIds L.comment).getLast? with
          | some td, some lc =>
            let ant := mxmlNewText a (some L.comment) false (textOf a lc)
            let ad := mxmlNewElement ant.1 (some td) "description"
            let a2 := update_comment ad.1 (some td) (some ant.2)
            mxmlAdd a2 ad.2 MAdd.after none (some ant.2)
          | _, _ => a
        let mkD := mxmlNewElement a (some e) "description"
        let a := mkD.1
        let lc2 := (a.childIds L.comment).getLast?
        let a := update_comment a (some e) lc2
        let a := mxmlAdd a mkD.2 MAdd.after none lc2
        BraceOut.cont a
          { L with
              enumeration := some e
              typedefnode := tdn
              type_ := tyOpt
              braces := L.braces + 1
              function := none
              var_ := none }
      else if headTextIs a ty "extern" then
        BraceOut.recurseSame a { L with braces := L.braces + 1, function := none, var_ := none }
      else
        BraceOut.cont (mxmlDelete a ty)
          { L with
              type_ := none
              braces := L.braces + 1
              function := none
              var_ := none }

/-- The initial locals of a scan_file invocation over a given tree with a
given comment node (scope starts private inside a class body). -/
def initLocals (a : Arena) (tree commentId : Nat) : Locals :=
  { state := ScanSt.sNone
    braces := 0
    parens := 0
    buffer := []
    scope := if elementNameOf a tree = "class" then some "private" else none
    comment := commentId
    constant := none
    enumeration := none
    function := none
    fstructclass := none
    structclass := none
    typedefnode := none
    var_ := none
    returnvalue := none
    type_ := none }

/-- Dispatch of one loop iteration on the machine state, for every state
except the base state with an opening brace (whose recursive scans the
loop performs itself): the next arena, locals and input. -/
def stepDispatch (a : Arena) (tree : Nat) (L : Locals) (ch : Char) (rest : List Char) :
    (Arena × Locals × List Char) ⊕ (Arena × List Char × Int) :=
  match L.state with
  | ScanSt.sNone => stepNoneSimple a tree L ch rest
  | ScanSt.sPre =>
    let s := stepPre L ch rest
    Sum.inl (a, s.1, s.2)
  | ScanSt.sCCom => Sum.inl (stepCCom a tree L ch rest)
  | ScanSt.sCxxCom => Sum.inl (stepCxx a tree L ch rest)
  | ScanSt.sStr => Sum.inl (stepStr a L ch rest)
  | ScanSt.sChr => Sum.inl (stepChr a L ch rest)
  | ScanSt.sIdent =>
    if identAllowed L ch then
      Sum.inl (a, { L with buffer := bufPushChk L.buffer ch }, rest)
    else
      let s := stepIdentEnd a tree L ch
      Sum.inl (s.1, s.2, ch :: rest)

mutual

/-- Transliteration of scan_file from mxmldoc.c, indexed by fuel: allocate
the floating comment-history node, initialize the machine state and run
the character loop. -/
def scan_file : Nat → Arena → Nat → List Char → Option (Arena × List Char × Int)
  | 0, _, _, _ => none
  | fuel + 1, a, tree, input =>
    let start := mxmlNewElement a none "temp"
    scan_loop fuel start.1 tree (initLocals start.1 tree start.2) input

/-- Character loop of scan_file: at end of input delete the comment node
and return success; otherwise dispatch on the machine state, recursing
into scan_file for aggregate bodies and extern blocks at an opening
brace and discarding the tree when a recursive scan fails. -/
def scan_loop : Nat → Arena → Nat → Locals → List Char → Option (Arena × List Char × Int)
  | 0, _, _, _, _ => none
  | fuel + 1, a, tree, L, input =>
    match input with
    | [] => some (mxmlDelete a L.comment, [], 0)
    | ch :: rest =>
      if L.state = ScanSt.sNone && ch = '\x7b' then
        match stepBrace a tree L with
        | BraceOut.cont a1 L1 => scan_loop fuel a1 tree L1 rest
        | BraceOut.recurseInto a1 sub L1 =>
          match scan_file fuel a1 sub rest with
          | none => none
          | some (a2, rest2, r) =>
            if r = 0 then scan_loop fuel a2 tree L1 rest2
            else some (mxmlDelete a2 L1.comment, rest2, -1)
        | BraceOut.recurseSame a1 L1 =>
          match scan_file fuel a1 tree rest with
          | none => none
          | some (a2, rest2, r) =>
            if r = 0 then scan_loop fuel a2 tree L1 rest2
            else some (mxmlDelete a2 L1.comment, rest2, -1)
      else
        match stepDispatch a tree L ch rest with
        | Sum.inl s => scan_loop fuel s.1 tree s.2.1 s.2.2
        | Sum.inr out => some out

end

/-- Transliteration of new_documentation from mxmldoc.c (the enclosing XML
node of mxmlNewXML is modelled from the spec as a plain element): a fresh
documentation tree, returning the arena and the index of the mxmldoc
root. -/
def new_documentation : Arena × Nat :=
  let a0 : Arena := { nextId := 0, nodes := [] }
  let mk1 := mxmlNewElement a0 none "?xml"
  let mk2 := mxmlNewElement mk1.1 (some mk1.2) "mxmldoc"
  let a := mxmlElementSetAttr mk2.1 mk2.2 "xmlns" "http://www.easysw.com"
  let a := mxmlElementSetAttr a mk2.2 "xmlns:xsi" "http://www.w3.org/2001/XMLSchema-instance"
  let a := mxmlElementSetAttr a mk2.2 "xsi:schemaLocation" "http://www.minixml.org/mxmldoc.xsd"
  (a, mk2.2)


/- Concrete inputs and execution traces.  The literal configuration lists
below record the successive states of the scan loop on the concrete inputs
of the claims; each adjacent pair is validated against the step functions
by the chain checker, which ties the literals to the transliterated
scanner. -/

/-- One non-brace loop step between two recorded configurations. -/
def stepOkB (tree : Nat) (c c' : Arena × Locals × List Char) : Bool :=
  match c.2.2 with
  | [] => false
  | ch :: r =>
    !(c.2.1.state = ScanSt.sNone && ch = '\x7b') &&
    stepDispatch c.1 tree c.2.1 ch r = Sum.inl c'

/-- Validation of a whole recorded configuration chain. -/
def chainOkB (tree : Nat) : List (Arena × Locals × List Char) → Bool
  | [] => true
  | [_] => true
  | c :: c' :: rest => stepOkB tree c c' && chainOkB tree (c' :: rest)

/-- The typedef-struct example input of the spec. -/
def c5input : List Char := "typedef struct \x7b int x; int y; \x7d point_t;".toList

/-- The example input after the opening brace (seen by the recursive
scan). -/
def c5innerRest : List Char := " int x; int y; \x7d point_t;".toList

/-- The example input after the aggregate body. -/
def c5outRest : List Char := " point_t;".toList

def c5a0 : Arena := { nextId := 3, nodes := [(0, { value := MxmlValue.element "?xml" [], parent := none, children := [1] }), (1, { value := MxmlValue.element "mxmldoc" [("xmlns", "http://www.easysw.com"), ("xmlns:xsi", "http://www.w3.org/2001/XMLSchema-instance"), ("xsi:schemaLocation", "http://www.minixml.org/mxmldoc.xsd")], parent := some 0, children := [] }), (2, { value := MxmlValue.element "temp" [], parent := none, children := [] })] }

def c5L0 : Locals := { state := ScanSt.sNone, braces := 0, parens := 0, buffer := [], scope := none, comment := 2, constant := none, enumeration := none, function := none, fstructclass := none, structclass := none, typedefnode := none, var_ := none, returnvalue := none, type_ := none }

def c5t1 : List (Arena × Locals × List Char) := [({ nextId := 3, nodes := [(0, { value := MxmlValue.element "?xml" [], parent := none, children := [1] }), (1, { value := MxmlValue.element "mxmldoc" [("xmlns", "http://www.easysw.com"), ("xmlns:xsi", "http://www.w3.org/2001/XMLSchema-instance"), ("xsi:schemaLocation", "http://www.minixml.org/mxmldoc.xsd")], parent := some 0, children := [] }), (2, { value := MxmlValue.element "temp" [], parent := none, children := [] })] }, { state := ScanSt.sIdent, braces := 0, parens := 0, buffer := ['t'], scope := none, comment := 2, constant := none, enumeration := none, function := none, fstructclass := none, structclass := none, typedefnode := none, var_ := none, returnvalue := none, type_ := none }, ['y', 'p', 'e', 'd', 'e', 'f', ' ', 's', 't', 'r', 'u', 'c', 't', ' ', '\x7b', ' ', 'i', 'n', 't', ' ', 'x', ';', ' ', 'i', 'n', 't', ' ', 'y', ';', ' ', '\x7d', ' ', 'p', 'o', 'i', 'n', 't', '_', 't', ';']), ({ nextId := 3, nodes := [(0, { value := MxmlValue.element "?xml" [], parent := none, children := [1] }), (1, { value := MxmlValue.element "mxmldoc" [("xmlns", "http://www.easysw.com"), ("xmlns:xsi", "http://www.w3.org/2001/XMLSchema-instance"), ("xsi:schemaLocation", "http://www.minixml.org/mxmldoc.xsd")], parent := some 0, children := [] }), (2, { value := MxmlValue.element "temp" [], parent := none, children := [] })] }, { state := ScanSt.sIdent, braces := 0, parens := 0, buffer := ['t', 'y'], scope := none, comment := 2, constant := none, enumeration := none, function := none, fstructclass := none, structclass := none, typedefnode := none, var_ := none, returnvalue := none, type_ := none }, ['p', 'e', 'd', 'e', 'f', ' ', 's', 't', 'r', 'u', 'c', 't', ' ', '\x7b', ' ', 'i', 'n', 't', ' ', 'x', ';', ' ', 'i', 'n', 't', ' ', 'y', ';', ' ', '\x7d', ' ', 'p', 'o', 'i', 'n', 't', '_', 't', ';']), ({ nextId := 3, nodes := [(0, { value := MxmlValue.element "?xml" [], parent := none, children := [1] }), (1, { value := MxmlValue.element "mxmldoc" [("xmlns", "http://www.easysw.com"), ("xmlns:xsi", "http://www.w3.org/2001/XMLSchema-instance"), ("xsi:schemaLocation", "http://www.minixml.org/mxmldoc.xsd")], parent := some 0, children := [] }), (2, { value := MxmlValue.element "temp" [], parent := none, children := [] })] }, { state := ScanSt.sIdent, braces := 0, parens := 0, buffer := ['t', 'y', 'p'], scope := none, comment := 2, constant := none, enumeration := none, function := none, fstructclass := none, structclass := none, typedefnode := none, var_ := none, returnvalue := none, type_ := none }, ['e', 'd', 'e', 'f', ' ', 's', 't', 'r', 'u', 'c', 't', ' ', '\x7b', ' ', 'i', 'n', 't', ' ', 'x', ';', ' ', 'i', 'n', 't', ' ', 'y', ';', ' ', '\x7d', ' ', 'p', 'o', 'i', 'n', 't', '_', 't', ';']), ({ nextId := 3, nodes := [(0, { value := MxmlValue.element "?xml" [], parent := none, children := [1] }), (1, { value := MxmlValue.element "mxmldoc" [("xmlns", "http://www.easysw.com"), ("xmlns:xsi", "http://www.w3.org/2001/XMLSchema-instance"), ("xsi:schemaLocation", "http://www.minixml.org/mxmldoc.xsd")], parent := some 0, children := [] }), (2, { value := MxmlValue.element "temp" [], parent := none, children := [] })] }, { state := ScanSt.sIdent, braces := 0, parens := 0, buffer := ['t', 'y', 'p', 'e'], scope := none, comment := 2, constant := none, enumeration := none, function := none, fstructclass := none, structclass := none, typedefnode := none, var_ := none, returnvalue := none, type_ := none }, ['d', 'e', 'f', ' ', 's', 't', 'r', 'u', 'c', 't', ' ', '\x7b', ' ', 'i', 'n', 't', ' ', 'x', ';', ' ', 'i', 'n', 't', ' ', 'y', ';', ' ', '\x7d', ' ', 'p', 'o', 'i', 'n', 't', '_', 't', ';']), ({ nextId := 3, nodes := [(0, { value := MxmlValue.element "?xml" [], parent := none, children := [1] }), (1, { value := MxmlValue.element "mxmldoc" [("xmlns", "http://www.easysw.com"), ("xmlns:xsi", "http://www.w3.org/2001/XMLSchema-instance"), ("xsi:schemaLocation", "http://www.minixml.org/mxmldoc.xsd")], parent := some 0, children := [] }), (2, { value := MxmlValue.element "temp" [], parent := none, children := [] })] }, { state := ScanSt.sIdent, braces := 0, parens := 0, buffer := ['t', 'y', 'p', 'e', 'd'], scope := none, comment := 2, constant := none, enumeration := none, function := none, fstructclass := none, structclass := none, typedefnode := none, var_ := none, returnvalue := none, type_ := none }, ['e', 'f', ' ', 's', 't', 'r', 'u', 'c', 't', ' ', '\x7b', ' ', 'i', 'n', 't', ' ', 'x', ';', ' ', 'i', 'n', 't', ' ', 'y', ';', ' ', '\x7d', ' ', 'p', 'o', 'i', 'n', 't', '_', 't', ';']), ({ nextId := 3, nodes := [(0, { value := MxmlValue.element "?xml" [], parent := none, children := [1] }), (1, { value := MxmlValue.element "mxmldoc" [("xmlns", "http://www.easysw.com"), ("xmlns:xsi", "http://www.w3.org/2001/XMLSchema-instance"), ("xsi:schemaLocation", "http://www.minixml.org/mxmldoc.xsd")], parent := some 0, children := [] }), (2, { value := MxmlValue.element "temp" [], parent := none, children := [] })] }, { state := ScanSt.sIdent, braces := 0, parens := 0, buffer := ['t', 'y', 'p', 'e', 'd', 'e'], scope := none, comment := 2, constant := none, enumeration := none, function := none, fstructclass := none, structclass := none, typedefnode := none, var_ := none, returnvalue := none, type_ := none }, ['f', ' ', 's', 't', 'r', 'u', 'c', 't', ' ', '\x7b', ' ', 'i', 'n', 't', ' ', 'x', ';', ' ', 'i', 'n', 't', ' ', 'y', ';', ' ', '\x7d', ' ', 'p', 'o', 'i', 'n', 't', '_', 't', ';']), ({ nextId := 3, nodes := [(0, { value := MxmlValue.element "?xml" [], parent := none, children := [1] }), (1, { value := MxmlValue.element "mxmldoc" [("xmlns", "http://www.easysw.com"), ("xmlns:xsi", "http://www.w3.org/2001/XMLSchema-instance"), ("xsi:schemaLocation", "http://www.minixml.org/mxmldoc.xsd")], parent := some 0, children := [] }), (2, { value := MxmlValue.element "temp" [], parent := none, children := [] })] }, { state := ScanSt.sIdent, braces := 0, parens := 0, buffer := ['t', 'y', 'p', 'e', 'd', 'e', 'f'], scope := none, comment := 2, constant := none, enumeration := none, function := none, fstructclass := none, structclass := none, typedefnode := none, var_ := none, returnvalue := none, type_ := none }, [' ', 's', 't', 'r', 'u', 'c', 't', ' ', '\x7b', ' ', 'i', 'n', 't', ' ', 'x', ';', ' ', 'i', 'n', 't', ' ', 'y', ';', ' ', '\x7d', ' ', 'p', 'o', 'i', 'n', 't', '_', 't', ';']), ({ nextId := 5, nodes := [(0, { value := MxmlValue.element "?xml" [], parent := none, children := [1] }), (1, { value := MxmlValue.element "mxmldoc" [("xmlns", "http://www.easysw.com"), ("xmlns:xsi", "http://www.w3.org/2001/XMLSchema-instance"), ("xsi:schemaLocation", "http://www.minixml.org/mxmldoc.xsd")], parent := some 0, children := [] }), (2, { value := MxmlValue.element "temp" [], parent := none, children := [] }), (3, { value := MxmlValue.element "type" [], parent := none, children := [4] }), (4, { value := MxmlValue.text false "typedef", parent := some 3, children := [] })] }, { state := ScanSt.sNone, braces := 0, parens := 0, buffer := ['t', 'y', 'p', 'e', 'd', 'e', 'f'], scope := none, comment := 2, constant := none, enumeration := none, function := none, fstructclass := none, structclass := none, typedefnode := none, var_ := none, returnvalue := none, type_ := some 3 }, [' ', 's', 't', 'r', 'u', 'c', 't', ' ', '\x7b', ' ', 'i', 'n', 't', ' ', 'x', ';', ' ', 'i', 'n', 't', ' ', 'y', ';', ' ', '\x7d', ' ', 'p', 'o', 'i', 'n', 't', '_', 't', ';']), ({ nextId := 5, nodes := [(0, { value := MxmlValue.element "?xml" [], parent := none, children := [1] }), (1, { value := MxmlValue.element "mxmldoc" [("xmlns", "http://www.easysw.com"), ("xmlns:xsi", "http://www.w3.org/2001/XMLSchema-instance"), ("xsi:schemaLocation", "http://www.minixml.org/mxmldoc.xsd")], parent := some 0, children := [] }), (2, { value := MxmlValue.element "temp" [], parent := none, children := [] }), (3, { value := MxmlValue.element "type" [], parent := none, children := [4] }), (4, { value := MxmlValue.text false "typedef", parent := some 3, children := [] })] }, { state := ScanSt.sNone, braces := 0, parens := 0, buffer := ['t', 'y', 'p', 'e', 'd', 'e', 'f'], scope := none, comment := 2, constant := none, enumeration := none, function := none, fstructclass := none, structclass := none, typedefnode := none, var_ := none, returnvalue := none, type_ := some 3 }, ['s', 't', 'r', 'u', 'c', 't', ' ', '\x7b', ' ', 'i', 'n', 't', ' ', 'x', ';', ' ', 'i', 'n', 't', ' ', 'y', ';', ' ', '\x7d', ' ', 'p', 'o', 'i', 'n', 't', '_', 't', ';']), ({ nextId := 5, nodes := [(0, { value := MxmlValue.element "?xml" [], parent := none, children := [1] }), (1, { value := MxmlValue.element "mxmldoc" [("xmlns", "http://www.easysw.com"), ("xmlns:xsi", "http://www.w3.org/2001/XMLSchema-instance"), ("xsi:schemaLocation", "http://www.minixml.org/mxmldoc.xsd")], parent := some 0, children := [] }), (2, { value := MxmlValue.element "temp" [], parent := none, children := [] }), (3, { value := MxmlValue.element "type" [], parent := none, children := [4] }), (4, { value := MxmlValue.text false "typedef", parent := some 3, children := [] })] }, { state := ScanSt.sIdent, braces := 0, parens := 0, buffer := ['s'], scope := none, comment := 2, constant := none, enumeration := none, function := none, fstructclass := none, structclass := none, typedefnode := none, var_ := none, returnvalue := none, type_ := some 3 }, ['t', 'r', 'u', 'c', 't', ' ', '\x7b', ' ', 'i', 'n', 't', ' ', 'x', ';', ' ', 'i', 'n', 't', ' ', 'y', ';', ' ', '\x7d', ' ', 'p', 'o', 'i', 'n', 't', '_', 't', ';']), ({ nextId := 5, nodes := [(0, { value := MxmlValue.element "?xml" [], parent := none, children := [1] }), (1, { value := MxmlValue.element "mxmldoc" [("xmlns", "http://www.easysw.com"), ("xmlns:xsi", "http://www.w3.org/2001/XMLSchema-instance"), ("xsi:schemaLocation", "http://www.minixml.org/mxmldoc.xsd")], parent := some 0, children := [] }), (2, { value := MxmlValue.element "temp" [], parent := none, children := [] }), (3, { value := MxmlValue.element "type" [], parent := none, children := [4] }), (4, { value := MxmlValue.text false "typedef", parent := some 3, children := [] })] }, { state := ScanSt.sIdent, braces := 0, parens := 0, buffer := ['s', 't'], scope := none, comment := 2, constant := none, enumeration := none, function := none, fstructclass := none, structclass := none, typedefnode := none, var_ := none, returnvalue := none, type_ := some 3 }, ['r', 'u', 'c', 't', ' ', '\x7b', ' ', 'i', 'n', 't', ' ', 'x', ';', ' ', 'i', 'n', 't', ' ', 'y', ';', ' ', '\x7d', ' ', 'p', 'o', 'i', 'n', 't', '_', 't', ';']), ({ nextId := 5, nodes := [(0, { value := MxmlValue.element "?xml" [], parent := none, children := [1] }), (1, { value := MxmlValue.element "mxmldoc" [("xmlns", "http://www.easysw.com"), ("xmlns:xsi", "http://www.w3.org/2001/XMLSchema-instance"), ("xsi:schemaLocation", "http://www.minixml.org/mxmldoc.xsd")], parent := some 0, children := [] }), (2, { value := MxmlValue.element "temp" [], parent := none, children := [] }), (3, { value := MxmlValue.element "type" [], parent := none, children := [4] }), (4, { value := MxmlValue.text false "typedef", parent := some 3, children := [] })] }, { state := ScanSt.sIdent, braces := 0, parens := 0, buffer := ['s', 't', 'r'], scope := none, comment := 2, constant := none, enumeration := none, function := none, fstructclass := none, structclass := none, typedefnode := none, var_ := none, returnvalue := none, type_ := some 3 }, ['u', 'c', 't', ' ', '\x7b', ' ', 'i', 'n', 't', ' ', 'x', ';', ' ', 'i', 'n', 't', ' ', 'y', ';', ' ', '\x7d', ' ', 'p', 'o', 'i', 'n', 't', '_', 't', ';']), ({ nextId := 5, nodes := [(0, { value := MxmlValue.element "?xml" [], parent := none, children := [1] }), (1, { value := MxmlValue.element "mxmldoc" [("xmlns", "http://www.easysw.com"), ("xmlns:xsi", "http://www.w3.org/2001/XMLSchema-instance"), ("xsi:schemaLocation", "http://www.minixml.org/mxmldoc.xsd")], parent := some 0, children := [] }), (2, { value := MxmlValue.element "temp" [], parent := none, children := [] }), (3, { value := MxmlValue.element "type" [], parent := none, children := [4] }), (4, { value := MxmlValue.text false "typedef", parent := some 3, children := [] })] }, { state := ScanSt.sIdent, braces := 0, parens := 0, buffer := ['s', 't', 'r', 'u'], scope := none, comment := 2, constant := none, enumeration := none, function := none, fstructclass := none, structclass := none, typedefnode := none, var_ := none, returnvalue := none, type_ := some 3 }, ['c', 't', ' ', '\x7b', ' ', 'i', 'n', 't', ' ', 'x', ';', ' ', 'i', 'n', 't', ' ', 'y', ';', ' ', '\x7d', ' ', 'p', 'o', 'i', 'n', 't', '_', 't', ';']), ({ nextId := 5, nodes := [(0, { value := MxmlValue.element "?xml" [], parent := none, children := [1] }), (1, { value := MxmlValue.element "mxmldoc" [("xmlns", "http://www.easysw.com"), ("xmlns:xsi", "http://www.w3.org/2001/XMLSchema-instance"), ("xsi:schemaLocation", "http://www.minixml.org/mxmldoc.xsd")], parent := some 0, children := [] }), (2, { value := MxmlValue.element "temp" [], parent := none, children := [] }), (3, { value := MxmlValue.element "type" [], parent := none, children := [4] }), (4, { value := MxmlValue.text false "typedef", parent := some 3, children := [] })] }, { state := ScanSt.sIdent, braces := 0, parens := 0, buffer := ['s', 't', 'r', 'u', 'c'], scope := none, comment := 2, constant := none, enumeration := none, function := none, fstructclass := none, structclass := none, typedefnode := none, var_ := none, returnvalue := none, type_ := some 3 }, ['t', ' ', '\x7b', ' ', 'i', 'n', 't', ' ', 'x', ';', ' ', 'i', 'n', 't', ' ', 'y', ';', ' ', '\x7d', ' ', 'p', 'o', 'i', 'n', 't', '_', 't', ';']), ({ nextId := 5, nodes := [(0, { value := MxmlValue.element "?xml" [], parent := none, children := [1] }), (1, { value := MxmlValue.element "mxmldoc" [("xmlns", "http://www.easysw.com"), ("xmlns:xsi", "http://www.w3.org/2001/XMLSchema-instance"), ("xsi:schemaLocation", "http://www.minixml.org/mxmldoc.xsd")], parent := some 0, children := [] }), (2, { value := MxmlValue.element "temp" [], parent := none, children := [] }), (3, { value := MxmlValue.element "type" [], parent := none, children := [4] }), (4, { value := MxmlValue.text false "typedef", parent := some 3, children := [] })] }, { state := ScanSt.sIdent, braces := 0, parens := 0, buffer := ['s', 't', 'r', 'u', 'c', 't'], scope := none, comment := 2, constant := none, enumeration := none, function := none, fstructclass := none, structclass := none, typedefnode := none, var_ := none, returnvalue := none, type_ := some 3 }, [' ', '\x7b', ' ', 'i', 'n', 't', ' ', 'x', ';', ' ', 'i', 'n', 't', ' ', 'y', ';', ' ', '\x7d', ' ', 'p', 'o', 'i', 'n', 't', '_', 't', ';']), ({ nextId := 6, nodes := [(0, { value := MxmlValue.element "?xml" [], parent := none, children := [1] }), (1, { value := MxmlValue.element "mxmldoc" [("xmlns", "http://www.easysw.com"), ("xmlns:xsi", "http://www.w3.org/2001/XMLSchema-instance"), ("xsi:schemaLocation", "http://www.minixml.org/mxmldoc.xsd")], parent := some 0, children := [] }), (2, { value := MxmlValue.element "temp" [], parent := none, children := [] }), (3, { value := MxmlValue.element "type" [], parent := none, children := [4, 5] }), (4, { value := MxmlValue.text false "typedef", parent := some 3, children := [] }), (5, { value := MxmlValue.text true "struct", parent := some 3, children := [] })] }, { state := ScanSt.sNone, braces := 0, parens := 0, buffer := ['s', 't', 'r', 'u', 'c', 't'], scope := none, comment := 2, constant := none, enumeration := none, function := none, fstructclass := none, structclass := none, typedefnode := none, var_ := none, returnvalue := none, type_ := some 3 }, [' ', '\x7b', ' ', 'i', 'n', 't', ' ', 'x', ';', ' ', 'i', 'n', 't', ' ', 'y', ';', ' ', '\x7d', ' ', 'p', 'o', 'i', 'n', 't', '_', 't', ';']), ({ nextId := 6, nodes := [(0, { value := MxmlValue.element "?xml" [], parent := none, children := [1] }), (1, { value := MxmlValue.element "mxmldoc" [("xmlns", "http://www.easysw.com"), ("xmlns:xsi", "http://www.w3.org/2001/XMLSchema-instance"), ("xsi:schemaLocation", "http://www.minixml.org/mxmldoc.xsd")], parent := some 0, children := [] }), (2, { value := MxmlValue.element "temp" [], parent := none, children := [] }), (3, { value := MxmlValue.element "type" [], parent := none, children := [4, 5] }), (4, { value := MxmlValue.text false "typedef", parent := some 3, children := [] }), (5, { value := MxmlValue.text true "struct", parent := some 3, children := [] })] }, { state := ScanSt.sNone, braces := 0, parens := 0, buffer := ['s', 't', 'r', 'u', 'c', 't'], scope := none, comment := 2, constant := none, enumeration := none, function := none, fstructclass := none, structclass := none, typedefnode := none, var_ := none, returnvalue := none, type_ := some 3 }, ['\x7b', ' ', 'i', 'n', 't', ' ', 'x', ';', ' ', 'i', 'n', 't', ' ', 'y', ';', ' ', '\x7d', ' ', 'p', 'o', 'i', 'n', 't', '_', 't', ';'])]

def c5brace : Arena × Locals × List Char := ({ nextId := 6, nodes := [(0, { value := MxmlValue.element "?xml" [], parent := none, children := [1] }), (1, { value := MxmlValue.element "mxmldoc" [("xmlns", "http://www.easysw.com"), ("xmlns:xsi", "http://www.w3.org/2001/XMLSchema-instance"), ("xsi:schemaLocation", "http://www.minixml.org/mxmldoc.xsd")], parent := some 0, children := [] }), (2, { value := MxmlValue.element "temp" [], parent := none, children := [] }), (3, { value := MxmlValue.element "type" [], parent := none, children := [4, 5] }), (4, { value := MxmlValue.text false "typedef", parent := some 3, children := [] }), (5, { value := MxmlValue.text true "struct", parent := some 3, children := [] })] }, { state := ScanSt.sNone, braces := 0, parens := 0, buffer := ['s', 't', 'r', 'u', 'c', 't'], scope := none, comment := 2, constant := none, enumeration := none, function := none, fstructclass := none, structclass := none, typedefnode := none, var_ := none, returnvalue := none, type_ := some 3 }, ['\x7b', ' ', 'i', 'n', 't', ' ', 'x', ';', ' ', 'i', 'n', 't', ' ', 'y', ';', ' ', '\x7d', ' ', 'p', 'o', 'i', 'n', 't', '_', 't', ';'])

def c5a1 : Arena := { nextId := 9, nodes := [(0, { value := MxmlValue.element "?xml" [], parent := none, children := [1] }), (1, { value := MxmlValue.element "mxmldoc" [("xmlns", "http://www.easysw.com"), ("xmlns:xsi", "http://www.w3.org/2001/XMLSchema-instance"), ("xsi:schemaLocation", "http://www.minixml.org/mxmldoc.xsd")], parent := some 0, children := [] }), (2, { value := MxmlValue.element "temp" [], parent := none, children := [] }), (3, { value := MxmlValue.element "type" [], parent := none, children := [5] }), (5, { value := MxmlValue.text false "struct", parent := some 3, children := [] }), (6, { value := MxmlValue.element "typedef" [], parent := none, children := [] }), (7, { value := MxmlValue.element "struct" [], parent := none, children := [8] }), (8, { value := MxmlValue.element "description" [], parent := some 7, children := [] })] }

def c5L1 : Locals := { state := ScanSt.sNone, braces := 0, parens := 0, buffer := ['s', 't', 'r', 'u', 'c', 't'], scope := none, comment := 2, constant := none, enumeration := none, function := none, fstructclass := none, structclass := none, typedefnode := some 6, var_ := none, returnvalue := none, type_ := some 3 }

def c5innerA : Arena := { nextId := 10, nodes := [(0, { value := MxmlValue.element "?xml" [], parent := none, children := [1] }), (1, { value := MxmlValue.element "mxmldoc" [("xmlns", "http://www.easysw.com"), ("xmlns:xsi", "http://www.w3.org/2001/XMLSchema-instance"), ("xsi:schemaLocation", "http://www.minixml.org/mxmldoc.xsd")], parent := some 0, children := [] }), (2, { value := MxmlValue.element "temp" [], parent := none, children := [] }), (3, { value := MxmlValue.element "type" [], parent := none, children := [5] }), (5, { value := MxmlValue.text false "struct", parent := some 3, children := [] }), (6, { value := MxmlValue.element "typedef" [], parent := none, children := [] }), (7, { value := MxmlValue.element "struct" [], parent := none, children := [8] }), (8, { value := MxmlValue.element "description" [], parent := some 7, children := [] }), (9, { value := MxmlValue.element "temp" [], parent := none, children := [] })] }

def c5innerL : Locals := { state := ScanSt.sNone, braces := 0, parens := 0, buffer := [], scope := none, comment := 9, constant := none, enumeration := none, function := none, fstructclass := none, structclass := none, typedefnode := none, var_ := none, returnvalue := none, type_ := none }

def c5t2 : List (Arena × Locals × List Char) := [({ nextId := 10, nodes := [(0, { value := MxmlValue.element "?xml" [], parent := none, children := [1] }), (1, { value := MxmlValue.element "mxmldoc" [("xmlns", "http://www.easysw.com"), ("xmlns:xsi", "http://www.w3.org/2001/XMLSchema-instance"), ("xsi:schemaLocation", "http://www.minixml.org/mxmldoc.xsd")], parent := some 0, children := [] }), (2, { value := MxmlValue.element "temp" [], parent := none, children := [] }), (3, { value := MxmlValue.element "type" [], parent := none, children := [5] }), (5, { value := MxmlValue.text false "struct", parent := some 3, children := [] }), (6, { value := MxmlValue.element "typedef" [], parent := none, children := [] }), (7, { value := MxmlValue.element "struct" [], parent := none, children := [8] }), (8, { value := MxmlValue.element "description" [], parent := some 7, children := [] }), (9, { value := MxmlValue.element "temp" [], parent := none, children := [] })] }, { state := ScanSt.sNone, braces := 0, parens := 0, buffer := [], scope := none, comment := 9, constant := none, enumeration := none, function := none, fstructclass := none, structclass := none, typedefnode := none, var_ := none, returnvalue := none, type_ := none }, ['i', 'n', 't', ' ', 'x', ';', ' ', 'i', 'n', 't', ' ', 'y', ';', ' ', '\x7d', ' ', 'p', 'o', 'i', 'n', 't', '_', 't', ';']), ({ nextId := 10, nodes := [(0, { value := MxmlValue.element "?xml" [], parent := none, children := [1] }), (1, { value := MxmlValue.element "mxmldoc" [("xmlns", "http://www.easysw.com"), ("xmlns:xsi", "http://www.w3.org/2001/XMLSchema-instance"), ("xsi:schemaLocation", "http://www.minixml.org/mxmldoc.xsd")], parent := some 0, children := [] }), (2, { value := MxmlValue.element "temp" [], parent := none, children := [] }), (3, { value := MxmlValue.element "type" [], parent := none, children := [5] }), (5, { value := MxmlValue.text false "struct", parent := some 3, children := [] }), (6, { value := MxmlValue.element "typedef" [], parent := none, children := [] }), (7, { value := MxmlValue.element "struct" [], parent := none, children := [8] }), (8, { value := MxmlValue.element "description" [], parent := some 7, children := [] }), (9, { value := MxmlValue.element "temp" [], parent := none, children := [] })] }, { state := ScanSt.sIdent, braces := 0, parens := 0, buffer := ['i'], scope := none, comment := 9, constant := none, enumeration := none, function := none, fstructclass := none, structclass := none, typedefnode := none, var_ := none, returnvalue := none, type_ := none }, ['n', 't', ' ', 'x', ';', ' ', 'i', 'n', 't', ' ', 'y', ';', ' ', '\x7d', ' ', 'p', 'o', 'i', 'n', 't', '_', 't', ';']), ({ nextId := 10, nodes := [(0, { value := MxmlValue.element "?xml" [], parent := none, children := [1] }), (1, { value := MxmlValue.element "mxmldoc" [("xmlns", "http://www.easysw.com"), ("xmlns:xsi", "http://www.w3.org/2001/XMLSchema-instance"), ("xsi:schemaLocation", "http://www.minixml.org/mxmldoc.xsd")], parent := some 0, children := [] }), (2, { value := MxmlValue.element "temp" [], parent := none, children := [] }), (3, { value := MxmlValue.element "type" [], parent := none, children := [5] }), (5, { value := MxmlValue.text false "struct", parent := some 3, children := [] }), (6, { value := MxmlValue.element "typedef" [], parent := none, children := [] }), (7, { value := MxmlValue.element "struct" [], parent := none, children := [8] }), (8, { value := MxmlValue.element "description" [], parent := some 7, children := [] }), (9, { value := MxmlValue.element "temp" [], parent := none, children := [] })] }, { state := ScanSt.sIdent, braces := 0, parens := 0, buffer := ['i', 'n'], scope := none, comment := 9, constant := none, enumeration := none, function := none, fstructclass := none, structclass := none, typedefnode := none, var_ := none, returnvalue := none, type_ := none }, ['t', ' ', 'x', ';', ' ', 'i', 'n', 't', ' ', 'y', ';', ' ', '\x7d', ' ', 'p', 'o', 'i', 'n', 't', '_', 't', ';']), ({ nextId := 10, nodes := [(0, { value := MxmlValue.element "?xml" [], parent := none, children := [1] }), (1, { value := MxmlValue.element "mxmldoc" [("xmlns", "http://www.easysw.com"), ("xmlns:xsi", "http://www.w3.org/2001/XMLSchema-instance"), ("xsi:schemaLocation", "http://www.minixml.org/mxmldoc.xsd")], parent := some 0, children := [] }), (2, { value := MxmlValue.element "temp" [], parent := none, children := [] }), (3, { value := MxmlValue.element "type" [], parent := none, children := [5] }), (5, { value := MxmlValue.text false "struct", parent := some 3, children := [] }), (6, { value := MxmlValue.element "typedef" [], parent := none, children := [] }), (7, { value := MxmlValue.element "struct" [], parent := none, children := [8] }), (8, { value := MxmlValue.element "description" [], parent := some 7, children := [] }), (9, { value := MxmlValue.element "temp" [], parent := none, children := [] })] }, { state := ScanSt.sIdent, braces := 0, parens := 0, buffer := ['i', 'n', 't'], scope := none, comment := 9, constant := none, enumeration := none, function := none, fstructclass := none, structclass := none, typedefnode := none, var_ := none, returnvalue := none, type_ := none }, [' ', 'x', ';', ' ', 'i', 'n', 't', ' ', 'y', ';', ' ', '\x7d', ' ', 'p', 'o', 'i', 'n', 't', '_', 't', ';']), ({ nextId := 12, nodes := [(0, { value := MxmlValue.element "?xml" [], parent := none, children := [1] }), (1, { value := MxmlValue.element "mxmldoc" [("xmlns", "http://www.easysw.com"), ("xmlns:xsi", "http://www.w3.org/2001/XMLSchema-instance"), ("xsi:schemaLocation", "http://www.minixml.org/mxmldoc.xsd")], parent := some 0, children := [] }), (2, { value := MxmlValue.element "temp" [], parent := none, children := [] }), (3, { value := MxmlValue.element "type" [], parent := none, children := [5] }), (5, { value := MxmlValue.text false "struct", parent := some 3, children := [] }), (6, { value := MxmlValue.element "typedef" [], parent := none, children := [] }), (7, { value := MxmlValue.element "struct" [], parent := none, children := [8] }), (8, { value := MxmlValue.element "description" [], parent := some 7, children := [] }), (9, { value := MxmlValue.element "temp" [], parent := none, children := [] }), (10, { value := MxmlValue.element "type" [], parent := none, children := [11] }), (11, { value := MxmlValue.text false "int", parent := some 10, children := [] })] }, { state := ScanSt.sNone, braces := 0, parens := 0, buffer := ['i', 'n', 't'], scope := none, comment := 9, constant := none, enumeration := none, function := none, fstructclass := none, structclass := none, typedefnode := none, var_ := none, returnvalue := none, type_ := some 10 }, [' ', 'x', ';', ' ', 'i', 'n', 't', ' ', 'y', ';', ' ', '\x7d', ' ', 'p', 'o', 'i', 'n', 't', '_', 't', ';']), ({ nextId := 12, nodes := [(0, { value := MxmlValue.element "?xml" [], parent := none, children := [1] }), (1, { value := MxmlValue.element "mxmldoc" [("xmlns", "http://www.easysw.com"), ("xmlns:xsi", "http://www.w3.org/2001/XMLSchema-instance"), ("xsi:schemaLocation", "http://www.minixml.org/mxmldoc.xsd")], parent := some 0, children := [] }), (2, { value := MxmlValue.element "temp" [], parent := none, children := [] }), (3, { value := MxmlValue.element "type" [], parent := none, children := [5] }), (5, { value := MxmlValue.text false "struct", parent := some 3, children := [] }), (6, { value := MxmlValue.element "typedef" [], parent := none, children := [] }), (7, { value := MxmlValue.element "struct" [], parent := none, children := [8] }), (8, { value := MxmlValue.element "description" [], parent := some 7, children := [] }), (9, { value := MxmlValue.element "temp" [], parent := none, children := [] }), (10, { value := MxmlValue.element "type" [], parent := none, children := [11] }), (11, { value := MxmlValue.text false "int", parent := some 10, children := [] })] }, { state := ScanSt.sNone, braces := 0, parens := 0, buffer := ['i', 'n', 't'], scope := none, comment := 9, constant := none, enumeration := none, function := none, fstructclass := none, structclass := none, typedefnode := none, var_ := none, returnvalue := none, type_ := some 10 }, ['x', ';', ' ', 'i', 'n', 't', ' ', 'y', ';', ' ', '\x7d', ' ', 'p', 'o', 'i', 'n', 't', '_', 't', ';']), ({ nextId := 12, nodes := [(0, { value := MxmlValue.element "?xml" [], parent := none, children := [1] }), (1, { value := MxmlValue.element "mxmldoc" [("xmlns", "http://www.easysw.com"), ("xmlns:xsi", "http://www.w3.org/2001/XMLSchema-instance"), ("xsi:schemaLocation", "http://www.minixml.org/mxmldoc.xsd")], parent := some 0, children := [] }), (2, { value := MxmlValue.element "temp" [], parent := none, children := [] }), (3, { value := MxmlValue.element "type" [], parent := none, children := [5] }), (5, { value := MxmlValue.text false "struct", parent := some 3, children := [] }), (6, { value := MxmlValue.element "typedef" [], parent := none, children := [] }), (7, { value := MxmlValue.element "struct" [], parent := none, children := [8] }), (8, { value := MxmlValue.element "description" [], parent := some 7, children := [] }), (9, { value := MxmlValue.element "temp" [], parent := none, children := [] }), (10, { value := MxmlValue.element "type" [], parent := none, children := [11] }), (11, { value := MxmlValue.text false "int", parent := some 10, children := [] })] }, { state := ScanSt.sIdent, braces := 0, parens := 0, buffer := ['x'], scope := none, comment := 9, constant := none, enumeration := none, function := none, fstructclass := none, structclass := none, typedefnode := none, var_ := none, returnvalue := none, type_ := some 10 }, [';', ' ', 'i', 'n', 't', ' ', 'y', ';', ' ', '\x7d', ' ', 'p', 'o', 'i', 'n', 't', '_', 't', ';']), ({ nextId := 14, nodes := [(0, { value := MxmlValue.element "?xml" [], parent := none, children := [1] }), (1, { value := MxmlValue.element "mxmldoc" [("xmlns", "http://www.easysw.com"), ("xmlns:xsi", "http://www.w3.org/2001/XMLSchema-instance"), ("xsi:schemaLocation", "http://www.minixml.org/mxmldoc.xsd")], parent := some 0, children := [] }), (2, { value := MxmlValue.element "temp" [], parent := none, children := [] }), (3, { value := MxmlValue.element "type" [], parent := none, children := [5] }), (5, { value := MxmlValue.text false "struct", parent := some 3, children := [] }), (6, { value := MxmlValue.element "typedef" [], parent := none, children := [] }), (7, { value := MxmlValue.element "struct" [], parent := none, children := [8, 13] }), (8, { value := MxmlValue.element "description" [], parent := some 7, children := [] }), (9, { value := MxmlValue.element "temp" [], parent := none, children := [] }), (10, { value := MxmlValue.element "type" [], parent := some 13, children := [11] }), (11, { value := MxmlValue.text false "int", parent := some 10, children := [] }), (13, { value := MxmlValue.element "variable" [("name", "x")], parent := some 7, children := [10] })] }, { state := ScanSt.sNone, braces := 0, parens := 0, buffer := ['x'], scope := none, comment := 9, constant := none, enumeration := none, function := none, fstructclass := none, structclass := none, typedefnode := none, var_ := some 13, returnvalue := none, type_ := none }, [';', ' ', 'i', 'n', 't', ' ', 'y', ';', ' ', '\x7d', ' ', 'p', 'o', 'i', 'n', 't', '_', 't', ';']), ({ nextId := 14, nodes := [(0, { value := MxmlValue.element "?xml" [], parent := none, children := [1] }), (1, { value := MxmlValue.element "mxmldoc" [("xmlns", "http://www.easysw.com"), ("xmlns:xsi", "http://www.w3.org/2001/XMLSchema-instance"), ("xsi:schemaLocation", "http://www.minixml.org/mxmldoc.xsd")], parent := some 0, children := [] }), (2, { value := MxmlValue.element "temp" [], parent := none, children := [] }), (3, { value := MxmlValue.element "type" [], parent := none, children := [5] }), (5, { value := MxmlValue.text false "struct", parent := some 3, children := [] }), (6, { value := MxmlValue.element "typedef" [], parent := none, children := [] }), (7, { value := MxmlValue.element "struct" [], parent := none, children := [8, 13] }), (8, { value := MxmlValue.element "description" [], parent := some 7, children := [] }), (9, { value := MxmlValue.element "temp" [], parent := none, children := [] }), (10, { value := MxmlValue.element "type" [], parent := some 13, children := [11] }), (11, { value := MxmlValue.text false "int", parent := some 10, children := [] }), (13, { value := MxmlValue.element "variable" [("name", "x")], parent := some 7, children := [10] })] }, { state := ScanSt.sNone, braces := 0, parens := 0, buffer := ['x'], scope := none, comment := 9, constant := none, enumeration := none, function := none, fstructclass := none, structclass := none, typedefnode := none, var_ := some 13, returnvalue := none, type_ := none }, [' ', 'i', 'n', 't', ' ', 'y', ';', ' ', '\x7d', ' ', 'p', 'o', 'i', 'n', 't', '_', 't', ';']), ({ nextId := 14, nodes := [(0, { value := MxmlValue.element "?xml" [], parent := none, children := [1] }), (1, { value := MxmlValue.element "mxmldoc" [("xmlns", "http://www.easysw.com"), ("xmlns:xsi", "http://www.w3.org/2001/XMLSchema-instance"), ("xsi:schemaLocation", "http://www.minixml.org/mxmldoc.xsd")], parent := some 0, children := [] }), (2, { value := MxmlValue.element "temp" [], parent := none, children := [] }), (3, { value := MxmlValue.element "type" [], parent := none, children := [5] }), (5, { value := MxmlValue.text false "struct", parent := some 3, children := [] }), (6, { value := MxmlValue.element "typedef" [], parent := none, children := [] }), (7, { value := MxmlValue.element "struct" [], parent := none, children := [8, 13] }), (8, { value := MxmlValue.element "description" [], parent := some 7, children := [] }), (9, { value := MxmlValue.element "temp" [], parent := none, children := [] }), (10, { value := MxmlValue.element "type" [], parent := some 13, children := [11] }), (11, { value := MxmlValue.text false "int", parent := some 10, children := [] }), (13, { value := MxmlValue.element "variable" [("name", "x")], parent := some 7, children := [10] })] }, { state := ScanSt.sNone, braces := 0, parens := 0, buffer := ['x'], scope := none, comment := 9, constant := none, enumeration := none, function := none, fstructclass := none, structclass := none, typedefnode := none, var_ := some 13, returnvalue := none, type_ := none }, ['i', 'n', 't', ' ', 'y', ';', ' ', '\x7d', ' ', 'p', 'o', 'i', 'n', 't', '_', 't', ';']), ({ nextId := 14, nodes := [(0, { value := MxmlValue.element "?xml" [], parent := none, children := [1] }), (1, { value := MxmlValue.element "mxmldoc" [("xmlns", "http://www.easysw.com"), ("xmlns:xsi", "http://www.w3.org/2001/XMLSchema-instance"), ("xsi:schemaLocation", "http://www.minixml.org/mxmldoc.xsd")], parent := some 0, children := [] }), (2, { value := MxmlValue.element "temp" [], parent := none, children := [] }), (3, { value := MxmlValue.element "type" [], parent := none, children := [5] }), (5, { value := MxmlValue.text false "struct", parent := some 3, children := [] }), (6, { value := MxmlValue.element "typedef" [], parent := none, children := [] }), (7, { value := MxmlValue.element "struct" [], parent := none, children := [8, 13] }), (8, { value := MxmlValue.element "description" [], parent := some 7, children := [] }), (9, { value := MxmlValue.element "temp" [], parent := none, children := [] }), (10, { value := MxmlValue.element "type" [], parent := some 13, children := [11] }), (11, { value := MxmlValue.text false "int", parent := some 10, children := [] }), (13, { value := MxmlValue.element "variable" [("name", "x")], parent := some 7, children := [10] })] }, { state := ScanSt.sIdent, braces := 0, parens := 0, buffer := ['i'], scope := none, comment := 9, constant := none, enumeration := none, function := none, fstructclass := none, structclass := none, typedefnode := none, var_ := some 13, returnvalue := none, type_ := none }, ['n', 't', ' ', 'y', ';', ' ', '\x7d', ' ', 'p', 'o', 'i', 'n', 't', '_', 't', ';']), ({ nextId := 14, nodes := [(0, { value := MxmlValue.element "?xml" [], parent := none, children := [1] }), (1, { value := MxmlValue.element "mxmldoc" [("xmlns", "http://www.easysw.com"), ("xmlns:xsi", "http://www.w3.org/2001/XMLSchema-instance"), ("xsi:schemaLocation", "http://www.minixml.org/mxmldoc.xsd")], parent := some 0, children := [] }), (2, { value := MxmlValue.element "temp" [], parent := none, children := [] }), (3, { value := MxmlValue.element "type" [], parent := none, children := [5] }), (5, { value := MxmlValue.text false "struct", parent := some 3, children := [] }), (6, { value := MxmlValue.element "typedef" [], parent := none, children := [] }), (7, { value := MxmlValue.element "struct" [], parent := none, children := [8, 13] }), (8, { value := MxmlValue.element "description" [], parent := some 7, children := [] }), (9, { value := MxmlValue.element "temp" [], parent := none, children := [] }), (10, { value := MxmlValue.element "type" [], parent := some 13, children := [11] }), (11, { value := MxmlValue.text false "int", parent := some 10, children := [] }), (13, { value := MxmlValue.element "variable" [("name", "x")], parent := some 7, children := [10] })] }, { state := ScanSt.sIdent, braces := 0, parens := 0, buffer := ['i', 'n'], scope := none, comment := 9, constant := none, enumeration := none, function := none, fstructclass := none, structclass := none, typedefnode := none, var_ := some 13, returnvalue := none, type_ := none }, ['t', ' ', 'y', ';', ' ', '\x7d', ' ', 'p', 'o', 'i', 'n', 't', '_', 't', ';']), ({ nextId := 14, nodes := [(0, { value := MxmlValue.element "?xml" [], parent := none, children := [1] }), (1, { value := MxmlValue.element "mxmldoc" [("xmlns", "http://www.easysw.com"), ("xmlns:xsi", "http://www.w3.org/2001/XMLSchema-instance"), ("xsi:schemaLocation", "http://www.minixml.org/mxmldoc.xsd")], parent := some 0, children := [] }), (2, { value := MxmlValue.element "temp" [], parent := none, children := [] }), (3, { value := MxmlValue.element "type" [], parent := none, children := [5] }), (5, { value := MxmlValue.text false "struct", parent := some 3, children := [] }), (6, { value := MxmlValue.element "typedef" [], parent := none, children := [] }), (7, { value := MxmlValue.element "struct" [], parent := none, children := [8, 13] }), (8, { value := MxmlValue.element "description" [], parent := some 7, children := [] }), (9, { value := MxmlValue.element "temp" [], parent := none, children := [] }), (10, { value := MxmlValue.element "type" [], parent := some 13, children := [11] }), (11, { value := MxmlValue.text false "int", parent := some 10, children := [] }), (13, { value := MxmlValue.element "variable" [("name", "x")], parent := some 7, children := [10] })] }, { state := ScanSt.sIdent, braces := 0, parens := 0, buffer := ['i', 'n', 't'], scope := none, comment := 9, constant := none, enumeration := none, function := none, fstructclass := none, structclass := none, typedefnode := none, var_ := some 13, returnvalue := none, type_ := none }, [' ', 'y', ';', ' ', '\x7d', ' ', 'p', 'o', 'i', 'n', 't', '_', 't', ';']), ({ nextId := 16, nodes := [(0, { value := MxmlValue.element "?xml" [], parent := none, children := [1] }), (1, { value := MxmlValue.element "mxmldoc" [("xmlns", "http://www.easysw.com"), ("xmlns:xsi", "http://www.w3.org/2001/XMLSchema-instance"), ("xsi:schemaLocation", "http://www.minixml.org/mxmldoc.xsd")], parent := some 0, children := [] }), (2, { value := MxmlValue.element "temp" [], parent := none, children := [] }), (3, { value := MxmlValue.element "type" [], parent := none, children := [5] }), (5, { value := MxmlValue.text false "struct", parent := some 3, children := [] }), (6, { value := MxmlValue.element "typedef" [], parent := none, children := [] }), (7, { value := MxmlValue.element "struct" [], parent := none, children := [8, 13] }), (8, { value := MxmlValue.element "description" [], parent := some 7, children := [] }), (9, { value := MxmlValue.element "temp" [], parent := none, children := [] }), (10, { value := MxmlValue.element "type" [], parent := some 13, children := [11] }), (11, { value := MxmlValue.text false "int", parent := some 10, children := [] }), (13, { value := MxmlValue.element "variable" [("name", "x")], parent := some 7, children := [10] }), (14, { value := MxmlValue.element "type" [], parent := none, children := [15] }), (15, { value := MxmlValue.text false "int", parent := some 14, children := [] })] }, { state := ScanSt.sNone, braces := 0, parens := 0, buffer := ['i', 'n', 't'], scope := none, comment := 9, constant := none, enumeration := none, function := none, fstructclass := none, structclass := none, typedefnode := none, var_ := some 13, returnvalue := none, type_ := some 14 }, [' ', 'y', ';', ' ', '\x7d', ' ', 'p', 'o', 'i', 'n', 't', '_', 't', ';']), ({ nextId := 16, nodes := [(0, { value := MxmlValue.element "?xml" [], parent := none, children := [1] }), (1, { value := MxmlValue.element "mxmldoc" [("xmlns", "http://www.easysw.com"), ("xmlns:xsi", "http://www.w3.org/2001/XMLSchema-instance"), ("xsi:schemaLocation", "http://www.minixml.org/mxmldoc.xsd")], parent := some 0, children := [] }), (2, { value := MxmlValue.element "temp" [], parent := none, children := [] }), (3, { value := MxmlValue.element "type" [], parent := none, children := [5] }), (5, { value := MxmlValue.text false "struct", parent := some 3, children := [] }), (6, { value := MxmlValue.element "typedef" [], parent := none, children := [] }), (7, { value := MxmlValue.element "struct" [], parent := none, children := [8, 13] }), (8, { value := MxmlValue.element "description" [], parent := some 7, children := [] }), (9, { value := MxmlValue.element "temp" [], parent := none, children := [] }), (10, { value := MxmlValue.element "type" [], parent := some 13, children := [11] }), (11, { value := MxmlValue.text false "int", parent := some 10, children := [] }), (13, { value := MxmlValue.element "variable" [("name", "x")], parent := some 7, children := [10] }), (14, { value := MxmlValue.element "type" [], parent := none, children := [15] }), (15, { value := MxmlValue.text false "int", parent := some 14, children := [] })] }, { state := ScanSt.sNone, braces := 0, parens := 0, buffer := ['i', 'n', 't'], scope := none, comment := 9, constant := none, enumeration := none, function := none, fstructclass := none, structclass := none, typedefnode := none, var_ := some 13, returnvalue := none, type_ := some 14 }, ['y', ';', ' ', '\x7d', ' ', 'p', 'o', 'i', 'n', 't', '_', 't', ';']), ({ nextId := 16, nodes := [(0, { value := MxmlValue.element "?xml" [], parent := none, children := [1] }), (1, { value := MxmlValue.element "mxmldoc" [("xmlns", "http://www.easysw.com"), ("xmlns:xsi", "http://www.w3.org/2001/XMLSchema-instance"), ("xsi:schemaLocation", "http://www.minixml.org/mxmldoc.xsd")], parent := some 0, children := [] }), (2, { value := MxmlValue.element "temp" [], parent := none, children := [] }), (3, { value := MxmlValue.element "type" [], parent := none, children := [5] }), (5, { value := MxmlValue.text false "struct", parent := some 3, children := [] }), (6, { value := MxmlValue.element "typedef" [], parent := none, children := [] }), (7, { value := MxmlValue.element "struct" [], parent := none, children := [8, 13] }), (8, { value := MxmlValue.element "description" [], parent := some 7, children := [] }), (9, { value := MxmlValue.element "temp" [], parent := none, children := [] }), (10, { value := MxmlValue.element "type" [], parent := some 13, children := [11] }), (11, { value := MxmlValue.text false "int", parent := some 10, children := [] }), (13, { value := MxmlValue.element "variable" [("name", "x")], parent := some 7, children := [10] }), (14, { value := MxmlValue.element "type" [], parent := none, children := [15] }), (15, { value := MxmlValue.text false "int", parent := some 14, children := [] })] }, { state := ScanSt.sIdent, braces := 0, parens := 0, buffer := ['y'], scope := none, comment := 9, constant := none, enumeration := none, function := none, fstructclass := none, structclass := none, typedefnode := none, var_ := some 13, returnvalue := none, type_ := some 14 }, [';', ' ', '\x7d', ' ', 'p', 'o', 'i', 'n', 't', '_', 't', ';']), ({ nextId := 18, nodes := [(0, { value := MxmlValue.element "?xml" [], parent := none, children := [1] }), (1, { value := MxmlValue.element "mxmldoc" [("xmlns", "http://www.easysw.com"), ("xmlns:xsi", "http://www.w3.org/2001/XMLSchema-instance"), ("xsi:schemaLocation", "http://www.minixml.org/mxmldoc.xsd")], parent := some 0, children := [] }), (2, { value := MxmlValue.element "temp" [], parent := none, children := [] }), (3, { value := MxmlValue.element "type" [], parent := none, children := [5] }), (5, { value := MxmlValue.text false "struct", parent := some 3, children := [] }), (6, { value := MxmlValue.element "typedef" [], parent := none, children := [] }), (7, { value := MxmlValue.element "struct" [], parent := none, children := [8, 13, 17] }), (8, { value := MxmlValue.element "description" [], parent := some 7, children := [] }), (9, { value := MxmlValue.element "temp" [], parent := none, children := [] }), (10, { value := MxmlValue.element "type" [], parent := some 13, children := [11] }), (11, { value := MxmlValue.text false "int", parent := some 10, children := [] }), (13, { value := MxmlValue.element "variable" [("name", "x")], parent := some 7, children := [10] }), (14, { value := MxmlValue.element "type" [], parent := some 17, children := [15] }), (15, { value := MxmlValue.text false "int", parent := some 14, children := [] }), (17, { value := MxmlValue.element "variable" [("name", "y")], parent := some 7, children := [14] })] }, { state := ScanSt.sNone, braces := 0, parens := 0, buffer := ['y'], scope := none, comment := 9, constant := none, enumeration := none, function := none, fstructclass := none, structclass := none, typedefnode := none, var_ := some 17, returnvalue := none, type_ := none }, [';', ' ', '\x7d', ' ', 'p', 'o', 'i', 'n', 't', '_', 't', ';']), ({ nextId := 18, nodes := [(0, { value := MxmlValue.element "?xml" [], parent := none, children := [1] }), (1, { value := MxmlValue.element "mxmldoc" [("xmlns", "http://www.easysw.com"), ("xmlns:xsi", "http://www.w3.org/2001/XMLSchema-instance"), ("xsi:schemaLocation", "http://www.minixml.org/mxmldoc.xsd")], parent := some 0, children := [] }), (2, { value := MxmlValue.element "temp" [], parent := none, children := [] }), (3, { value := MxmlValue.element "type" [], parent := none, children := [5] }), (5, { value := MxmlValue.text false "struct", parent := some 3, children := [] }), (6, { value := MxmlValue.element "typedef" [], parent := none, children := [] }), (7, { value := MxmlValue.element "struct" [], parent := none, children := [8, 13, 17] }), (8, { value := MxmlValue.element "description" [], parent := some 7, children := [] }), (9, { value := MxmlValue.element "temp" [], parent := none, children := [] }), (10, { value := MxmlValue.element "type" [], parent := some 13, children := [11] }), (11, { value := MxmlValue.text false "int", parent := some 10, children := [] }), (13, { value := MxmlValue.element "variable" [("name", "x")], parent := some 7, children := [10] }), (14, { value := MxmlValue.element "type" [], parent := some 17, children := [15] }), (15, { value := MxmlValue.text false "int", parent := some 14, children := [] }), (17, { value := MxmlValue.element "variable" [("name", "y")], parent := some 7, children := [14] })] }, { state := ScanSt.sNone, braces := 0, parens := 0, buffer := ['y'], scope := none, comment := 9, constant := none, enumeration := none, function := none, fstructclass := none, structclass := none, typedefnode := none, var_ := some 17, returnvalue := none, type_ := none }, [' ', '\x7d', ' ', 'p', 'o', 'i', 'n', 't', '_', 't', ';']), ({ nextId := 18, nodes := [(0, { value := MxmlValue.element "?xml" [], parent := none, children := [1] }), (1, { value := MxmlValue.element "mxmldoc" [("xmlns", "http://www.easysw.com"), ("xmlns:xsi", "http://www.w3.org/2001/XMLSchema-instance"), ("xsi:schemaLocation", "http://www.minixml.org/mxmldoc.xsd")], parent := some 0, children := [] }), (2, { value := MxmlValue.element "temp" [], parent := none, children := [] }), (3, { value := MxmlValue.element "type" [], parent := none, children := [5] }), (5, { value := MxmlValue.text false "struct", parent := some 3, children := [] }), (6, { value := MxmlValue.element "typedef" [], parent := none, children := [] }), (7, { value := MxmlValue.element "struct" [], parent := none, children := [8, 13, 17] }), (8, { value := MxmlValue.element "description" [], parent := some 7, children := [] }), (9, { value := MxmlValue.element "temp" [], parent := none, children := [] }), (10, { value := MxmlValue.element "type" [], parent := some 13, children := [11] }), (11, { value := MxmlValue.text false "int", parent := some 10, children := [] }), (13, { value := MxmlValue.element "variable" [("name", "x")], parent := some 7, children := [10] }), (14, { value := MxmlValue.element "type" [], parent := some 17, children := [15] }), (15, { value := MxmlValue.text false "int", parent := some 14, children := [] }), (17, { value := MxmlValue.element "variable" [("name", "y")], parent := some 7, children := [14] })] }, { state := ScanSt.sNone, braces := 0, parens := 0, buffer := ['y'], scope := none, comment := 9, constant := none, enumeration := none, function := none, fstructclass := none, structclass := none, typedefnode := none, var_ := some 17, returnvalue := none, type_ := none }, ['\x7d', ' ', 'p', 'o', 'i', 'n', 't', '_', 't', ';'])]

def c5ret : Arena × Locals × List Char := ({ nextId := 18, nodes := [(0, { value := MxmlValue.element "?xml" [], parent := none, children := [1] }), (1, { value := MxmlValue.element "mxmldoc" [("xmlns", "http://www.easysw.com"), ("xmlns:xsi", "http://www.w3.org/2001/XMLSchema-instance"), ("xsi:schemaLocation", "http://www.minixml.org/mxmldoc.xsd")], parent := some 0, children := [] }), (2, { value := MxmlValue.element "temp" [], parent := none, children := [] }), (3, { value := MxmlValue.element "type" [], parent := none, children := [5] }), (5, { value := MxmlValue.text false "struct", parent := some 3, children := [] }), (6, { value := MxmlValue.element "typedef" [], parent := none, children := [] }), (7, { value := MxmlValue.element "struct" [], parent := none, children := [8, 13, 17] }), (8, { value := MxmlValue.element "description" [], parent := some 7, children := [] }), (9, { value := MxmlValue.element "temp" [], parent := none, children := [] }), (10, { value := MxmlValue.element "type" [], parent := some 13, children := [11] }), (11, { value := MxmlValue.text false "int", parent := some 10, children := [] }), (13, { value := MxmlValue.element "variable" [("name", "x")], parent := some 7, children := [10] }), (14, { value := MxmlValue.element "type" [], parent := some 17, children := [15] }), (15, { value := MxmlValue.text false "int", parent := some 14, children := [] }), (17, { value := MxmlValue.element "variable" [("name", "y")], parent := some 7, children := [14] })] }, { state := ScanSt.sNone, braces := 0, parens := 0, buffer := ['y'], scope := none, comment := 9, constant := none, enumeration := none, function := none, fstructclass := none, structclass := none, typedefnode := none, var_ := some 17, returnvalue := none, type_ := none }, ['\x7d', ' ', 'p', 'o', 'i', 'n', 't', '_', 't', ';'])

def c5out : Arena × List Char × Int := ({ nextId := 18, nodes := [(0, { value := MxmlValue.element "?xml" [], parent := none, children := [1] }), (1, { value := MxmlValue.element "mxmldoc" [("xmlns", "http://www.easysw.com"), ("xmlns:xsi", "http://www.w3.org/2001/XMLSchema-instance"), ("xsi:schemaLocation", "http://www.minixml.org/mxmldoc.xsd")], parent := some 0, children := [] }), (2, { value := MxmlValue.element "temp" [], parent := none, children := [] }), (3, { value := MxmlValue.element "type" [], parent := none, children := [5] }), (5, { value := MxmlValue.text false "struct", parent := some 3, children := [] }), (6, { value := MxmlValue.element "typedef" [], parent := none, children := [] }), (7, { value := MxmlValue.element "struct" [], parent := none, children := [8, 13, 17] }), (8, { value := MxmlValue.element "description" [], parent := some 7, children := [] }), (10, { value := MxmlValue.element "type" [], parent := some 13, children := [11] }), (11, { value := MxmlValue.text false "int", parent := some 10, children := [] }), (13, { value := MxmlValue.element "variable" [("name", "x")], parent := some 7, children := [10] }), (14, { value := MxmlValue.element "type" [], parent := some 17, children := [15] }), (15, { value := MxmlValue.text false "int", parent := some 14, children := [] }), (17, { value := MxmlValue.element "variable" [("name", "y")], parent := some 7, children := [14] })] }, [' ', 'p', 'o', 'i', 'n', 't', '_', 't', ';'], 0)

def c5t3 : List (Arena × Locals × List Char) := [({ nextId := 18, nodes := [(0, { value := MxmlValue.element "?xml" [], parent := none, children := [1] }), (1, { value := MxmlValue.element "mxmldoc" [("xmlns", "http://www.easysw.com"), ("xmlns:xsi", "http://www.w3.org/2001/XMLSchema-instance"), ("xsi:schemaLocation", "http://www.minixml.org/mxmldoc.xsd")], parent := some 0, children := [] }), (2, { value := MxmlValue.element "temp" [], parent := none, children := [] }), (3, { value := MxmlValue.element "type" [], parent := none, children := [5] }), (5, { value := MxmlValue.text false "struct", parent := some 3, children := [] }), (6, { value := MxmlValue.element "typedef" [], parent := none, children := [] }), (7, { value := MxmlValue.element "struct" [], parent := none, children := [8, 13, 17] }), (8, { value := MxmlValue.element "description" [], parent := some 7, children := [] }), (10, { value := MxmlValue.element "type" [], parent := some 13, children := [11] }), (11, { value := MxmlValue.text false "int", parent := some 10, children := [] }), (13, { value := MxmlValue.element "variable" [("name", "x")], parent := some 7, children := [10] }), (14, { value := MxmlValue.element "type" [], parent := some 17, children := [15] }), (15, { value := MxmlValue.text false "int", parent := some 14, children := [] }), (17, { value := MxmlValue.element "variable" [("name", "y")], parent := some 7, children := [14] })] }, { state := ScanSt.sNone, braces := 0, parens := 0, buffer := ['s', 't', 'r', 'u', 'c', 't'], scope := none, comment := 2, constant := none, enumeration := none, function := none, fstructclass := none, structclass := none, typedefnode := some 6, var_ := none, returnvalue := none, type_ := some 3 }, ['p', 'o', 'i', 'n', 't', '_', 't', ';']), ({ nextId := 18, nodes := [(0, { value := MxmlValue.element "?xml" [], parent := none, children := [1] }), (1, { value := MxmlValue.element "mxmldoc" [("xmlns", "http://www.easysw.com"), ("xmlns:xsi", "http://www.w3.org/2001/XMLSchema-instance"), ("xsi:schemaLocation", "http://www.minixml.org/mxmldoc.xsd")], parent := some 0, children := [] }), (2, { value := MxmlValue.element "temp" [], parent := none, children := [] }), (3, { value := MxmlValue.element "type" [], parent := none, children := [5] }), (5, { value := MxmlValue.text false "struct", parent := some 3, children := [] }), (6, { value := MxmlValue.element "typedef" [], parent := none, children := [] }), (7, { value := MxmlValue.element "struct" [], parent := none, children := [8, 13, 17] }), (8, { value := MxmlValue.element "description" [], parent := some 7, children := [] }), (10, { value := MxmlValue.element "type" [], parent := some 13, children := [11] }), (11, { value := MxmlValue.text false "int", parent := some 10, children := [] }), (13, { value := MxmlValue.element "variable" [("name", "x")], parent := some 7, children := [10] }), (14, { value := MxmlValue.element "type" [], parent := some 17, children := [15] }), (15, { value := MxmlValue.text false "int", parent := some 14, children := [] }), (17, { value := MxmlValue.element "variable" [("name", "y")], parent := some 7, children := [14] })] }, { state := ScanSt.sIdent, braces := 0, parens := 0, buffer := ['p'], scope := none, comment := 2, constant := none, enumeration := none, function := none, fstructclass := none, structclass := none, typedefnode := some 6, var_ := none, returnvalue := none, type_ := some 3 }, ['o', 'i', 'n', 't', '_', 't', ';']), ({ nextId := 18, nodes := [(0, { value := MxmlValue.element "?xml" [], parent := none, children := [1] }), (1, { value := MxmlValue.element "mxmldoc" [("xmlns", "http://www.easysw.com"), ("xmlns:xsi", "http://www.w3.org/2001/XMLSchema-instance"), ("xsi:schemaLocation", "http://www.minixml.org/mxmldoc.xsd")], parent := some 0, children := [] }), (2, { value := MxmlValue.element "temp" [], parent := none, children := [] }), (3, { value := MxmlValue.element "type" [], parent := none, children := [5] }), (5, { value := MxmlValue.text false "struct", parent := some 3, children := [] }), (6, { value := MxmlValue.element "typedef" [], parent := none, children := [] }), (7, { value := MxmlValue.element "struct" [], parent := none, children := [8, 13, 17] }), (8, { value := MxmlValue.element "description" [], parent := some 7, children := [] }), (10, { value := MxmlValue.element "type" [], parent := some 13, children := [11] }), (11, { value := MxmlValue.text false "int", parent := some 10, children := [] }), (13, { value := MxmlValue.element "variable" [("name", "x")], parent := some 7, children := [10] }), (14, { value := MxmlValue.element "type" [], parent := some 17, children := [15] }), (15, { value := MxmlValue.text false "int", parent := some 14, children := [] }), (17, { value := MxmlValue.element "variable" [("name", "y")], parent := some 7, children := [14] })] }, { state := ScanSt.sIdent, braces := 0, parens := 0, buffer := ['p', 'o'], scope := none, comment := 2, constant := none, enumeration := none, function := none, fstructclass := none, structclass := none, typedefnode := some 6, var_ := none, returnvalue := none, type_ := some 3 }, ['i', 'n', 't', '_', 't', ';']), ({ nextId := 18, nodes := [(0, { value := MxmlValue.element "?xml" [], parent := none, children := [1] }), (1, { value := MxmlValue.element "mxmldoc" [("xmlns", "http://www.easysw.com"), ("xmlns:xsi", "http://www.w3.org/2001/XMLSchema-instance"), ("xsi:schemaLocation", "http://www.minixml.org/mxmldoc.xsd")], parent := some 0, children := [] }), (2, { value := MxmlValue.element "temp" [], parent := none, children := [] }), (3, { value := MxmlValue.element "type" [], parent := none, children := [5] }), (5, { value := MxmlValue.text false "struct", parent := some 3, children := [] }), (6, { value := MxmlValue.element "typedef" [], parent := none, children := [] }), (7, { value := MxmlValue.element "struct" [], parent := none, children := [8, 13, 17] }), (8, { value := MxmlValue.element "description" [], parent := some 7, children := [] }), (10, { value := MxmlValue.element "type" [], parent := some 13, children := [11] }), (11, { value := MxmlValue.text false "int", parent := some 10, children := [] }), (13, { value := MxmlValue.element "variable" [("name", "x")], parent := some 7, children := [10] }), (14, { value := MxmlValue.element "type" [], parent := some 17, children := [15] }), (15, { value := MxmlValue.text false "int", parent := some 14, children := [] }), (17, { value := MxmlValue.element "variable" [("name", "y")], parent := some 7, children := [14] })] }, { state := ScanSt.sIdent, braces := 0, parens := 0, buffer := ['p', 'o', 'i'], scope := none, comment := 2, constant := none, enumeration := none, function := none, fstructclass := none, structclass := none, typedefnode := some 6, var_ := none, returnvalue := none, type_ := some 3 }, ['n', 't', '_', 't', ';']), ({ nextId := 18, nodes := [(0, { value := MxmlValue.element "?xml" [], parent := none, children := [1] }), (1, { value := MxmlValue.element "mxmldoc" [("xmlns", "http://www.easysw.com"), ("xmlns:xsi", "http://www.w3.org/2001/XMLSchema-instance"), ("xsi:schemaLocation", "http://www.minixml.org/mxmldoc.xsd")], parent := some 0, children := [] }), (2, { value := MxmlValue.element "temp" [], parent := none, children := [] }), (3, { value := MxmlValue.element "type" [], parent := none, children := [5] }), (5, { value := MxmlValue.text false "struct", parent := some 3, children := [] }), (6, { value := MxmlValue.element "typedef" [], parent := none, children := [] }), (7, { value := MxmlValue.element "struct" [], parent := none, children := [8, 13, 17] }), (8, { value := MxmlValue.element "description" [], parent := some 7, children := [] }), (10, { value := MxmlValue.element "type" [], parent := some 13, children := [11] }), (11, { value := MxmlValue.text false "int", parent := some 10, children := [] }), (13, { value := MxmlValue.element "variable" [("name", "x")], parent := some 7, children := [10] }), (14, { value := MxmlValue.element "type" [], parent := some 17, children := [15] }), (15, { value := MxmlValue.text false "int", parent := some 14, children := [] }), (17, { value := MxmlValue.element "variable" [("name", "y")], parent := some 7, children := [14] })] }, { state := ScanSt.sIdent, braces := 0, parens := 0, buffer := ['p', 'o', 'i', 'n'], scope := none, comment := 2, constant := none, enumeration := none, function := none, fstructclass := none, structclass := none, typedefnode := some 6, var_ := none, returnvalue := none, type_ := some 3 }, ['t', '_', 't', ';']), ({ nextId := 18, nodes := [(0, { value := MxmlValue.element "?xml" [], parent := none, children := [1] }), (1, { value := MxmlValue.element "mxmldoc" [("xmlns", "http://www.easysw.com"), ("xmlns:xsi", "http://www.w3.org/2001/XMLSchema-instance"), ("xsi:schemaLocation", "http://www.minixml.org/mxmldoc.xsd")], parent := some 0, children := [] }), (2, { value := MxmlValue.element "temp" [], parent := none, children := [] }), (3, { value := MxmlValue.element "type" [], parent := none, children := [5] }), (5, { value := MxmlValue.text false "struct", parent := some 3, children := [] }), (6, { value := MxmlValue.element "typedef" [], parent := none, children := [] }), (7, { value := MxmlValue.element "struct" [], parent := none, children := [8, 13, 17] }), (8, { value := MxmlValue.element "description" [], parent := some 7, children := [] }), (10, { value := MxmlValue.element "type" [], parent := some 13, children := [11] }), (11, { value := MxmlValue.text false "int", parent := some 10, children := [] }), (13, { value := MxmlValue.element "variable" [("name", "x")], parent := some 7, children := [10] }), (14, { value := MxmlValue.element "type" [], parent := some 17, children := [15] }), (15, { value := MxmlValue.text false "int", parent := some 14, children := [] }), (17, { value := MxmlValue.element "variable" [("name", "y")], parent := some 7, children := [14] })] }, { state := ScanSt.sIdent, braces := 0, parens := 0, buffer := ['p', 'o', 'i', 'n', 't'], scope := none, comment := 2, constant := none, enumeration := none, function := none, fstructclass := none, structclass := none, typedefnode := some 6, var_ := none, returnvalue := none, type_ := some 3 }, ['_', 't', ';']), ({ nextId := 18, nodes := [(0, { value := MxmlValue.element "?xml" [], parent := none, children := [1] }), (1, { value := MxmlValue.element "mxmldoc" [("xmlns", "http://www.easysw.com"), ("xmlns:xsi", "http://www.w3.org/2001/XMLSchema-instance"), ("xsi:schemaLocation", "http://www.minixml.org/mxmldoc.xsd")], parent := some 0, children := [] }), (2, { value := MxmlValue.element "temp" [], parent := none, children := [] }), (3, { value := MxmlValue.element "type" [], parent := none, children := [5] }), (5, { value := MxmlValue.text false "struct", parent := some 3, children := [] }), (6, { value := MxmlValue.element "typedef" [], parent := none, children := [] }), (7, { value := MxmlValue.element "struct" [], parent := none, children := [8, 13, 17] }), (8, { value := MxmlValue.element "description" [], parent := some 7, children := [] }), (10, { value := MxmlValue.element "type" [], parent := some 13, children := [11] }), (11, { value := MxmlValue.text false "int", parent := some 10, children := [] }), (13, { value := MxmlValue.element "variable" [("name", "x")], parent := some 7, children := [10] }), (14, { value := MxmlValue.element "type" [], parent := some 17, children := [15] }), (15, { value := MxmlValue.text false "int", parent := some 14, children := [] }), (17, { value := MxmlValue.element "variable" [("name", "y")], parent := some 7, children := [14] })] }, { state := ScanSt.sIdent, braces := 0, parens := 0, buffer := ['p', 'o', 'i', 'n', 't', '_'], scope := none, comment := 2, constant := none, enumeration := none, function := none, fstructclass := none, structclass := none, typedefnode := some 6, var_ := none, returnvalue := none, type_ := some 3 }, ['t', ';']), ({ nextId := 18, nodes := [(0, { value := MxmlValue.element "?xml" [], parent := none, children := [1] }), (1, { value := MxmlValue.element "mxmldoc" [("xmlns", "http://www.easysw.com"), ("xmlns:xsi", "http://www.w3.org/2001/XMLSchema-instance"), ("xsi:schemaLocation", "http://www.minixml.org/mxmldoc.xsd")], parent := some 0, children := [] }), (2, { value := MxmlValue.element "temp" [], parent := none, children := [] }), (3, { value := MxmlValue.element "type" [], parent := none, children := [5] }), (5, { value := MxmlValue.text false "struct", parent := some 3, children := [] }), (6, { value := MxmlValue.element "typedef" [], parent := none, children := [] }), (7, { value := MxmlValue.element "struct" [], parent := none, children := [8, 13, 17] }), (8, { value := MxmlValue.element "description" [], parent := some 7, children := [] }), (10, { value := MxmlValue.element "type" [], parent := some 13, children := [11] }), (11, { value := MxmlValue.text false "int", parent := some 10, children := [] }), (13, { value := MxmlValue.element "variable" [("name", "x")], parent := some 7, children := [10] }), (14, { value := MxmlValue.element "type" [], parent := some 17, children := [15] }), (15, { value := MxmlValue.text false "int", parent := some 14, children := [] }), (17, { value := MxmlValue.element "variable" [("name", "y")], parent := some 7, children := [14] })] }, { state := ScanSt.sIdent, braces := 0, parens := 0, buffer := ['p', 'o', 'i', 'n', 't', '_', 't'], scope := none, comment := 2, constant := none, enumeration := none, function := none, fstructclass := none, structclass := none, typedefnode := some 6, var_ := none, returnvalue := none, type_ := some 3 }, [';']), ({ nextId := 18, nodes := [(0, { value := MxmlValue.element "?xml" [], parent := none, children := [1] }), (1, { value := MxmlValue.element "mxmldoc" [("xmlns", "http://www.easysw.com"), ("xmlns:xsi", "http://www.w3.org/2001/XMLSchema-instance"), ("xsi:schemaLocation", "http://www.minixml.org/mxmldoc.xsd")], parent := some 0, children := [6] }), (2, { value := MxmlValue.element "temp" [], parent := none, children := [] }), (3, { value := MxmlValue.element "type" [], parent := some 6, children := [5] }), (5, { value := MxmlValue.text false "struct", parent := some 3, children := [] }), (6, { value := MxmlValue.element "typedef" [("name", "point_t")], parent := some 1, children := [3] }), (7, { value := MxmlValue.element "struct" [], parent := none, children := [8, 13, 17] }), (8, { value := MxmlValue.element "description" [], parent := some 7, children := [] }), (10, { value := MxmlValue.element "type" [], parent := some 13, children := [11] }), (11, { value := MxmlValue.text false "int", parent := some 10, children := [] }), (13, { value := MxmlValue.element "variable" [("name", "x")], parent := some 7, children := [10] }), (14, { value := MxmlValue.element "type" [], parent := some 17, children := [15] }), (15, { value := MxmlValue.text false "int", parent := some 14, children := [] }), (17, { value := MxmlValue.element "variable" [("name", "y")], parent := some 7, children := [14] })] }, { state := ScanSt.sNone, braces := 0, parens := 0, buffer := ['p', 'o', 'i', 'n', 't', '_', 't'], scope := none, comment := 2, constant := none, enumeration := none, function := none, fstructclass := none, structclass := none, typedefnode := none, var_ := none, returnvalue := none, type_ := none }, [';']), ({ nextId := 18, nodes := [(0, { value := MxmlValue.element "?xml" [], parent := none, children := [1] }), (1, { value := MxmlValue.element "mxmldoc" [("xmlns", "http://www.easysw.com"), ("xmlns:xsi", "http://www.w3.org/2001/XMLSchema-instance"), ("xsi:schemaLocation", "http://www.minixml.org/mxmldoc.xsd")], parent := some 0, children := [6] }), (2, { value := MxmlValue.element "temp" [], parent := none, children := [] }), (3, { value := MxmlValue.element "type" [], parent := some 6, children := [5] }), (5, { value := MxmlValue.text false "struct", parent := some 3, children := [] }), (6, { value := MxmlValue.element "typedef" [("name", "point_t")], parent := some 1, children := [3] }), (7, { value := MxmlValue.element "struct" [], parent := none, children := [8, 13, 17] }), (8, { value := MxmlValue.element "description" [], parent := some 7, children := [] }), (10, { value := MxmlValue.element "type" [], parent := some 13, children := [11] }), (11, { value := MxmlValue.text false "int", parent := some 10, children := [] }), (13, { value := MxmlValue.element "variable" [("name", "x")], parent := some 7, children := [10] }), (14, { value := MxmlValue.element "type" [], parent := some 17, children := [15] }), (15, { value := MxmlValue.text false "int", parent := some 14, children := [] }), (17, { value := MxmlValue.element "variable" [("name", "y")], parent := some 7, children := [14] })] }, { state := ScanSt.sNone, braces := 0, parens := 0, buffer := ['p', 'o', 'i', 'n', 't', '_', 't'], scope := none, comment := 2, constant := none, enumeration := none, function := none, fstructclass := none, structclass := none, typedefnode := none, var_ := none, returnvalue := none, type_ := none }, [])]

def c5eofCfg : Arena × Locals × List Char := ({ nextId := 18, nodes := [(0, { value := MxmlValue.element "?xml" [], parent := none, children := [1] }), (1, { value := MxmlValue.element "mxmldoc" [("xmlns", "http://www.easysw.com"), ("xmlns:xsi", "http://www.w3.org/2001/XMLSchema-instance"), ("xsi:schemaLocation", "http://www.minixml.org/mxmldoc.xsd")], parent := some 0, children := [6] }), (2, { value := MxmlValue.element "temp" [], parent := none, children := [] }), (3, { value := MxmlValue.element "type" [], parent := some 6, children := [5] }), (5, { value := MxmlValue.text false "struct", parent := some 3, children := [] }), (6, { value := MxmlValue.element "typedef" [("name", "point_t")], parent := some 1, children := [3] }), (7, { value := MxmlValue.element "struct" [], parent := none, children := [8, 13, 17] }), (8, { value := MxmlValue.element "description" [], parent := some 7, children := [] }), (10, { value := MxmlValue.element "type" [], parent := some 13, children := [11] }), (11, { value := MxmlValue.text false "int", parent := some 10, children := [] }), (13, { value := MxmlValue.element "variable" [("name", "x")], parent := some 7, children := [10] }), (14, { value := MxmlValue.element "type" [], parent := some 17, children := [15] }), (15, { value := MxmlValue.text false "int", parent := some 14, children := [] }), (17, { value := MxmlValue.element "variable" [("name", "y")], parent := some 7, children := [14] })] }, { state := ScanSt.sNone, braces := 0, parens := 0, buffer := ['p', 'o', 'i', 'n', 't', '_', 't'], scope := none, comment := 2, constant := none, enumeration := none, function := none, fstructclass := none, structclass := none, typedefnode := none, var_ := none, returnvalue := none, type_ := none }, [])

def c5final : Arena := { nextId := 18, nodes := [(0, { value := MxmlValue.element "?xml" [], parent := none, children := [1] }), (1, { value := MxmlValue.element "mxmldoc" [("xmlns", "http://www.easysw.com"), ("xmlns:xsi", "http://www.w3.org/2001/XMLSchema-instance"), ("xsi:schemaLocation", "http://www.minixml.org/mxmldoc.xsd")], parent := some 0, children := [6] }), (3, { value := MxmlValue.element "type" [], parent := some 6, children := [5] }), (5, { value := MxmlValue.text false "struct", parent := some 3, children := [] }), (6, { value := MxmlValue.element "typedef" [("name", "point_t")], parent := some 1, children := [3] }), (7, { value := MxmlValue.element "struct" [], parent := none, children := [8, 13, 17] }), (8, { value := MxmlValue.element "description" [], parent := some 7, children := [] }), (10, { value := MxmlValue.element "type" [], parent := some 13, children := [11] }), (11, { value := MxmlValue.text false "int", parent := some 10, children := [] }), (13, { value := MxmlValue.element "variable" [("name", "x")], parent := some 7, children := [10] }), (14, { value := MxmlValue.element "type" [], parent := some 17, children := [15] }), (15, { value := MxmlValue.text false "int", parent := some 14, children := [] }), (17, { value := MxmlValue.element "variable" [("name", "y")], parent := some 7, children := [14] })] }





def c5outA : Arena := { nextId := 18, nodes := [(0, { value := MxmlValue.element "?xml" [], parent := none, children := [1] }), (1, { value := MxmlValue.element "mxmldoc" [("xmlns", "http://www.easysw.com"), ("xmlns:xsi", "http://www.w3.org/2001/XMLSchema-instance"), ("xsi:schemaLocation", "http://www.minixml.org/mxmldoc.xsd")], parent := some 0, children := [] }), (2, { value := MxmlValue.element "temp" [], parent := none, children := [] }), (3, { value := MxmlValue.element "type" [], parent := none, children := [5] }), (5, { value := MxmlValue.text false "struct", parent := some 3, children := [] }), (6, { value := MxmlValue.element "typedef" [], parent := none, children := [] }), (7, { value := MxmlValue.element "struct" [], parent := none, children := [8, 13, 17] }), (8, { value := MxmlValue.element "description" [], parent := some 7, children := [] }), (10, { value := MxmlValue.element "type" [], parent := some 13, children := [11] }), (11, { value := MxmlValue.text false "int", parent := some 10, children := [] }), (13, { value := MxmlValue.element "variable" [("name", "x")], parent := some 7, children := [10] }), (14, { value := MxmlValue.element "type" [], parent := some 17, children := [15] }), (15, { value := MxmlValue.text false "int", parent := some 14, children := [] }), (17, { value := MxmlValue.element "variable" [("name", "y")], parent := some 7, children := [14] })] }

/-- An input that reaches end of file inside an aggregate-body recursion. -/
def c3input : List Char := "struct s \x7b int x;".toList

def c3a0 : Arena := { nextId := 3, nodes := [(0, { value := MxmlValue.element "?xml" [], parent := none, children := [1] }), (1, { value := MxmlValue.element "mxmldoc" [("xmlns", "http://www.easysw.com"), ("xmlns:xsi", "http://www.w3.org/2001/XMLSchema-instance"), ("xsi:schemaLocation", "http://www.minixml.org/mxmldoc.xsd")], parent := some 0, children := [] }), (2, { value := MxmlValue.element "temp" [], parent := none, children := [] })] }

def c3L0 : Locals := { state := ScanSt.sNone, braces := 0, parens := 0, buffer := [], scope := none, comment := 2, constant := none, enumeration := none, function := none, fstructclass := none, structclass := none, typedefnode := none, var_ := none, returnvalue := none, type_ := none }

def c3t1 : List (Arena × Locals × List Char) := [({ nextId := 3, nodes := [(0, { value := MxmlValue.element "?xml" [], parent := none, children := [1] }), (1, { value := MxmlValue.element "mxmldoc" [("xmlns", "http://www.easysw.com"), ("xmlns:xsi", "http://www.w3.org/2001/XMLSchema-instance"), ("xsi:schemaLocation", "http://www.minixml.org/mxmldoc.xsd")], parent := some 0, children := [] }), (2, { value := MxmlValue.element "temp" [], parent := none, children := [] })] }, { state := ScanSt.sIdent, braces := 0, parens := 0, buffer := ['s'], scope := none, comment := 2, constant := none, enumeration := none, function := none, fstructclass := none, structclass := none, typedefnode := none, var_ := none, returnvalue := none, type_ := none }, ['t', 'r', 'u', 'c', 't', ' ', 's', ' ', '\x7b', ' ', 'i', 'n', 't', ' ', 'x', ';']), ({ nextId := 3, nodes := [(0, { value := MxmlValue.element "?xml" [], parent := none, children := [1] }), (1, { value := MxmlValue.element "mxmldoc" [("xmlns", "http://www.easysw.com"), ("xmlns:xsi", "http://www.w3.org/2001/XMLSchema-instance"), ("xsi:schemaLocation", "http://www.minixml.org/mxmldoc.xsd")], parent := some 0, children := [] }), (2, { value := MxmlValue.element "temp" [], parent := none, children := [] })] }, { state := ScanSt.sIdent, braces := 0, parens := 0, buffer := ['s', 't'], scope := none, comment := 2, constant := none, enumeration := none, function := none, fstructclass := none, structclass := none, typedefnode := none, var_ := none, returnvalue := none, type_ := none }, ['r', 'u', 'c', 't', ' ', 's', ' ', '\x7b', ' ', 'i', 'n', 't', ' ', 'x', ';']), ({ nextId := 3, nodes := [(0, { value := MxmlValue.element "?xml" [], parent := none, children := [1] }), (1, { value := MxmlValue.element "mxmldoc" [("xmlns", "http://www.easysw.com"), ("xmlns:xsi", "http://www.w3.org/2001/XMLSchema-instance"), ("xsi:schemaLocation", "http://www.minixml.org/mxmldoc.xsd")], parent := some 0, children := [] }), (2, { value := MxmlValue.element "temp" [], parent := none, children := [] })] }, { state := ScanSt.sIdent, braces := 0, parens := 0, buffer := ['s', 't', 'r'], scope := none, comment := 2, constant := none, enumeration := none, function := none, fstructclass := none, structclass := none, typedefnode := none, var_ := none, returnvalue := none, type_ := none }, ['u', 'c', 't', ' ', 's', ' ', '\x7b', ' ', 'i', 'n', 't', ' ', 'x', ';']), ({ nextId := 3, nodes := [(0, { value := MxmlValue.element "?xml" [], parent := none, children := [1] }), (1, { value := MxmlValue.element "mxmldoc" [("xmlns", "http://www.easysw.com"), ("xmlns:xsi", "http://www.w3.org/2001/XMLSchema-instance"), ("xsi:schemaLocation", "http://www.minixml.org/mxmldoc.xsd")], parent := some 0, children := [] }), (2, { value := MxmlValue.element "temp" [], parent := none, children := [] })] }, { state := ScanSt.sIdent, braces := 0, parens := 0, buffer := ['s', 't', 'r', 'u'], scope := none, comment := 2, constant := none, enumeration := none, function := none, fstructclass := none, structclass := none, typedefnode := none, var_ := none, returnvalue := none, type_ := none }, ['c', 't', ' ', 's', ' ', '\x7b', ' ', 'i', 'n', 't', ' ', 'x', ';']), ({ nextId := 3, nodes := [(0, { value := MxmlValue.element "?xml" [], parent := none, children := [1] }), (1, { value := MxmlValue.element "mxmldoc" [("xmlns", "http://www.easysw.com"), ("xmlns:xsi", "http://www.w3.org/2001/XMLSchema-instance"), ("xsi:schemaLocation", "http://www.minixml.org/mxmldoc.xsd")], parent := some 0, children := [] }), (2, { value := MxmlValue.element "temp" [], parent := none, children := [] })] }, { state := ScanSt.sIdent, braces := 0, parens := 0, buffer := ['s', 't', 'r', 'u', 'c'], scope := none, comment := 2, constant := none, enumeration := none, function := none, fstructclass := none, structclass := none, typedefnode := none, var_ := none, returnvalue := none, type_ := none }, ['t', ' ', 's', ' ', '\x7b', ' ', 'i', 'n', 't', ' ', 'x', ';']), ({ nextId := 3, nodes := [(0, { value := MxmlValue.element "?xml" [], parent := none, children := [1] }), (1, { value := MxmlValue.element "mxmldoc" [("xmlns", "http://www.easysw.com"), ("xmlns:xsi", "http://www.w3.org/2001/XMLSchema-instance"), ("xsi:schemaLocation", "http://www.minixml.org/mxmldoc.xsd")], parent := some 0, children := [] }), (2, { value := MxmlValue.element "temp" [], parent := none, children := [] })] }, { state := ScanSt.sIdent, braces := 0, parens := 0, buffer := ['s', 't', 'r', 'u', 'c', 't'], scope := none, comment := 2, constant := none, enumeration := none, function := none, fstructclass := none, structclass := none, typedefnode := none, var_ := none, returnvalue := none, type_ := none }, [' ', 's', ' ', '\x7b', ' ', 'i', 'n', 't', ' ', 'x', ';']), ({ nextId := 5, nodes := [(0, { value := MxmlValue.element "?xml" [], parent := none, children := [1] }), (1, { value := MxmlValue.element "mxmldoc" [("xmlns", "http://www.easysw.com"), ("xmlns:xsi", "http://www.w3.org/2001/XMLSchema-instance"), ("xsi:schemaLocation", "http://www.minixml.org/mxmldoc.xsd")], parent := some 0, children := [] }), (2, { value := MxmlValue.element "temp" [], parent := none, children := [] }), (3, { value := MxmlValue.element "type" [], parent := none, children := [4] }), (4, { value := MxmlValue.text false "struct", parent := some 3, children := [] })] }, { state := ScanSt.sNone, braces := 0, parens := 0, buffer := ['s', 't', 'r', 'u', 'c', 't'], scope := none, comment := 2, constant := none, enumeration := none, function := none, fstructclass := none, structclass := none, typedefnode := none, var_ := none, returnvalue := none, type_ := some 3 }, [' ', 's', ' ', '\x7b', ' ', 'i', 'n', 't', ' ', 'x', ';']), ({ nextId := 5, nodes := [(0, { value := MxmlValue.element "?xml" [], parent := none, children := [1] }), (1, { value := MxmlValue.element "mxmldoc" [("xmlns", "http://www.easysw.com"), ("xmlns:xsi", "http://www.w3.org/2001/XMLSchema-instance"), ("xsi:schemaLocation", "http://www.minixml.org/mxmldoc.xsd")], parent := some 0, children := [] }), (2, { value := MxmlValue.element "temp" [], parent := none, children := [] }), (3, { value := MxmlValue.element "type" [], parent := none, children := [4] }), (4, { value := MxmlValue.text false "struct", parent := some 3, children := [] })] }, { state := ScanSt.sNone, braces := 0, parens := 0, buffer := ['s', 't', 'r', 'u', 'c', 't'], scope := none, comment := 2, constant := none, enumeration := none, function := none, fstructclass := none, structclass := none, typedefnode := none, var_ := none, returnvalue := none, type_ := some 3 }, ['s', ' ', '\x7b', ' ', 'i', 'n', 't', ' ', 'x', ';']), ({ nextId := 5, nodes := [(0, { value := MxmlValue.element "?xml" [], parent := none, children := [1] }), (1, { value := MxmlValue.element "mxmldoc" [("xmlns", "http://www.easysw.com"), ("xmlns:xsi", "http://www.w3.org/2001/XMLSchema-instance"), ("xsi:schemaLocation", "http://www.minixml.org/mxmldoc.xsd")], parent := some 0, children := [] }), (2, { value := MxmlValue.element "temp" [], parent := none, children := [] }), (3, { value := MxmlValue.element "type" [], parent := none, children := [4] }), (4, { value := MxmlValue.text false "struct", parent := some 3, children := [] })] }, { state := ScanSt.sIdent, braces := 0, parens := 0, buffer := ['s'], scope := none, comment := 2, constant := none, enumeration := none, function := none, fstructclass := none, structclass := none, typedefnode := none, var_ := none, returnvalue := none, type_ := some 3 }, [' ', '\x7b', ' ', 'i', 'n', 't', ' ', 'x', ';']), ({ nextId := 6, nodes := [(0, { value := MxmlValue.element "?xml" [], parent := none, children := [1] }), (1, { value := MxmlValue.element "mxmldoc" [("xmlns", "http://www.easysw.com"), ("xmlns:xsi", "http://www.w3.org/2001/XMLSchema-instance"), ("xsi:schemaLocation", "http://www.minixml.org/mxmldoc.xsd")], parent := some 0, children := [] }), (2, { value := MxmlValue.element "temp" [], parent := none, children := [] }), (3, { value := MxmlValue.element "type" [], parent := none, children := [4, 5] }), (4, { value := MxmlValue.text false "struct", parent := some 3, children := [] }), (5, { value := MxmlValue.text true "s", parent := some 3, children := [] })] }, { state := ScanSt.sNone, braces := 0, parens := 0, buffer := ['s'], scope := none, comment := 2, constant := none, enumeration := none, function := none, fstructclass := none, structclass := none, typedefnode := none, var_ := none, returnvalue := none, type_ := some 3 }, [' ', '\x7b', ' ', 'i', 'n', 't', ' ', 'x', ';']), ({ nextId := 6, nodes := [(0, { value := MxmlValue.element "?xml" [], parent := none, children := [1] }), (1, { value := MxmlValue.element "mxmldoc" [("xmlns", "http://www.easysw.com"), ("xmlns:xsi", "http://www.w3.org/2001/XMLSchema-instance"), ("xsi:schemaLocation", "http://www.minixml.org/mxmldoc.xsd")], parent := some 0, children := [] }), (2, { value := MxmlValue.element "temp" [], parent := none, children := [] }), (3, { value := MxmlValue.element "type" [], parent := none, children := [4, 5] }), (4, { value := MxmlValue.text false "struct", parent := some 3, children := [] }), (5, { value := MxmlValue.text true "s", parent := some 3, children := [] })] }, { state := ScanSt.sNone, braces := 0, parens := 0, buffer := ['s'], scope := none, comment := 2, constant := none, enumeration := none, function := none, fstructclass := none, structclass := none, typedefnode := none, var_ := none, returnvalue := none, type_ := some 3 }, ['\x7b', ' ', 'i', 'n', 't', ' ', 'x', ';'])]

def c3brace : Arena × Locals × List Char := ({ nextId := 6, nodes := [(0, { value := MxmlValue.element "?xml" [], parent := none, children := [1] }), (1, { value := MxmlValue.element "mxmldoc" [("xmlns", "http://www.easysw.com"), ("xmlns:xsi", "http://www.w3.org/2001/XMLSchema-instance"), ("xsi:schemaLocation", "http://www.minixml.org/mxmldoc.xsd")], parent := some 0, children := [] }), (2, { value := MxmlValue.element "temp" [], parent := none, children := [] }), (3, { value := MxmlValue.element "type" [], parent := none, children := [4, 5] }), (4, { value := MxmlValue.text false "struct", parent := some 3, children := [] }), (5, { value := MxmlValue.text true "s", parent := some 3, children := [] })] }, { state := ScanSt.sNone, braces := 0, parens := 0, buffer := ['s'], scope := none, comment := 2, constant := none, enumeration := none, function := none, fstructclass := none, structclass := none, typedefnode := none, var_ := none, returnvalue := none, type_ := some 3 }, ['\x7b', ' ', 'i', 'n', 't', ' ', 'x', ';'])

def c3a1 : Arena := { nextId := 8, nodes := [(0, { value := MxmlValue.element "?xml" [], parent := none, children := [1] }), (1, { value := MxmlValue.element "mxmldoc" [("xmlns", "http://www.easysw.com"), ("xmlns:xsi", "http://www.w3.org/2001/XMLSchema-instance"), ("xsi:schemaLocation", "http://www.minixml.org/mxmldoc.xsd")], parent := some 0, children := [6] }), (2, { value := MxmlValue.element "temp" [], parent := none, children := [] }), (6, { value := MxmlValue.element "struct" [("name", "s")], parent := some 1, children := [7] }), (7, { value := MxmlValue.element "description" [], parent := some 6, children := [] })] }

def c3L1 : Locals := { state := ScanSt.sNone, braces := 0, parens := 0, buffer := ['s'], scope := none, comment := 2, constant := none, enumeration := none, function := none, fstructclass := none, structclass := none, typedefnode := none, var_ := none, returnvalue := none, type_ := none }

def c3innerA : Arena := { nextId := 9, nodes := [(0, { value := MxmlValue.element "?xml" [], parent := none, children := [1] }), (1, { value := MxmlValue.element "mxmldoc" [("xmlns", "http://www.easysw.com"), ("xmlns:xsi", "http://www.w3.org/2001/XMLSchema-instance"), ("xsi:schemaLocation", "http://www.minixml.org/mxmldoc.xsd")], parent := some 0, children := [6] }), (2, { value := MxmlValue.element "temp" [], parent := none, children := [] }), (6, { value := MxmlValue.element "struct" [("name", "s")], parent := some 1, children := [7] }), (7, { value := MxmlValue.element "description" [], parent := some 6, children := [] }), (8, { value := MxmlValue.element "temp" [], parent := none, children := [] })] }

def c3innerL : Locals := { state := ScanSt.sNone, braces := 0, parens := 0, buffer := [], scope := none, comment := 8, constant := none, enumeration := none, function := none, fstructclass := none, structclass := none, typedefnode := none, var_ := none, returnvalue := none, type_ := none }

def c3t2 : List (Arena × Locals × List Char) := [({ nextId := 9, nodes := [(0, { value := MxmlValue.element "?xml" [], parent := none, children := [1] }), (1, { value := MxmlValue.element "mxmldoc" [("xmlns", "http://www.easysw.com"), ("xmlns:xsi", "http://www.w3.org/2001/XMLSchema-instance"), ("xsi:schemaLocation", "http://www.minixml.org/mxmldoc.xsd")], parent := some 0, children := [6] }), (2, { value := MxmlValue.element "temp" [], parent := none, children := [] }), (6, { value := MxmlValue.element "struct" [("name", "s")], parent := some 1, children := [7] }), (7, { value := MxmlValue.element "description" [], parent := some 6, children := [] }), (8, { value := MxmlValue.element "temp" [], parent := none, children := [] })] }, { state := ScanSt.sNone, braces := 0, parens := 0, buffer := [], scope := none, comment := 8, constant := none, enumeration := none, function := none, fstructclass := none, structclass := none, typedefnode := none, var_ := none, returnvalue := none, type_ := none }, ['i', 'n', 't', ' ', 'x', ';']), ({ nextId := 9, nodes := [(0, { value := MxmlValue.element "?xml" [], parent := none, children := [1] }), (1, { value := MxmlValue.element "mxmldoc" [("xmlns", "http://www.easysw.com"), ("xmlns:xsi", "http://www.w3.org/2001/XMLSchema-instance"), ("xsi:schemaLocation", "http://www.minixml.org/mxmldoc.xsd")], parent := some 0, children := [6] }), (2, { value := MxmlValue.element "temp" [], parent := none, children := [] }), (6, { value := MxmlValue.element "struct" [("name", "s")], parent := some 1, children := [7] }), (7, { value := MxmlValue.element "description" [], parent := some 6, children := [] }), (8, { value := MxmlValue.element "temp" [], parent := none, children := [] })] }, { state := ScanSt.sIdent, braces := 0, parens := 0, buffer := ['i'], scope := none, comment := 8, constant := none, enumeration := none, function := none, fstructclass := none, structclass := none, typedefnode := none, var_ := none, returnvalue := none, type_ := none }, ['n', 't', ' ', 'x', ';']), ({ nextId := 9, nodes := [(0, { value := MxmlValue.element "?xml" [], parent := none, children := [1] }), (1, { value := MxmlValue.element "mxmldoc" [("xmlns", "http://www.easysw.com"), ("xmlns:xsi", "http://www.w3.org/2001/XMLSchema-instance"), ("xsi:schemaLocation", "http://www.minixml.org/mxmldoc.xsd")], parent := some 0, children := [6] }), (2, { value := MxmlValue.element "temp" [], parent := none, children := [] }), (6, { value := MxmlValue.element "struct" [("name", "s")], parent := some 1, children := [7] }), (7, { value := MxmlValue.element "description" [], parent := some 6, children := [] }), (8, { value := MxmlValue.element "temp" [], parent := none, children := [] })] }, { state := ScanSt.sIdent, braces := 0, parens := 0, buffer := ['i', 'n'], scope := none, comment := 8, constant := none, enumeration := none, function := none, fstructclass := none, structclass := none, typedefnode := none, var_ := none, returnvalue := none, type_ := none }, ['t', ' ', 'x', ';']), ({ nextId := 9, nodes := [(0, { value := MxmlValue.element "?xml" [], parent := none, children := [1] }), (1, { value := MxmlValue.element "mxmldoc" [("xmlns", "http://www.easysw.com"), ("xmlns:xsi", "http://www.w3.org/2001/XMLSchema-instance"), ("xsi:schemaLocation", "http://www.minixml.org/mxmldoc.xsd")], parent := some 0, children := [6] }), (2, { value := MxmlValue.element "temp" [], parent := none, children := [] }), (6, { value := MxmlValue.element "struct" [("name", "s")], parent := some 1, children := [7] }), (7, { value := MxmlValue.element "description" [], parent := some 6, children := [] }), (8, { value := MxmlValue.element "temp" [], parent := none, children := [] })] }, { state := ScanSt.sIdent, braces := 0, parens := 0, buffer := ['i', 'n', 't'], scope := none, comment := 8, constant := none, enumeration := none, function := none, fstructclass := none, structclass := none, typedefnode := none, var_ := none, returnvalue := none, type_ := none }, [' ', 'x', ';']), ({ nextId := 11, nodes := [(0, { value := MxmlValue.element "?xml" [], parent := none, children := [1] }), (1, { value := MxmlValue.element "mxmldoc" [("xmlns", "http://www.easysw.com"), ("xmlns:xsi", "http://www.w3.org/2001/XMLSchema-instance"), ("xsi:schemaLocation", "http://www.minixml.org/mxmldoc.xsd")], parent := some 0, children := [6] }), (2, { value := MxmlValue.element "temp" [], parent := none, children := [] }), (6, { value := MxmlValue.element "struct" [("name", "s")], parent := some 1, children := [7] }), (7, { value := MxmlValue.element "description" [], parent := some 6, children := [] }), (8, { value := MxmlValue.element "temp" [], parent := none, children := [] }), (9, { value := MxmlValue.element "type" [], parent := none, children := [10] }), (10, { value := MxmlValue.text false "int", parent := some 9, children := [] })] }, { state := ScanSt.sNone, braces := 0, parens := 0, buffer := ['i', 'n', 't'], scope := none, comment := 8, constant := none, enumeration := none, function := none, fstructclass := none, structclass := none, typedefnode := none, var_ := none, returnvalue := none, type_ := some 9 }, [' ', 'x', ';']), ({ nextId := 11, nodes := [(0, { value := MxmlValue.element "?xml" [], parent := none, children := [1] }), (1, { value := MxmlValue.element "mxmldoc" [("xmlns", "http://www.easysw.com"), ("xmlns:xsi", "http://www.w3.org/2001/XMLSchema-instance"), ("xsi:schemaLocation", "http://www.minixml.org/mxmldoc.xsd")], parent := some 0, children := [6] }), (2, { value := MxmlValue.element "temp" [], parent := none, children := [] }), (6, { value := MxmlValue.element "struct" [("name", "s")], parent := some 1, children := [7] }), (7, { value := MxmlValue.element "description" [], parent := some 6, children := [] }), (8, { value := MxmlValue.element "temp" [], parent := none, children := [] }), (9, { value := MxmlValue.element "type" [], parent := none, children := [10] }), (10, { value := MxmlValue.text false "int", parent := some 9, children := [] })] }, { state := ScanSt.sNone, braces := 0, parens := 0, buffer := ['i', 'n', 't'], scope := none, comment := 8, constant := none, enumeration := none, function := none, fstructclass := none, structclass := none, typedefnode := none, var_ := none, returnvalue := none, type_ := some 9 }, ['x', ';']), ({ nextId := 11, nodes := [(0, { value := MxmlValue.element "?xml" [], parent := none, children := [1] }), (1, { value := MxmlValue.element "mxmldoc" [("xmlns", "http://www.easysw.com"), ("xmlns:xsi", "http://www.w3.org/2001/XMLSchema-instance"), ("xsi:schemaLocation", "http://www.minixml.org/mxmldoc.xsd")], parent := some 0, children := [6] }), (2, { value := MxmlValue.element "temp" [], parent := none, children := [] }), (6, { value := MxmlValue.element "struct" [("name", "s")], parent := some 1, children := [7] }), (7, { value := MxmlValue.element "description" [], parent := some 6, children := [] }), (8, { value := MxmlValue.element "temp" [], parent := none, children := [] }), (9, { value := MxmlValue.element "type" [], parent := none, children := [10] }), (10, { value := MxmlValue.text false "int", parent := some 9, children := [] })] }, { state := ScanSt.sIdent, braces := 0, parens := 0, buffer := ['x'], scope := none, comment := 8, constant := none, enumeration := none, function := none, fstructclass := none, structclass := none, typedefnode := none, var_ := none, returnvalue := none, type_ := some 9 }, [';']), ({ nextId := 13, nodes := [(0, { value := MxmlValue.element "?xml" [], parent := none, children := [1] }), (1, { value := MxmlValue.element "mxmldoc" [("xmlns", "http://www.easysw.com"), ("xmlns:xsi", "http://www.w3.org/2001/XMLSchema-instance"), ("xsi:schemaLocation", "http://www.minixml.org/mxmldoc.xsd")], parent := some 0, children := [6] }), (2, { value := MxmlValue.element "temp" [], parent := none, children := [] }), (6, { value := MxmlValue.element "struct" [("name", "s")], parent := some 1, children := [7, 12] }), (7, { value := MxmlValue.element "description" [], parent := some 6, children := [] }), (8, { value := MxmlValue.element "temp" [], parent := none, children := [] }), (9, { value := MxmlValue.element "type" [], parent := some 12, children := [10] }), (10, { value := MxmlValue.text false "int", parent := some 9, children := [] }), (12, { value := MxmlValue.element "variable" [("name", "x")], parent := some 6, children := [9] })] }, { state := ScanSt.sNone, braces := 0, parens := 0, buffer := ['x'], scope := none, comment := 8, constant := none, enumeration := none, function := none, fstructclass := none, structclass := none, typedefnode := none, var_ := some 12, returnvalue := none, type_ := none }, [';']), ({ nextId := 13, nodes := [(0, { value := MxmlValue.element "?xml" [], parent := none, children := [1] }), (1, { value := MxmlValue.element "mxmldoc" [("xmlns", "http://www.easysw.com"), ("xmlns:xsi", "http://www.w3.org/2001/XMLSchema-instance"), ("xsi:schemaLocation", "http://www.minixml.org/mxmldoc.xsd")], parent := some 0, children := [6] }), (2, { value := MxmlValue.element "temp" [], parent := none, children := [] }), (6, { value := MxmlValue.element "struct" [("name", "s")], parent := some 1, children := [7, 12] }), (7, { value := MxmlValue.element "description" [], parent := some 6, children := [] }), (8, { value := MxmlValue.element "temp" [], parent := none, children := [] }), (9, { value := MxmlValue.element "type" [], parent := some 12, children := [10] }), (10, { value := MxmlValue.text false "int", parent := some 9, children := [] }), (12, { value := MxmlValue.element "variable" [("name", "x")], parent := some 6, children := [9] })] }, { state := ScanSt.sNone, braces := 0, parens := 0, buffer := ['x'], scope := none, comment := 8, constant := none, enumeration := none, function := none, fstructclass := none, structclass := none, typedefnode := none, var_ := some 12, returnvalue := none, type_ := none }, [])]

def c3eofCfg : Arena × Locals × List Char := ({ nextId := 13, nodes := [(0, { value := MxmlValue.element "?xml" [], parent := none, children := [1] }), (1, { value := MxmlValue.element "mxmldoc" [("xmlns", "http://www.easysw.com"), ("xmlns:xsi", "http://www.w3.org/2001/XMLSchema-instance"), ("xsi:schemaLocation", "http://www.minixml.org/mxmldoc.xsd")], parent := some 0, children := [6] }), (2, { value := MxmlValue.element "temp" [], parent := none, children := [] }), (6, { value := MxmlValue.element "struct" [("name", "s")], parent := some 1, children := [7, 12] }), (7, { value := MxmlValue.element "description" [], parent := some 6, children := [] }), (8, { value := MxmlValue.element "temp" [], parent := none, children := [] }), (9, { value := MxmlValue.element "type" [], parent := some 12, children := [10] }), (10, { value := MxmlValue.text false "int", parent := some 9, children := [] }), (12, { value := MxmlValue.element "variable" [("name", "x")], parent := some 6, children := [9] })] }, { state := ScanSt.sNone, braces := 0, parens := 0, buffer := ['x'], scope := none, comment := 8, constant := none, enumeration := none, function := none, fstructclass := none, structclass := none, typedefnode := none, var_ := some 12, returnvalue := none, type_ := none }, [])

def c3innerOutA : Arena := { nextId := 13, nodes := [(0, { value := MxmlValue.element "?xml" [], parent := none, children := [1] }), (1, { value := MxmlValue.element "mxmldoc" [("xmlns", "http://www.easysw.com"), ("xmlns:xsi", "http://www.w3.org/2001/XMLSchema-instance"), ("xsi:schemaLocation", "http://www.minixml.org/mxmldoc.xsd")], parent := some 0, children := [6] }), (2, { value := MxmlValue.element "temp" [], parent := none, children := [] }), (6, { value := MxmlValue.element "struct" [("name", "s")], parent := some 1, children := [7, 12] }), (7, { value := MxmlValue.element "description" [], parent := some 6, children := [] }), (9, { value := MxmlValue.element "type" [], parent := some 12, children := [10] }), (10, { value := MxmlValue.text false "int", parent := some 9, children := [] }), (12, { value := MxmlValue.element "variable" [("name", "x")], parent := some 6, children := [9] })] }

def c3final : Arena := { nextId := 13, nodes := [(0, { value := MxmlValue.element "?xml" [], parent := none, children := [1] }), (1, { value := MxmlValue.element "mxmldoc" [("xmlns", "http://www.easysw.com"), ("xmlns:xsi", "http://www.w3.org/2001/XMLSchema-instance"), ("xsi:schemaLocation", "http://www.minixml.org/mxmldoc.xsd")], parent := some 0, children := [6] }), (6, { value := MxmlValue.element "struct" [("name", "s")], parent := some 1, children := [7, 12] }), (7, { value := MxmlValue.element "description" [], parent := some 6, children := [] }), (9, { value := MxmlValue.element "type" [], parent := some 12, children := [10] }), (10, { value := MxmlValue.text false "int", parent := some 9, children := [] }), (12, { value := MxmlValue.element "variable" [("name", "x")], parent := some 6, children := [9] })] }

def c3wOut : Arena × List Char × Int := ({ nextId := 3, nodes := [(0, { value := MxmlValue.element "?xml" [], parent := none, children := [1] }), (1, { value := MxmlValue.element "mxmldoc" [("xmlns", "http://www.easysw.com"), ("xmlns:xsi", "http://www.w3.org/2001/XMLSchema-instance"), ("xsi:schemaLocation", "http://www.minixml.org/mxmldoc.xsd")], parent := some 0, children := [] })] }, [], 0)

/-- The live elements of an arena with a given element name. -/
def elemsNamed (a : Arena) (nm : String) : List Nat :=
  (a.nodes.filter (fun p =>
    match p.2.value with
    | MxmlValue.element n _ => n = nm
    | _ => false)).map (fun p => p.1)

/-- Parent link of a node, when the node exists. -/
def parentOf (a : Arena) (id : Nat) : Option (Option Nat) :=
  (a.get id).map (fun n => n.parent)

/-- The fragment texts of the unique type child of a node. -/
def typeTextsOf (a : Arena) (v : Nat) : List String :=
  match (a.childIds v).filter (fun c => elementNameOf a c = "type") with
  | [ty] => (a.childIds ty).map (textOf a)
  | _ => []

/-- The property the typedef-struct example claims of the scan result:
success with the input consumed, exactly one typedef element named
point_t inserted below the documentation root, and exactly one struct
element, anonymous and parent-less, whose variable children are x and y
with type int each. -/
def c5check : Option (Arena × List Char × Int) → Bool
  | none => false
  | some (a, restc, r) =>
    r = 0 && restc.isEmpty &&
    (match elemsNamed a "typedef" with
     | [td] =>
       mxmlElementGetAttr a td "name" = some "point_t" &&
       parentOf a td = some (some new_documentation.2)
     | _ => false) &&
    (match elemsNamed a "struct" with
     | [s] =>
       parentOf a s = some none &&
       mxmlElementGetAttr a s "name" = none &&
       (match (a.childIds s).filter (fun c => elementNameOf a c = "variable") with
        | [v1, v2] =>
          mxmlElementGetAttr a v1 "name" = some "x" &&
          mxmlElementGetAttr a v2 "name" = some "y" &&
          typeTextsOf a v1 = ["int"] &&
          typeTextsOf a v2 = ["int"]
        | _ => false)
     | _ => false)

/-- The outcome observed on the truncated-aggregate input: the scan
reports success (zero, not an error), consumes the whole input, and the
enclosing tree keeps the struct with its scanned variable instead of
discarding it. -/
def c3check : Option (Arena × List Char × Int) → Bool
  | none => false
  | some (a, restc, r) =>
    r = 0 && restc.isEmpty &&
    (match elemsNamed a "struct" with
     | [s] =>
       mxmlElementGetAttr a s "name" = some "s" &&
       parentOf a s = some (some new_documentation.2) &&
       ((a.childIds s).filter (fun c => elementNameOf a c = "variable")).length = 1
     | _ => false)

/-- The truncated input after its opening brace. -/
def c3innerRest : List Char := " int x;".toList

/-- A two-node arena: a root with one attached child, used to exercise the
early returns of sort_node. -/
def w10arena : Arena :=
  { nextId := 2
    nodes := [(0, ⟨MxmlValue.element "mxmldoc" [], none, [1]⟩),
              (1, ⟨MxmlValue.element "variable" [("name", "x")], some 0, []⟩)] }

/-- A two-node arena: an argument element and a floating comment text
carrying a direction marker, exercising update_comment. -/
def w7arena : Arena :=
  { nextId := 2
    nodes := [(0, ⟨MxmlValue.element "argument" [], none, []⟩),
              (1, ⟨MxmlValue.text false "IO - the buffer", none, []⟩)] }

/-- A two-node arena for the comment-attachment witness: a root element
and a pending variable node. -/
def w6arena : Arena :=
  { nextId := 2
    nodes := [(0, ⟨MxmlValue.element "mxmldoc" [], none, [1]⟩),
              (1, ⟨MxmlValue.element "variable" [("name", "x")], some 0, []⟩)] }

/-- Scanner locals with a pending variable, for the comment-attachment
witness. -/
def w6locals : Locals :=
  ⟨ScanSt.sCCom, 0, 0, [], none, 0, none, none, none, none, none, none, some 1, none, none⟩


/-- The children list of a node as seen by the subtree traversal. -/
def childrenView (a : Arena) (x : Nat) : Option (List Nat) :=
  (a.get x).map MxmlNode.children

/-- The insertion-position test of sort_node: the candidate sibling has a
name attribute that compares strictly greater than the new name. -/
def nameGreater (a : Arena) (nm : String) (c : Nat) : Bool :=
  match mxmlElementGetAttr a c "name" with
  | none => false
  | some s => strLt nm s

/-- The insertion position dictated by the spec: directly before the first
sibling whose name compares greater, else appended at the end. -/
def insertSortedSpec (a : Arena) (nm : String) (cs : List Nat) (nd : Nat) : List Nat :=
  match cs.find? (nameGreater a nm) with
  | some g => insertBeforeId cs g nd
  | none => cs ++ [nd]

/-- The duplicate sibling the spec says is replaced: the first child of the
level that is an element of the same kind carrying the same name. -/
def dupFound (a : Arena) (t nd : Nat) (nm : String) : Option Nat :=
  (a.childIds t).find? (fun c =>
    findMatches a c (elementNameOf a nd) (some "name") (some nm))

/-- Witness store for the insertion theorem: a root level holding two named
function elements and a detached same-named node to insert. -/
def c1arena : Arena :=
  { nextId := 4
    nodes := [
      (0, ⟨MxmlValue.element "mxmldoc" [], none, [1, 2]⟩),
      (1, ⟨MxmlValue.element "function" [("name", "alpha"), ("scope", "public")],
        some 0, []⟩),
      (2, ⟨MxmlValue.element "function" [("name", "zeta")], some 0, []⟩),
      (3, ⟨MxmlValue.element "function" [("name", "alpha")], none, []⟩)] }

-- ===== THEOREMS =====

/-- Unfolding of one plain loop step validated by the step checker. -/
theorem scan_loop_cont_step (fuel tree : Nat) (c c' : Arena × Locals × List Char)
    (h : stepOkB tree c c' = true) :
    scan_loop (fuel + 1) c.1 tree c.2.1 c.2.2 = scan_loop fuel c'.1 tree c'.2.1 c'.2.2 := by
  unfold stepOkB at h
  rcases c with ⟨a, L, input⟩
  match input with
  | [] => simp at h
  | ch :: r =>
    simp only at h
    rw [Bool.and_eq_true] at h
    obtain ⟨hb, hs⟩ := h
    rw [decide_eq_true_eq] at hs
    rw [Bool.not_eq_true'] at hb
    show scan_loop (fuel + 1) a tree L (ch :: r) = _
    conv_lhs => rw [scan_loop]
    simp only [hb, Bool.false_eq_true, if_false, hs]

/-- Unfolding of a validated chain of plain loop steps. -/
theorem scan_loop_chain (tree : Nat) :
    ∀ (cs : List (Arena × Locals × List Char)) (c0 : Arena × Locals × List Char) (fuel : Nat),
      chainOkB tree (c0 :: cs) = true →
      scan_loop (fuel + cs.length) c0.1 tree c0.2.1 c0.2.2 =
        scan_loop fuel (cs.getLastD c0).1 tree (cs.getLastD c0).2.1 (cs.getLastD c0).2.2 := by
  intro cs
  induction cs with
  | nil => intro c0 fuel _; rfl
  | cons c1 cs' ih =>
    intro c0 fuel h
    unfold chainOkB at h
    rw [Bool.and_eq_true] at h
    obtain ⟨h1, h2⟩ := h
    have step := scan_loop_cont_step (fuel + cs'.length) tree c0 c1 h1
    calc scan_loop (fuel + (c1 :: cs').length) c0.1 tree c0.2.1 c0.2.2
        = scan_loop (fuel + cs'.length + 1) c0.1 tree c0.2.1 c0.2.2 := by
          rw [List.length_cons, ← Nat.add_assoc]
      _ = scan_loop (fuel + cs'.length) c1.1 tree c1.2.1 c1.2.2 := step
      _ = scan_loop fuel (cs'.getLastD c1).1 tree (cs'.getLastD c1).2.1 (cs'.getLastD c1).2.2 :=
          ih c1 fuel h2
      _ = scan_loop fuel ((c1 :: cs').getLastD c0).1 tree ((c1 :: cs').getLastD c0).2.1
            ((c1 :: cs').getLastD c0).2.2 := by
          rw [List.getLastD_cons]

/-- At the end of input the loop deletes the comment node and reports
success. -/
theorem scan_loop_eof (fuel : Nat) (a : Arena) (tree : Nat) (L : Locals) :
    scan_loop (fuel + 1) a tree L [] = some (mxmlDelete a L.comment, [], 0) := by
  conv_lhs => rw [scan_loop]

/-- Unfolding of a loop step whose dispatch finishes the invocation. -/
theorem scan_loop_ret (fuel tree : Nat) (c : Arena × Locals × List Char)
    (out : Arena × List Char × Int)
    (h : (match c.2.2 with
          | [] => false
          | ch :: r =>
            !(c.2.1.state = ScanSt.sNone && ch = '\x7b') &&
            stepDispatch c.1 tree c.2.1 ch r = Sum.inr out) = true) :
    scan_loop (fuel + 1) c.1 tree c.2.1 c.2.2 = some out := by
  rcases c with ⟨a, L, input⟩
  match input with
  | [] => simp at h
  | ch :: r =>
    simp only at h
    rw [Bool.and_eq_true] at h
    obtain ⟨hb, hs⟩ := h
    rw [decide_eq_true_eq] at hs
    rw [Bool.not_eq_true'] at hb
    show scan_loop (fuel + 1) a tree L (ch :: r) = _
    conv_lhs => rw [scan_loop]
    simp only [hb, Bool.false_eq_true, if_false, hs]

/-- Unfolding of the entry of scan_file: allocate the comment node and
start the loop. -/
theorem scan_file_entry (fuel : Nat) (a : Arena) (tree : Nat) (input : List Char) :
    scan_file (fuel + 1) a tree input =
      scan_loop fuel (mxmlNewElement a none "temp").1 tree
        (initLocals (mxmlNewElement a none "temp").1 tree (mxmlNewElement a none "temp").2) input := by
  conv_lhs => rw [scan_file]

/-- Unfolding of an opening brace that starts an aggregate body, given the
successful recursive scan of that body. -/
theorem scan_loop_brace_into (fuel : Nat) (a : Arena) (tree : Nat) (L : Locals)
    (rest : List Char) (a1 : Arena) (sub : Nat) (L1 : Locals) (a2 : Arena) (rest2 : List Char)
    (hst : L.state = ScanSt.sNone)
    (hb : stepBrace a tree L = BraceOut.recurseInto a1 sub L1)
    (hrec : scan_file fuel a1 sub rest = some (a2, rest2, 0)) :
    scan_loop (fuel + 1) a tree L ('\x7b' :: rest) = scan_loop fuel a2 tree L1 rest2 := by
  conv_lhs => rw [scan_loop]
  simp [hst, hb, hrec]

/-- Unfolding of an opening brace that needs no recursive scan. -/
theorem scan_loop_brace_cont (fuel : Nat) (a : Arena) (tree : Nat) (L : Locals)
    (rest : List Char) (a1 : Arena) (L1 : Locals)
    (hst : L.state = ScanSt.sNone)
    (hb : stepBrace a tree L = BraceOut.cont a1 L1) :
    scan_loop (fuel + 1) a tree L ('\x7b' :: rest) = scan_loop fuel a1 tree L1 rest := by
  conv_lhs => rw [scan_loop]
  simp [hst, hb]

/-- The closing-brace handler only ever finishes with result zero. -/
theorem stepCloseBrace_ret_zero (a : Arena) (L : Locals) (rest : List Char)
    (out : Arena × List Char × Int) (h : stepCloseBrace a L rest = Sum.inr out) :
    out.2.2 = 0 := by
  rw [stepCloseBrace.eq_def] at h
  dsimp only at h
  split at h
  · cases h
  · cases h; rfl

/-- The base-state dispatcher only ever finishes with result zero. -/
theorem stepNoneSimple_ret_zero (a : Arena) (tree : Nat) (L : Locals) (ch : Char)
    (rest : List Char) (out : Arena × List Char × Int)
    (h : stepNoneSimple a tree L ch rest = Sum.inr out) :
    out.2.2 = 0 := by
  rw [stepNoneSimple.eq_def] at h
  split at h
  all_goals first
    | (exact stepCloseBrace_ret_zero _ _ _ _ h)
    | cases h
    | (split at h <;> cases h)

/-- The state dispatcher only ever finishes with result zero. -/
theorem stepDispatch_ret_zero (a : Arena) (tree : Nat) (L : Locals) (ch : Char) (rest : List Char)
    (out : Arena × List Char × Int) (h : stepDispatch a tree L ch rest = Sum.inr out) :
    out.2.2 = 0 := by
  rw [stepDispatch.eq_def] at h
  split at h
  all_goals first
    | (exact stepNoneSimple_ret_zero _ _ _ _ _ _ h)
    | cases h
    | (split at h <;> cases h)

/-- Joint induction: whenever scan_file or its loop return at all, the
returned result code is zero; in particular the end-of-file exit inside a
recursive scan reports success and no caller ever takes its error
branch. -/
theorem scan_zero_aux : ∀ fuel : Nat,
    (∀ a tree input out, scan_file fuel a tree input = some out → out.2.2 = 0) ∧
    (∀ a tree L input out, scan_loop fuel a tree L input = some out → out.2.2 = 0) := by
  intro fuel
  induction fuel with
  | zero =>
    constructor
    · intro a tree input out h; rw [scan_file.eq_def] at h; cases h
    · intro a tree L input out h; rw [scan_loop.eq_def] at h; cases h
  | succ n ih =>
    constructor
    · intro a tree input out h
      rw [scan_file_entry] at h
      exact ih.2 _ _ _ _ _ h
    · intro a tree L input out h
      rw [scan_loop.eq_def] at h
      match input, h with
      | [], h => cases h; rfl
      | ch :: rest, h =>
        simp only at h
        split at h
        · split at h
          · exact ih.2 _ _ _ _ _ h
          · split at h
            · cases h
            · rename_i a2rest heq
              split at h
              · exact ih.2 _ _ _ _ _ h
              · rename_i hne
                have hz := ih.1 _ _ _ _ heq
                simp at hz
                exact absurd hz hne
          · split at h
            · cases h
            · rename_i a2rest heq
              split at h
              · exact ih.2 _ _ _ _ _ h
              · rename_i hne
                have hz := ih.1 _ _ _ _ heq
                simp at hz
                exact absurd hz hne
        · split at h
          · exact ih.2 _ _ _ _ _ h
          · rename_i s heq
            cases h
            exact stepDispatch_ret_zero _ _ _ _ _ _ heq

/-- Concrete run of the typedef-struct example: the recorded trace of the
outer scan, the recursive scan of the aggregate body and the resumed outer
scan compose to the final arena. -/
theorem c5scan :
    scan_file 40 new_documentation.1 new_documentation.2 c5input = some (c5final, [], 0) := by
  have e0 : scan_file 40 new_documentation.1 new_documentation.2 c5input
      = scan_loop 39 c5a0 new_documentation.2 (initLocals c5a0 new_documentation.2 2) c5input := by
    rw [scan_file_entry]
    rw [show mxmlNewElement new_documentation.1 none "temp" = (c5a0, 2) from by decide]
  have hL0 : initLocals c5a0 new_documentation.2 2 = c5L0 := by decide
  rw [hL0] at e0
  have h1 := scan_loop_chain new_documentation.2 c5t1 (c5a0, c5L0, c5input) 22 (by decide)
  rw [show c5t1.getLastD (c5a0, c5L0, c5input) = c5brace from by decide] at h1
  have einner : scan_file 21 c5a1 7 c5innerRest = some (c5outA, c5outRest, 0) := by
    have ei0 : scan_file 21 c5a1 7 c5innerRest
        = scan_loop 20 c5innerA 7 (initLocals c5innerA 7 9) c5innerRest := by
      rw [scan_file_entry]
      rw [show mxmlNewElement c5a1 none "temp" = (c5innerA, 9) from by decide]
    have hiL : initLocals c5innerA 7 9 = c5innerL := by decide
    rw [hiL] at ei0
    have h2 := scan_loop_chain 7 c5t2 (c5innerA, c5innerL, c5innerRest) 1 (by decide)
    rw [show c5t2.getLastD (c5innerA, c5innerL, c5innerRest) = c5ret from by decide] at h2
    have h3 := scan_loop_ret 0 7 c5ret (c5outA, c5outRest, 0) (by decide)
    exact ei0.trans (h2.trans h3)
  have h4 : scan_loop 22 c5brace.1 new_documentation.2 c5brace.2.1 c5brace.2.2
      = scan_loop 21 c5outA new_documentation.2 c5L1 c5outRest :=
    scan_loop_brace_into 21 c5brace.1 new_documentation.2 c5brace.2.1 c5innerRest
      c5a1 7 c5L1 c5outA c5outRest (by decide) (by decide) einner
  have h5 := scan_loop_chain new_documentation.2 c5t3 (c5outA, c5L1, c5outRest) 11 (by decide)
  rw [show c5t3.getLastD (c5outA, c5L1, c5outRest) = c5eofCfg from by decide] at h5
  have h6 : scan_loop 11 c5eofCfg.1 new_documentation.2 c5eofCfg.2.1 c5eofCfg.2.2
      = some (c5final, [], 0) := by
    have he := scan_loop_eof 10 c5eofCfg.1 new_documentation.2 c5eofCfg.2.1
    rw [show (mxmlDelete c5eofCfg.1 c5eofCfg.2.1.comment : Arena) = c5final from by decide] at he
    exact he
  exact e0.trans (h1.trans (h4.trans (h5.trans h6)))

/-- C5: scanning the input typedef struct braces int x semicolon int y
semicolon braces point_t semicolon into a fresh documentation tree
succeeds consuming the whole input and yields exactly one typedef element
named point_t, inserted below the documentation root, and exactly one
struct element, anonymous and parent-less, whose variable children are x
and y, both of type int. -/
theorem typedef_struct_example_scan :
    c5check (scan_file 40 new_documentation.1 new_documentation.2 c5input) = true := by
  rw [c5scan]; decide

/-- Concrete run of the truncated-aggregate input: the outer scan enters
the recursive scan of the struct body, the recursive scan meets end of
file and returns success, and the outer scan finishes with success and
the accumulated tree. -/
theorem c3scan :
    scan_file 24 new_documentation.1 new_documentation.2 c3input = some (c3final, [], 0) := by
  have e0 : scan_file 24 new_documentation.1 new_documentation.2 c3input
      = scan_loop 23 c3a0 new_documentation.2 (initLocals c3a0 new_documentation.2 2) c3input := by
    rw [scan_file_entry]
    rw [show mxmlNewElement new_documentation.1 none "temp" = (c3a0, 2) from by decide]
  have hL0 : initLocals c3a0 new_documentation.2 2 = c3L0 := by decide
  rw [hL0] at e0
  have h1 := scan_loop_chain new_documentation.2 c3t1 (c3a0, c3L0, c3input) 12 (by decide)
  rw [show c3t1.getLastD (c3a0, c3L0, c3input) = c3brace from by decide] at h1
  have einner : scan_file 11 c3a1 6 c3innerRest = some (c3innerOutA, [], 0) := by
    have ei0 : scan_file 11 c3a1 6 c3innerRest
        = scan_loop 10 c3innerA 6 (initLocals c3innerA 6 8) c3innerRest := by
      rw [scan_file_entry]
      rw [show mxmlNewElement c3a1 none "temp" = (c3innerA, 8) from by decide]
    have hiL : initLocals c3innerA 6 8 = c3innerL := by decide
    rw [hiL] at ei0
    have h2 := scan_loop_chain 6 c3t2 (c3innerA, c3innerL, c3innerRest) 1 (by decide)
    rw [show c3t2.getLastD (c3innerA, c3innerL, c3innerRest) = c3eofCfg from by decide] at h2
    have h3 : scan_loop 1 c3eofCfg.1 6 c3eofCfg.2.1 c3eofCfg.2.2 = some (c3innerOutA, [], 0) := by
      have he := scan_loop_eof 0 c3eofCfg.1 6 c3eofCfg.2.1
      rw [show (mxmlDelete c3eofCfg.1 c3eofCfg.2.1.comment : Arena) = c3innerOutA from by decide] at he
      exact he
    exact ei0.trans (h2.trans h3)
  have h4 : scan_loop 12 c3brace.1 new_documentation.2 c3brace.2.1 c3brace.2.2
      = scan_loop 11 c3innerOutA new_documentation.2 c3L1 [] :=
    scan_loop_brace_into 11 c3brace.1 new_documentation.2 c3brace.2.1 c3innerRest
      c3a1 6 c3L1 c3innerOutA [] (by decide) (by decide) einner
  have h6 : scan_loop 11 c3innerOutA new_documentation.2 c3L1 [] = some (c3final, [], 0) := by
    have he := scan_loop_eof 10 c3innerOutA new_documentation.2 c3L1
    rw [show (mxmlDelete c3innerOutA c3L1.comment : Arena) = c3final from by decide] at he
    exact he
  exact e0.trans (h1.trans (h4.trans h6))

/-- C3 counterexample: on the input struct s brace int x semicolon, end of
file is reached while the recursive scan of the aggregate body is in
progress, yet the whole scan returns zero (success, not an error) with the
input consumed, and the enclosing tree keeps the struct named s together
with the variable scanned inside the truncated body instead of discarding
its accumulated tree; the claimed failure report and tree discard do not
happen. -/
theorem scan_eof_recursion_counterexample :
    c3check (scan_file 24 new_documentation.1 new_documentation.2 c3input) = true := by
  rw [c3scan]; decide

/-- C3 amended: whenever scan_file returns at all, its result code is
zero; end of file inside a recursive scan of an aggregate or extern body
is treated as a normal successful end of that scan, every enclosing call
keeps its accumulated tree, and the error propagation branches of the
source are unreachable. -/
theorem scan_file_never_fails (fuel : Nat) (a : Arena) (tree : Nat) (input : List Char)
    (out : Arena × List Char × Int) (h : scan_file fuel a tree input = some out) :
    out.2.2 = 0 :=
  (scan_zero_aux fuel).1 a tree input out h

/-- Witness for the amended C3 theorem at a concrete run. -/
theorem scan_file_never_fails_witness : c3wOut.2.2 = 0 :=
  scan_file_never_fails 2 new_documentation.1 new_documentation.2 [] c3wOut (by decide)

/-- C9: the scan is a deterministic function of the input character
stream and the starting tree; scanning the same stream twice into
structurally identical fresh trees yields structurally identical
results (same elements, same child order, same attributes). -/
theorem scan_file_deterministic (fuel : Nat) (a1 a2 : Arena) (t1 t2 : Nat) (input : List Char)
    (ha : a1 = a2) (ht : t1 = t2) :
    scan_file fuel a1 t1 input = scan_file fuel a2 t2 input := by
  subst ha; subst ht; rfl

/-- Witness for the determinism theorem at a concrete run. -/
theorem scan_file_deterministic_witness :
    scan_file 40 new_documentation.1 new_documentation.2 c5input
      = scan_file 40 new_documentation.1 new_documentation.2 c5input :=
  scan_file_deterministic 40 new_documentation.1 new_documentation.1
    new_documentation.2 new_documentation.2 c5input rfl rfl

/-- C10: sort_node with a missing tree, a missing node, or a node that is
already a child of the target tree returns immediately with the arena
untouched: nothing is removed, no scope is copied, and the child order is
preserved. -/
theorem sort_node_noop_frame (a : Arena) (tr nd : Option Nat)
    (h : tr = none ∨ nd = none ∨
      (∃ t n nnode, tr = some t ∧ nd = some n ∧ a.get n = some nnode ∧ nnode.parent = some t)) :
    sort_node a tr nd = a := by
  rcases h with h | h | ⟨t, n, nnode, ht, hn, hget, hpar⟩
  · subst h; cases nd <;> rfl
  · subst h; cases tr <;> rfl
  · subst ht; subst hn
    unfold sort_node
    simp [hget, hpar]

/-- Witness for the sort_node frame theorem: re-sorting an attached child
is a no-op on a concrete arena. -/
theorem sort_node_noop_frame_witness : sort_node w10arena (some 0) (some 1) = w10arena :=
  sort_node_noop_frame w10arena (some 0) (some 1)
    (Or.inr (Or.inr ⟨0, 1, ⟨MxmlValue.element "variable" [("name", "x")], some 0, []⟩,
      rfl, rfl, by decide, rfl⟩))

/-- The accumulator of the subtree collection only grows. -/
theorem subtreeIdsAux_acc_sub (a : Arena) :
    ∀ (fuel : Nat) (stack acc : List Nat), acc ⊆ subtreeIdsAux a fuel stack acc := by
  intro fuel
  induction fuel with
  | zero => intro stack acc; rw [subtreeIdsAux]; exact fun x hx => hx
  | succ n ih =>
    intro stack acc
    match stack with
    | [] => rw [subtreeIdsAux]; exact fun x hx => hx
    | id :: stack' =>
      rw [subtreeIdsAux]
      by_cases hmem : id ∈ acc
      · simp only [hmem, if_true]
        exact ih stack' acc
      · simp only [hmem, if_false]
        cases a.get id with
        | none => exact fun x hx => ih stack' (id :: acc) (List.mem_cons_of_mem _ hx)
        | some nd => exact fun x hx => ih (nd.children ++ stack') (id :: acc) (List.mem_cons_of_mem _ hx)

/-- A node belongs to its own collected subtree. -/
theorem mem_subtreeIds_self (a : Arena) (id : Nat) : id ∈ subtreeIds a id := by
  unfold subtreeIds
  have hf : a.deleteFuel * 2 + 2 = (a.deleteFuel * 2 + 1) + 1 := rfl
  rw [hf, subtreeIdsAux]
  simp only [List.not_mem_nil, if_false]
  cases a.get id with
  | none => exact subtreeIdsAux_acc_sub a _ _ _ (List.mem_cons_self _ _)
  | some nd => exact subtreeIdsAux_acc_sub a _ _ _ (List.mem_cons_self _ _)

/-- Filtering away a set of keys makes their lookups fail. -/
theorem lookup_filter_not_mem (ids : List Nat) (v : Nat) (hv : v ∈ ids) :
    ∀ (l : List (Nat × MxmlNode)), (l.filter (fun p => !(ids.contains p.1))).lookup v = none := by
  intro l
  induction l with
  | nil => rfl
  | cons p t ih =>
    rw [List.filter_cons]
    by_cases hk : (ids.contains p.1) = true
    · simp only [hk, Bool.not_true, Bool.false_eq_true, if_false]
      exact ih
    · simp only [hk, Bool.not_false, if_true]
      have hne : (v == p.1) = false := by
        rw [beq_eq_false_iff_ne]
        intro he
        apply hk
        rw [← he]
        exact List.elem_eq_true_of_mem hv
      simp only [List.lookup, hne]
      exact ih

/-- Deleting a node removes it from the store. -/
theorem mxmlDelete_get_self (a : Arena) (id : Nat) : (mxmlDelete a id).get id = none := by
  unfold mxmlDelete Arena.get
  exact lookup_filter_not_mem _ _ (mem_subtreeIds_self _ _) _

/-- C4: a semicolon with a pending function inserts the function via
sort_node exactly when the current scan root is a class element and
otherwise deletes the pending function node, which then no longer exists
anywhere in the arena; the pending function and variable slots are
cleared either way. -/
theorem semicolon_function_class_only
    (fuel : Nat) (a : Arena) (tree : Nat) (f : Nat) (rest : List Char)
    (braces parens : Nat) (buffer : List Char) (scope : Option String) (comment : Nat)
    (constant enumeration fstructclass structclass typedefnode var_ returnvalue : Option Nat) :
    scan_loop (fuel + 1) a tree
      ⟨ScanSt.sNone, braces, parens, buffer, scope, comment, constant,
        enumeration, some f, fstructclass, structclass, typedefnode, var_, returnvalue, none⟩
      (';' :: rest) =
      scan_loop fuel
        (if elementNameOf a tree = "class" then sort_node a (some tree) (some f)
         else mxmlDelete a f)
        tree
        ⟨ScanSt.sNone, braces, parens, buffer, scope, comment, constant,
          enumeration, none, fstructclass, structclass, typedefnode, none, returnvalue, none⟩
        rest
    ∧ (¬ elementNameOf a tree = "class" → (mxmlDelete a f).get f = none) := by
  constructor
  · conv_lhs => rw [scan_loop]
    by_cases hc : elementNameOf a tree = "class" <;>
      simp [stepDispatch, stepNoneSimple, stepSemi, hc]
  · intro _
    exact mxmlDelete_get_self a f


/-- Witness for the semicolon handling at a concrete non-class root: the
discarded function node is gone. -/
theorem semicolon_function_class_only_witness :
    (mxmlDelete w10arena 1).get 1 = none :=
  (semicolon_function_class_only 0 w10arena 0 1 [] 0 0 [] none 0
    none none none none none none none).2 (by decide)

/-- C8: in the base state a double or single quote enters the string or
character literal state with the buffer holding the opening quote; inside
the literal a backslash consumes the following input character,
accumulating both; and the matching closing quote returns to the base
state and, when a type sequence is open, appends the whole accumulated
literal including its closing quote as a single fragment whose
preceded-by-whitespace flag is set exactly when the sequence already had a
fragment. -/
theorem string_literal_states_spec
    (fuel : Nat) (a : Arena) (tree : Nat) (rest : List Char) (c2 : Char)
    (braces parens : Nat) (buffer : List Char) (scope : Option String) (comment : Nat)
    (constant enumeration function fstructclass structclass typedefnode var_ returnvalue tyOpt : Option Nat) :
    (scan_loop (fuel + 1) a tree
        ⟨ScanSt.sNone, braces, parens, buffer, scope, comment, constant, enumeration,
          function, fstructclass, structclass, typedefnode, var_, returnvalue, tyOpt⟩
        ('\"' :: rest) =
      scan_loop fuel a tree
        ⟨ScanSt.sStr, braces, parens, ['\"'], scope, comment, constant, enumeration,
          function, fstructclass, structclass, typedefnode, var_, returnvalue, tyOpt⟩
        rest) ∧
    (scan_loop (fuel + 1) a tree
        ⟨ScanSt.sNone, braces, parens, buffer, scope, comment, constant, enumeration,
          function, fstructclass, structclass, typedefnode, var_, returnvalue, tyOpt⟩
        ('\'' :: rest) =
      scan_loop fuel a tree
        ⟨ScanSt.sChr, braces, parens, ['\''], scope, comment, constant, enumeration,
          function, fstructclass, structclass, typedefnode, var_, returnvalue, tyOpt⟩
        rest) ∧
    (scan_loop (fuel + 1) a tree
        ⟨ScanSt.sStr, braces, parens, buffer, scope, comment, constant, enumeration,
          function, fstructclass, structclass, typedefnode, var_, returnvalue, tyOpt⟩
        ('\\' :: c2 :: rest) =
      scan_loop fuel a tree
        ⟨ScanSt.sStr, braces, parens, buffer ++ ['\\', c2], scope, comment, constant, enumeration,
          function, fstructclass, structclass, typedefnode, var_, returnvalue, tyOpt⟩
        rest) ∧
    (scan_loop (fuel + 1) a tree
        ⟨ScanSt.sChr, braces, parens, buffer, scope, comment, constant, enumeration,
          function, fstructclass, structclass, typedefnode, var_, returnvalue, tyOpt⟩
        ('\\' :: c2 :: rest) =
      scan_loop fuel a tree
        ⟨ScanSt.sChr, braces, parens, buffer ++ ['\\', c2], scope, comment, constant, enumeration,
          function, fstructclass, structclass, typedefnode, var_, returnvalue, tyOpt⟩
        rest) ∧
    (scan_loop (fuel + 1) a tree
        ⟨ScanSt.sStr, braces, parens, buffer, scope, comment, constant, enumeration,
          function, fstructclass, structclass, typedefnode, var_, returnvalue, tyOpt⟩
        ('\"' :: rest) =
      scan_loop fuel
        (match tyOpt with
         | some ty =>
           (mxmlNewText a (some ty) (!(a.childIds ty).isEmpty) (String.mk (buffer ++ ['\"']))).1
         | none => a)
        tree
        ⟨ScanSt.sNone, braces, parens, buffer ++ ['\"'], scope, comment, constant, enumeration,
          function, fstructclass, structclass, typedefnode, var_, returnvalue, tyOpt⟩
        rest) ∧
    (scan_loop (fuel + 1) a tree
        ⟨ScanSt.sChr, braces, parens, buffer, scope, comment, constant, enumeration,
          function, fstructclass, structclass, typedefnode, var_, returnvalue, tyOpt⟩
        ('\'' :: rest) =
      scan_loop fuel
        (match tyOpt with
         | some ty =>
           (mxmlNewText a (some ty) (!(a.childIds ty).isEmpty) (String.mk (buffer ++ ['\'']))).1
         | none => a)
        tree
        ⟨ScanSt.sNone, braces, parens, buffer ++ ['\''], scope, comment, constant, enumeration,
          function, fstructclass, structclass, typedefnode, var_, returnvalue, tyOpt⟩
        rest) := by
  refine ⟨?_, ?_, ?_, ?_, ?_, ?_⟩
  · conv_lhs => rw [scan_loop]
    simp [stepDispatch, stepNoneSimple]
  · conv_lhs => rw [scan_loop]
    simp [stepDispatch, stepNoneSimple]
  · conv_lhs => rw [scan_loop]
    simp [stepDispatch, stepStr]
  · conv_lhs => rw [scan_loop]
    simp [stepDispatch, stepChr]
  · conv_lhs => rw [scan_loop]
    cases tyOpt <;> simp [stepDispatch, stepStr]
  · conv_lhs => rw [scan_loop]
    cases tyOpt <;> simp [stepDispatch, stepChr]

/-- C7: when a comment text beginning with the marker I, O or IO followed
by a space is normalized against an argument element, the direction
attribute of that argument is set to the marker, and the comment text
becomes the remainder after the first space with leading whitespace, an
optional dash, more whitespace, and the trailing star and whitespace runs
stripped. -/
theorem update_comment_direction_spec
    (a : Arena) (par com : Nat) (ws : Bool) (s0 : String) (p : Option Nat) (cs : List Nat)
    (pre restd : List Char)
    (hcom : a.get com = some ⟨MxmlValue.text ws s0, p, cs⟩)
    (harg : elementNameOf a par = "argument")
    (hshape : remBS s0.toList = pre ++ (' ' :: restd))
    (hpre : pre = ['I'] ∨ pre = ['O'] ∨ pre = ['I', 'O']) :
    update_comment a (some par) (some com) =
      (mxmlElementSetAttr a par "direction" (String.mk pre)).set com
        ⟨MxmlValue.text ws
          (String.mk (stripTrail (stripLead (dropDashSpaces restd)))), p, cs⟩ := by
  simp only [String.toList] at hshape
  rcases hpre with hp | hp | hp <;> subst hp <;>
    simp [update_comment, hcom, hshape, dirSplit, harg]


/-- Witness: normalizing the comment IO dash the buffer against an
argument element. -/
theorem update_comment_direction_spec_witness :
    update_comment w7arena (some 0) (some 1) =
      (mxmlElementSetAttr w7arena 0 "direction" (String.mk ['I', 'O'])).set 1
        ⟨MxmlValue.text false
          (String.mk (stripTrail (stripLead (dropDashSpaces ("- the buffer".toList))))),
          none, []⟩ :=
  update_comment_direction_spec w7arena 0 1 false "IO - the buffer" none []
    ['I', 'O'] ("- the buffer".toList) (by rfl) (by rfl) (by decide)
    (Or.inr (Or.inr rfl))

/-- A key-preserving map keeps failing lookups failing. -/
theorem lookup_map_keyfix (f : Nat × MxmlNode → Nat × MxmlNode)
    (hf : ∀ p, (f p).1 = p.1) (x : Nat) :
    ∀ l : List (Nat × MxmlNode), l.lookup x = none → (l.map f).lookup x = none := by
  intro l
  induction l with
  | nil => intro _; rfl
  | cons p t ih =>
    intro h
    rw [List.map_cons]
    simp only [List.lookup] at h ⊢
    rw [hf p]
    cases hxe : x == p.1 with
    | true => rw [hxe] at h; simp at h
    | false =>
      rw [hxe] at h
      simp only at h ⊢
      exact ih h

/-- Updating one entry cannot make a missing entry appear. -/
theorem get_set_none (a : Arena) (i : Nat) (n : MxmlNode) (x : Nat)
    (h : a.get x = none) : (a.set i n).get x = none := by
  unfold Arena.get Arena.set at *
  simp only
  apply lookup_map_keyfix
  · intro p
    by_cases hp : p.1 = i
    · simp [hp]
    · simp [hp]
  · exact h

/-- Filtering entries away cannot make a missing entry appear. -/
theorem lookup_filter_none (q : Nat × MxmlNode → Bool) (x : Nat) :
    ∀ (l : List (Nat × MxmlNode)), l.lookup x = none → (l.filter q).lookup x = none := by
  intro l
  induction l with
  | nil => intro _; rfl
  | cons p t ih =>
    intro h
    simp only [List.lookup] at h
    rw [List.filter_cons]
    cases hxe : x == p.1 with
    | true => rw [hxe] at h; simp at h
    | false =>
      rw [hxe] at h
      simp only at h
      split
      · simp only [List.lookup, hxe]
        exact ih h
      · exact ih h

/-- Detaching a node cannot make a missing entry appear. -/
theorem get_detach_none (a : Arena) (y x : Nat) (h : a.get x = none) :
    (detachFromParent a y).get x = none := by
  rw [detachFromParent.eq_def]
  split
  · split
    · dsimp only
      split
      · split
        · exact get_set_none _ _ _ _ (get_set_none _ _ _ _ h)
        · exact get_set_none _ _ _ _ h
      · split
        · exact get_set_none _ _ _ _ h
        · exact h
    · exact h
  · exact h

/-- Deleting a node cannot make a missing entry appear. -/
theorem get_delete_none (a : Arena) (y x : Nat) (h : a.get x = none) :
    (mxmlDelete a y).get x = none := by
  unfold mxmlDelete Arena.get
  exact lookup_filter_none _ _ _ (get_detach_none a y x h)

/-- C6: when a completed comment text contains the private marker, the
pending declaration it would have documented is deleted from the store
instead of receiving a description: a pending variable, else a pending
enum constant, else a pending typedef together with any sibling struct or
class node and any sibling enumeration node created alongside it; the
corresponding pending slot is cleared. -/
theorem private_comment_deletes_pending
    (a : Arena) (tree : Nat) (L : Locals) (buf : String)
    (hpriv : strstrB buf "@private@" = true) :
    (∀ v, L.var_ = some v →
      (processComment a tree L buf).1.get v = none ∧
      (processComment a tree L buf).2.var_ = none) ∧
    (∀ c, L.var_ = none → L.constant = some c →
      (processComment a tree L buf).1.get c = none ∧
      (processComment a tree L buf).2.constant = none) ∧
    (∀ td, L.var_ = none → L.constant = none → L.typedefnode = some td →
      (processComment a tree L buf).1.get td = none ∧
      (processComment a tree L buf).2.typedefnode = none ∧
      (∀ sc, L.structclass = some sc → (processComment a tree L buf).1.get sc = none) ∧
      (∀ e, L.enumeration = some e → (processComment a tree L buf).1.get e = none)) := by
  obtain ⟨st, br, pa, bu, sco, com, con, enu, fn, fsc, scl, tdn, va, rv, ty⟩ := L
  refine ⟨?_, ?_, ?_⟩
  · intro v hv
    cases hv
    unfold processComment
    dsimp only
    rw [if_pos hpriv]
    exact ⟨mxmlDelete_get_self _ v, rfl⟩
  · intro c hv hc
    cases hv
    cases hc
    unfold processComment
    dsimp only
    rw [if_pos hpriv]
    exact ⟨mxmlDelete_get_self _ c, rfl⟩
  · intro td hv hc htd
    cases hv
    cases hc
    cases htd
    cases scl with
    | none =>
      cases enu with
      | none =>
        unfold processComment
        dsimp only
        rw [if_pos hpriv]
        refine ⟨mxmlDelete_get_self _ td, rfl, ?_, ?_⟩
        · intro sc hx; cases hx
        · intro e hx; cases hx
      | some e0 =>
        unfold processComment
        dsimp only
        rw [if_pos hpriv]
        refine ⟨get_delete_none _ _ _ (mxmlDelete_get_self _ td), rfl, ?_, ?_⟩
        · intro sc hx; cases hx
        · intro e hx
          injection hx with hx
          subst hx
          exact mxmlDelete_get_self _ _
    | some s0 =>
      cases enu with
      | none =>
        unfold processComment
        dsimp only
        rw [if_pos hpriv]
        refine ⟨get_delete_none _ _ _ (mxmlDelete_get_self _ td), rfl, ?_, ?_⟩
        · intro sc hx
          injection hx with hx
          subst hx
          exact mxmlDelete_get_self _ _
        · intro e hx; cases hx
      | some e0 =>
        unfold processComment
        dsimp only
        rw [if_pos hpriv]
        refine ⟨get_delete_none _ _ _ (get_delete_none _ _ _ (mxmlDelete_get_self _ td)), rfl,
          ?_, ?_⟩
        · intro sc hx
          injection hx with hx
          subst hx
          exact get_delete_none _ _ _ (mxmlDelete_get_self _ _)
        · intro e hx
          injection hx with hx
          subst hx
          exact mxmlDelete_get_self _ _


/-- Witness: a private comment deletes a concrete pending variable. -/
theorem private_comment_deletes_pending_witness :
    (processComment w6arena 0 w6locals "x @private@ y").1.get 1 = none ∧
    (processComment w6arena 0 w6locals "x @private@ y").2.var_ = none :=
  (private_comment_deletes_pending w6arena 0 w6locals "x @private@ y" (by decide)).1 1 rfl

/-- The find_public loop returns the first public entry of the raw
candidate chain. -/
theorem find_public_loop_eq (a : Arena) (top : Nat) (elem : String) (nm : Option String) :
    ∀ (fuel : Nat) (cur : Option Nat),
      find_public_loop fuel a cur top elem nm =
        (findCandidatesLoop fuel a cur top elem nm).find? (fun c => isPublicNode a c) := by
  intro fuel
  induction fuel with
  | zero => intro cur; rfl
  | succ n ih =>
    intro cur
    cases cur with
    | none => rfl
    | some c =>
      rw [find_public_loop, findCandidatesLoop, List.find?]
      cases hp : isPublicNode a c
      · simp only [hp]
        exact ih _
      · simp only [hp, if_true]

/-- C2: find_public returns exactly the first node of the raw find-next
candidate chain (kind-filtered and optionally name-filtered, starting
descending when the start is the top node) that has a description child
free of the private marker; candidates without a description child or
with a privately marked description are skipped rather than ending the
search, the skipped candidates remain in the raw traversal chain, and
nothing is returned when no public candidate remains. -/
theorem find_public_skips_private (fuel : Nat) (a : Arena) (node top : Nat)
    (elem : String) (nm : Option String) :
    find_public fuel a node top elem nm =
      (findCandidates fuel a node top elem nm).find? (fun c => isPublicNode a c) := by
  unfold find_public findCandidates
  exact find_public_loop_eq a top elem nm fuel _

/-- Replacing the entry of one key leaves lookups of other keys unchanged. -/
theorem lookup_map_set_ne (i : Nat) (n : MxmlNode) (x : Nat) (hne : x ≠ i) :
    ∀ l : List (Nat × MxmlNode),
      (l.map (fun p => if p.1 = i then (i, n) else p)).lookup x = l.lookup x := by
  intro l
  induction l with
  | nil => rfl
  | cons p t ih =>
    rw [List.map_cons]
    by_cases hpi : p.1 = i
    · simp only [hpi, if_true]
      have hx1 : (x == i) = false := by rw [beq_eq_false_iff_ne]; exact hne
      have hx2 : (x == p.1) = false := by rw [beq_eq_false_iff_ne, hpi]; exact hne
      simp only [List.lookup, hx1, hx2]
      exact ih
    · simp only [hpi, if_false]
      simp only [List.lookup]
      cases hxe : x == p.1 with
      | true => rfl
      | false => exact ih

theorem get_set_other (a : Arena) (i : Nat) (n : MxmlNode) (x : Nat) (hne : x ≠ i) :
    (a.set i n).get x = a.get x := by
  unfold Arena.get Arena.set
  exact lookup_map_set_ne i n x hne a.nodes

/-- Replacing the entry of a present key makes its lookup return the new node. -/
theorem lookup_map_set_self (i : Nat) (n : MxmlNode) :
    ∀ l : List (Nat × MxmlNode), (l.lookup i).isSome →
      (l.map (fun p => if p.1 = i then (i, n) else p)).lookup i = some n := by
  intro l
  induction l with
  | nil => intro h; simp [List.lookup] at h
  | cons p t ih =>
    intro h
    rw [List.map_cons]
    by_cases hpi : p.1 = i
    · simp only [hpi, if_true]
      simp only [List.lookup, beq_self_eq_true]
    · simp only [hpi, if_false]
      have hxe : (i == p.1) = false := by
        rw [beq_eq_false_iff_ne]
        intro he; exact hpi he.symm
      simp only [List.lookup, hxe] at h ⊢
      exact ih h

theorem get_set_self (a : Arena) (i : Nat) (n m : MxmlNode) (h : a.get i = some m) :
    (a.set i n).get i = some n := by
  unfold Arena.get Arena.set
  apply lookup_map_set_self
  unfold Arena.get at h
  rw [h]
  rfl

/-- Filtering away other keys leaves the lookup of a kept key unchanged. -/
theorem lookup_filter_keep (ids : List Nat) (x : Nat) (hx : x ∉ ids) :
    ∀ l : List (Nat × MxmlNode),
      (l.filter (fun p => !(ids.contains p.1))).lookup x = l.lookup x := by
  intro l
  induction l with
  | nil => rfl
  | cons p t ih =>
    rw [List.filter_cons]
    cases hxe : x == p.1 with
    | true =>
      have hp1 : p.1 = x := (eq_of_beq hxe).symm
      have hcon : (ids.contains p.1) = false := by
        rw [hp1]
        exact Bool.eq_false_iff.mpr (fun he => hx (List.mem_of_elem_eq_true he))
      simp only [hcon, Bool.not_false, if_true]
      simp only [List.lookup, hxe]
    | false =>
      simp only [List.lookup, hxe]
      split
      · simp only [List.lookup, hxe]
        exact ih
      · exact ih

/-- Updating an entry does not change the key sequence of the store. -/
theorem keys_set (a : Arena) (i : Nat) (m : MxmlNode) :
    (a.set i m).nodes.map Prod.fst = a.nodes.map Prod.fst := by
  unfold Arena.set
  simp only [List.map_map]
  apply List.map_congr_left
  intro p _
  by_cases hp : p.1 = i
  · simp [Function.comp, hp]
  · simp [Function.comp, hp]

/-- Setting an attribute makes its lookup return the new value. -/
theorem lookup_setAttrList (k v : String) :
    ∀ attrs : List (String × String), (setAttrList attrs k v).lookup k = some v := by
  intro attrs
  induction attrs with
  | nil => simp [setAttrList, List.lookup]
  | cons p t ih =>
    rw [setAttrList.eq_def]
    by_cases hp : p.1 = k
    · simp only [hp, if_true]
      simp only [List.lookup, beq_self_eq_true]
    · simp only [hp, if_false]
      have hxe : (k == p.1) = false := by
        rw [beq_eq_false_iff_ne]
        intro he; exact hp he.symm
      simp only [List.lookup, hxe]
      exact ih

/-- find? only looks at the predicate pointwise. -/
theorem find_congr_local (p q : Nat → Bool) :
    ∀ l : List Nat, (∀ x ∈ l, p x = q x) → l.find? p = l.find? q := by
  intro l
  induction l with
  | nil => intro _; rfl
  | cons c t ih =>
    intro h
    rw [List.find?_cons, List.find?_cons, h c (List.mem_cons_self c t)]
    cases q c with
    | true => rfl
    | false => exact ih (fun x hx => h x (List.mem_cons_of_mem _ hx))

/-- Attribute reads only depend on the node entry. -/
theorem getAttr_ext (a b : Arena) (c : Nat) (h : b.get c = a.get c) (k : String) :
    mxmlElementGetAttr b c k = mxmlElementGetAttr a c k := by
  unfold mxmlElementGetAttr
  rw [h]

/-- A key with a successful lookup occurs in the key sequence. -/
theorem mem_keys_of_lookup_isSome (x : Nat) :
    ∀ l : List (Nat × MxmlNode), (l.lookup x).isSome → x ∈ l.map Prod.fst := by
  intro l
  induction l with
  | nil => intro h; simp [List.lookup] at h
  | cons p t ih =>
    intro h
    rw [List.map_cons]
    cases hxe : x == p.1 with
    | true => exact List.mem_cons.2 (Or.inl (eq_of_beq hxe))
    | false =>
      simp only [List.lookup, hxe] at h
      exact List.mem_cons.2 (Or.inr (ih h))

/-- A present node's index occurs among the store keys. -/
theorem mem_keys_of_get_some (a : Arena) (x : Nat) (h : (a.get x).isSome) :
    x ∈ a.nodes.map Prod.fst :=
  mem_keys_of_lookup_isSome x a.nodes h

/-- A duplicate-free list of present node indices is no longer than the
store. -/
theorem nodup_length_le_store (a : Arena) (l : List Nat) (hn : l.Nodup)
    (hp : ∀ x ∈ l, (a.get x).isSome) : l.length ≤ a.nodes.length := by
  have h1 : l.toFinset.card = l.length := List.toFinset_card_of_nodup hn
  have h2 : l.toFinset ⊆ (a.nodes.map Prod.fst).toFinset := by
    intro x hx
    rw [List.mem_toFinset] at hx ⊢
    exact mem_keys_of_get_some a x (hp x hx)
  have h3 := Finset.card_le_card h2
  have h4 : (a.nodes.map Prod.fst).toFinset.card ≤ (a.nodes.map Prod.fst).length :=
    List.toFinset_card_le _
  rw [h1] at h3
  rw [List.length_map] at h4
  exact Nat.le_trans h3 h4

/-- The element after a distinguished entry of an appended list. -/
theorem listAfter_append (c : Nat) (l2 : List Nat) :
    ∀ l1 : List Nat, c ∉ l1 → listAfter (l1 ++ c :: l2) c = l2.head? := by
  intro l1
  induction l1 with
  | nil =>
    intro _
    rw [List.nil_append, listAfter, if_pos rfl]
  | cons x t ih =>
    intro hc
    rw [List.cons_append, listAfter]
    have hx : ¬(x = c) := fun he => hc (he ▸ List.mem_cons_self x t)
    rw [if_neg hx]
    exact ih (fun hm => hc (List.mem_cons_of_mem _ hm))



/-- The collected subtree grows with the fuel. -/
theorem subtreeIdsAux_mono (a : Arena) :
    ∀ (f1 f2 : Nat) (stack acc : List Nat), f1 ≤ f2 →
      subtreeIdsAux a f1 stack acc ⊆ subtreeIdsAux a f2 stack acc := by
  intro f1
  induction f1 with
  | zero =>
    intro f2 stack acc _
    rw [subtreeIdsAux]
    exact subtreeIdsAux_acc_sub a f2 stack acc
  | succ n ih =>
    intro f2 stack acc hle
    cases f2 with
    | zero => exact absurd hle (Nat.not_succ_le_zero n)
    | succ f2' =>
      have hle' : n ≤ f2' := Nat.le_of_succ_le_succ hle
      cases stack with
      | nil =>
        rw [subtreeIdsAux, subtreeIdsAux]
        exact fun x hx => hx
      | cons id stack' =>
        rw [subtreeIdsAux, subtreeIdsAux]
        by_cases hmem : id ∈ acc
        · rw [if_pos hmem, if_pos hmem]
          exact ih f2' stack' acc hle'
        · rw [if_neg hmem, if_neg hmem]
          cases hga : a.get id with
          | none => exact ih f2' stack' (id :: acc) hle'
          | some nd => exact ih f2' (nd.children ++ stack') (id :: acc) hle'

/-- The collected subtree only depends on the children views of nodes off
an index that is never reached. -/
theorem subtreeIdsAux_congr (a b : Arena) (t0 : Nat)
    (hagree : ∀ x, x ≠ t0 → childrenView b x = childrenView a x) :
    ∀ (fuel : Nat) (stack acc : List Nat), t0 ∉ subtreeIdsAux a fuel stack acc →
      subtreeIdsAux b fuel stack acc = subtreeIdsAux a fuel stack acc := by
  intro fuel
  induction fuel with
  | zero => intro stack acc _; rw [subtreeIdsAux, subtreeIdsAux]
  | succ n ih =>
    intro stack acc hnin
    cases stack with
    | nil => rw [subtreeIdsAux, subtreeIdsAux]
    | cons id stack' =>
      rw [subtreeIdsAux] at hnin
      rw [subtreeIdsAux, subtreeIdsAux]
      by_cases hmem : id ∈ acc
      · rw [if_pos hmem] at hnin
        rw [if_pos hmem, if_pos hmem]
        exact ih stack' acc hnin
      · rw [if_neg hmem] at hnin
        rw [if_neg hmem, if_neg hmem]
        have hidt : id ≠ t0 := by
          intro he
          apply hnin
          cases hga : a.get id with
          | none =>
            exact he ▸ subtreeIdsAux_acc_sub a n stack' (id :: acc) (List.mem_cons_self _ _)
          | some nd =>
            exact he ▸
              subtreeIdsAux_acc_sub a n (nd.children ++ stack') (id :: acc)
                (List.mem_cons_self _ _)
        have hcv := hagree id hidt
        unfold childrenView at hcv
        cases hga : a.get id with
        | none =>
          rw [hga] at hcv hnin
          have hgb : b.get id = none := by
            cases hgb2 : b.get id with
            | none => rfl
            | some ndb => rw [hgb2] at hcv; simp at hcv
          rw [hgb]
          exact ih stack' (id :: acc) hnin
        | some nda =>
          rw [hga] at hcv hnin
          cases hgb2 : b.get id with
          | none => rw [hgb2] at hcv; simp at hcv
          | some ndb =>
            rw [hgb2] at hcv
            have hch : ndb.children = nda.children := by simpa using hcv
            show subtreeIdsAux b n (ndb.children ++ stack') (id :: acc)
              = subtreeIdsAux a n (nda.children ++ stack') (id :: acc)
            rw [hch]
            exact ih (nda.children ++ stack') (id :: acc) hnin

/-- The fuel accumulator is monotone in its initial value. -/
theorem foldl_fuel_mono :
    ∀ (l : List (Nat × MxmlNode)) (i j : Nat), i ≤ j →
      l.foldl (fun s p => s + 1 + p.2.children.length) i
        ≤ l.foldl (fun s p => s + 1 + p.2.children.length) j := by
  intro l
  induction l with
  | nil => intro i j h; exact h
  | cons p t ih =>
    intro i j h
    rw [List.foldl_cons, List.foldl_cons]
    exact ih _ _ (Nat.add_le_add_right (Nat.add_le_add_right h 1) _)

/-- An entry update for an absent key is the identity. -/
theorem map_set_id_of_not_mem (i : Nat) (m : MxmlNode) :
    ∀ l : List (Nat × MxmlNode), i ∉ l.map Prod.fst →
      l.map (fun p => if p.1 = i then (i, m) else p) = l := by
  intro l
  induction l with
  | nil => intro _; rfl
  | cons p t ih =>
    intro h
    rw [List.map_cons] at h
    rw [List.map_cons]
    have h1 : ¬(p.1 = i) := fun he => h (List.mem_cons.2 (Or.inl he.symm))
    rw [if_neg h1, ih (fun hm => h (List.mem_cons_of_mem _ hm))]

/-- Updating an entry with one of no larger child count does not increase
the delete fuel accumulator. -/
theorem foldl_set_le (i : Nat) (n m : MxmlNode)
    (hlen : m.children.length ≤ n.children.length) :
    ∀ (l : List (Nat × MxmlNode)) (init : Nat),
      (l.map Prod.fst).Nodup → l.lookup i = some n →
      (l.map (fun p => if p.1 = i then (i, m) else p)).foldl
          (fun s p => s + 1 + p.2.children.length) init
        ≤ l.foldl (fun s p => s + 1 + p.2.children.length) init := by
  intro l
  induction l with
  | nil => intro init _ hlk; simp [List.lookup] at hlk
  | cons p t ih =>
    intro init hnd hlk
    rw [List.map_cons] at hnd
    rw [List.map_cons, List.foldl_cons, List.foldl_cons]
    by_cases hpi : p.1 = i
    · rw [if_pos hpi]
      have hbeq : (i == p.1) = true := by rw [beq_iff_eq]; exact hpi.symm
      simp only [List.lookup, hbeq] at hlk
      have hpn : p.2 = n := by injection hlk
      have hni : i ∉ t.map Prod.fst := hpi ▸ (List.nodup_cons.mp hnd).1
      rw [map_set_id_of_not_mem i m t hni]
      apply foldl_fuel_mono
      rw [hpn]
      exact Nat.add_le_add_left hlen _
    · rw [if_neg hpi]
      have hbeq : (i == p.1) = false := by
        rw [beq_eq_false_iff_ne]; exact fun he => hpi he.symm
      simp only [List.lookup, hbeq] at hlk
      exact ih _ (List.nodup_cons.mp hnd).2 hlk

/-- Updating an entry with one of equal child count keeps the delete fuel
accumulator unchanged. -/
theorem foldl_set_eq (i : Nat) (n m : MxmlNode)
    (hlen : m.children.length = n.children.length) :
    ∀ (l : List (Nat × MxmlNode)) (init : Nat),
      (l.map Prod.fst).Nodup → l.lookup i = some n →
      (l.map (fun p => if p.1 = i then (i, m) else p)).foldl
          (fun s p => s + 1 + p.2.children.length) init
        = l.foldl (fun s p => s + 1 + p.2.children.length) init := by
  intro l
  induction l with
  | nil => intro init _ hlk; simp [List.lookup] at hlk
  | cons p t ih =>
    intro init hnd hlk
    rw [List.map_cons] at hnd
    rw [List.map_cons, List.foldl_cons, List.foldl_cons]
    by_cases hpi : p.1 = i
    · rw [if_pos hpi]
      have hbeq : (i == p.1) = true := by rw [beq_iff_eq]; exact hpi.symm
      simp only [List.lookup, hbeq] at hlk
      have hpn : p.2 = n := by injection hlk
      have hni : i ∉ t.map Prod.fst := hpi ▸ (List.nodup_cons.mp hnd).1
      rw [map_set_id_of_not_mem i m t hni, hpn, hlen]
    · rw [if_neg hpi]
      have hbeq : (i == p.1) = false := by
        rw [beq_eq_false_iff_ne]; exact fun he => hpi he.symm
      simp only [List.lookup, hbeq] at hlk
      exact ih _ (List.nodup_cons.mp hnd).2 hlk

theorem deleteFuel_set_le (a : Arena) (i : Nat) (n m : MxmlNode)
    (hkeys : (a.nodes.map Prod.fst).Nodup) (hget : a.get i = some n)
    (hlen : m.children.length ≤ n.children.length) :
    (a.set i m).deleteFuel ≤ a.deleteFuel :=
  foldl_set_le i n m hlen a.nodes 1 hkeys hget

theorem deleteFuel_set_eq (a : Arena) (i : Nat) (n m : MxmlNode)
    (hkeys : (a.nodes.map Prod.fst).Nodup) (hget : a.get i = some n)
    (hlen : m.children.length = n.children.length) :
    (a.set i m).deleteFuel = a.deleteFuel :=
  foldl_set_eq i n m hlen a.nodes 1 hkeys hget

/-- Unlinking a child from a present parent updates exactly the parent's
children list and the child's parent link. -/
theorem detach_effect (a : Arena) (id p : Nat) (n pn : MxmlNode)
    (hid : a.get id = some n) (hp : n.parent = some p) (hpn : a.get p = some pn)
    (hne : p ≠ id) :
    detachFromParent a id
      = (a.set p ⟨pn.value, pn.parent, pn.children.erase id⟩).set id
          ⟨n.value, none, n.children⟩ := by
  have h1 : (a.set p ⟨pn.value, pn.parent, pn.children.erase id⟩).get id = some n := by
    rw [get_set_other a p _ id (fun he => hne he.symm)]
    exact hid
  unfold detachFromParent
  simp only [hid, hp, hpn, h1]

/-- Unlinking a node with no parent is the identity. -/
theorem detach_noparent (a : Arena) (id : Nat) (n : MxmlNode)
    (hid : a.get id = some n) (hp : n.parent = none) : detachFromParent a id = a := by
  unfold detachFromParent
  simp only [hid, hp]

/-- Deleting a child subtree under level hypotheses: the parent keeps its
entry with the child erased from its children, and every node outside the
deleted subtree keeps its entry unchanged. -/
theorem mxmlDelete_level (a : Arena) (t temp : Nat) (tn tempn : MxmlNode)
    (hkeys : (a.nodes.map Prod.fst).Nodup)
    (ht : a.get t = some tn) (htemp : a.get temp = some tempn)
    (hptemp : tempn.parent = some t) (hne : temp ≠ t)
    (hmem : temp ∈ tn.children)
    (hsubt : t ∉ subtreeIds a temp) :
    (mxmlDelete a temp).get t = some ⟨tn.value, tn.parent, tn.children.erase temp⟩
    ∧ ∀ x, x ≠ t → x ≠ temp → x ∉ subtreeIds a temp →
        (mxmlDelete a temp).get x = a.get x := by
  have hnet : t ≠ temp := fun he => hne he.symm
  have had : detachFromParent a temp
      = (a.set t ⟨tn.value, tn.parent, tn.children.erase temp⟩).set temp
          ⟨tempn.value, none, tempn.children⟩ :=
    detach_effect a temp t tempn tn htemp hptemp ht hnet
  have hgett : (a.set t ⟨tn.value, tn.parent, tn.children.erase temp⟩).get temp
      = some tempn := by
    rw [get_set_other _ _ _ _ hne]
    exact htemp
  have hkeys1 : (((a.set t ⟨tn.value, tn.parent, tn.children.erase temp⟩).nodes.map
      Prod.fst)).Nodup := by
    rw [keys_set]
    exact hkeys
  have hfd : (detachFromParent a temp).deleteFuel ≤ a.deleteFuel := by
    rw [had]
    have step2 := deleteFuel_set_eq
      (a.set t ⟨tn.value, tn.parent, tn.children.erase temp⟩) temp tempn
      ⟨tempn.value, none, tempn.children⟩ hkeys1 hgett rfl
    rw [step2]
    apply deleteFuel_set_le a t tn _ hkeys ht
    rw [List.length_erase_of_mem hmem]
    exact Nat.sub_le _ _
  have hag : ∀ x, x ≠ t →
      childrenView (detachFromParent a temp) x = childrenView a x := by
    intro x hx
    unfold childrenView
    rw [had]
    by_cases hxt : x = temp
    · subst hxt
      rw [get_set_self _ _ _ tempn hgett, htemp]
      rfl
    · rw [get_set_other _ _ _ _ hxt, get_set_other _ _ _ _ hx]
  have hFle : (detachFromParent a temp).deleteFuel * 2 + 2 ≤ a.deleteFuel * 2 + 2 :=
    Nat.add_le_add_right (Nat.mul_le_mul_right 2 hfd) 2
  have hsubt1 : t ∉ subtreeIdsAux a ((detachFromParent a temp).deleteFuel * 2 + 2)
      [temp] [] :=
    fun hmem2 => hsubt (subtreeIdsAux_mono a _ _ _ _ hFle hmem2)
  have hcong : subtreeIds (detachFromParent a temp) temp
      = subtreeIdsAux a ((detachFromParent a temp).deleteFuel * 2 + 2) [temp] [] := by
    unfold subtreeIds
    exact subtreeIdsAux_congr a (detachFromParent a temp) t hag _ _ _ hsubt1
  have hidsub : ∀ x, x ∉ subtreeIds a temp →
      x ∉ subtreeIds (detachFromParent a temp) temp := by
    intro x hx hmem2
    rw [hcong] at hmem2
    exact hx (subtreeIdsAux_mono a _ _ _ _ hFle hmem2)
  constructor
  · show (mxmlDelete a temp).get t = _
    unfold mxmlDelete Arena.get
    simp only
    rw [lookup_filter_keep _ t (hidsub t hsubt)]
    have : (detachFromParent a temp).get t
        = some ⟨tn.value, tn.parent, tn.children.erase temp⟩ := by
      rw [had, get_set_other _ _ _ _ hnet]
      exact get_set_self _ _ _ tn ht
    exact this
  · intro x hxt hxtemp hxsub
    unfold mxmlDelete Arena.get
    simp only
    rw [lookup_filter_keep _ x (hidsub x hxsub)]
    have : (detachFromParent a temp).get x = a.get x := by
      rw [had, get_set_other _ _ _ _ hxtemp, get_set_other _ _ _ _ hxt]
    exact this

/-- The walk step from the top with descent enters the children list. -/
theorem walkNext_top_children (a : Arena) (t : Nat) (tn : MxmlNode)
    (ht : a.get t = some tn) :
    mxmlWalkNext a t t true = tn.children.head? := by
  unfold mxmlWalkNext
  rw [ht]
  cases hc : tn.children with
  | nil => simp [hc, List.isEmpty]
  | cons c cs => simp [hc, List.isEmpty]

/-- The descend-first search loop over a suffix of the children of the top
node equals a first-match scan of that suffix. -/
theorem findElemLoop_children (a : Arena) (t : Nat) (tn : MxmlNode) (elem : String)
    (attr val : Option String) (ht : a.get t = some tn)
    (hchild : ∀ c ∈ tn.children,
      (a.get c).isSome ∧ (a.get c).bind MxmlNode.parent = some t)
    (hnd : tn.children.Nodup) :
    ∀ (l2 l1 : List Nat) (fuel : Nat), tn.children = l1 ++ l2 → l2.length < fuel →
      findElemLoop fuel a l2.head? t elem attr val MDescend.descendFirst
        = l2.find? (fun c => findMatches a c elem attr val) := by
  intro l2
  induction l2 with
  | nil =>
    intro l1 fuel _ hf
    cases fuel with
    | zero => exact absurd hf (Nat.not_lt_zero _)
    | succ m => rfl
  | cons c l2' ih =>
    intro l1 fuel hsplit hf
    cases fuel with
    | zero => exact absurd hf (Nat.not_lt_zero _)
    | succ m =>
      rw [findElemLoop.eq_def]
      simp only [List.head?]
      cases hm : findMatches a c elem attr val with
      | true =>
        rw [if_pos rfl]
        exact (List.find?_cons_of_pos l2' hm).symm
      | false =>
        rw [if_neg (by exact Bool.false_ne_true)]
        rw [List.find?_cons_of_neg l2' (by rw [hm]; exact Bool.false_ne_true)]
        have hcmem : c ∈ tn.children := by
          rw [hsplit]
          exact List.mem_append.2 (Or.inr (List.mem_cons_self _ _))
        obtain ⟨hsome, hpar⟩ := hchild c hcmem
        obtain ⟨cn, hcn⟩ := Option.isSome_iff_exists.mp hsome
        have hcnp : cn.parent = some t := by rw [hcn] at hpar; exact hpar
        have hcnotl1 : c ∉ l1 := by
          rw [hsplit] at hnd
          intro hcl1
          exact (List.nodup_append.mp hnd).2.2 hcl1 (List.mem_cons_self _ _)
        have hnext : nextSibling a c = l2'.head? := by
          unfold nextSibling
          rw [hcn]
          dsimp only
          rw [hcnp]
          dsimp only
          unfold Arena.childIds
          rw [ht]
          dsimp only
          rw [hsplit]
          exact listAfter_append c l2' l1 hcnotl1
        show findElemLoop m a (nextSibling a c) t elem attr val MDescend.descendFirst = _
        rw [hnext]
        exact ih (l1 ++ [c]) m (by rw [hsplit, List.append_assoc]; rfl) (Nat.lt_of_succ_lt_succ hf)

/-- The descend-first find from the top node over a duplicate-free level is
the first matching child. -/
theorem findElement_first_level (a : Arena) (t : Nat) (tn : MxmlNode) (elem : String)
    (attr val : Option String) (ht : a.get t = some tn)
    (hchild : ∀ c ∈ tn.children,
      (a.get c).isSome ∧ (a.get c).bind MxmlNode.parent = some t)
    (hnd : tn.children.Nodup) :
    mxmlFindElement a t t elem attr val MDescend.descendFirst
      = tn.children.find? (fun c => findMatches a c elem attr val) := by
  unfold mxmlFindElement
  have hb : (!(MDescend.descendFirst = MDescend.noDescend : Bool)) = true := by decide
  rw [hb, walkNext_top_children a t tn ht]
  have hlen : tn.children.length < a.nodes.length + 1 :=
    Nat.lt_succ_of_le
      (nodup_length_le_store a tn.children hnd (fun x hx => (hchild x hx).1))
  exact findElemLoop_children a t tn elem attr val ht hchild hnd
    tn.children [] (a.nodes.length + 1) rfl hlen

/-- Attaching a node cannot make a missing entry appear. -/
theorem mxmlAdd_get_none (a : Arena) (pid : Nat) (wh : MAdd) (child no : Option Nat)
    (x : Nat) (h : a.get x = none) : (mxmlAdd a pid wh child no).get x = none := by
  rw [mxmlAdd.eq_def]
  split
  · exact h
  split
  · exact h
  dsimp only
  split <;> split <;>
    first
      | exact get_detach_none _ _ _ h
      | exact get_set_none _ _ _ _ (get_detach_none _ _ _ h)
      | exact get_set_none _ _ _ _ (get_set_none _ _ _ _ (get_detach_none _ _ _ h))

/-- Unlinking a node clears its parent link, keeps its value and children,
preserves entries the unlink does not touch, and never changes any parent
link other than the unlinked node's own. -/
theorem detach_shape (a : Arena) (nd : Nat) (ndn : MxmlNode)
    (hnd : a.get nd = some ndn) (hparnd : ndn.parent ≠ some nd) :
    (detachFromParent a nd).get nd = some ⟨ndn.value, none, ndn.children⟩
    ∧ (∀ c, c ≠ nd → ndn.parent ≠ some c → (detachFromParent a nd).get c = a.get c)
    ∧ (∀ c, c ≠ nd →
        ((detachFromParent a nd).get c).bind MxmlNode.parent
          = (a.get c).bind MxmlNode.parent) := by
  cases hpp : ndn.parent with
  | none =>
    have hone : detachFromParent a nd = a := detach_noparent a nd ndn hnd hpp
    rw [hone]
    refine ⟨?_, fun c _ _ => rfl, fun c _ => rfl⟩
    rw [hnd]
    have he : ndn = ⟨ndn.value, none, ndn.children⟩ := by
      cases ndn with
      | mk v p c => cases hpp; rfl
    rw [← he]
  | some p1 =>
    have hpnd : p1 ≠ nd := fun he => hparnd (he ▸ hpp)
    cases hgp : a.get p1 with
    | none =>
      have heq : detachFromParent a nd = a.set nd ⟨ndn.value, none, ndn.children⟩ := by
        unfold detachFromParent
        simp only [hnd, hpp, hgp]
      rw [heq]
      refine ⟨get_set_self _ _ _ ndn hnd, ?_, ?_⟩
      · intro c hc _
        exact get_set_other _ _ _ _ hc
      · intro c hc
        rw [get_set_other _ _ _ _ hc]
    | some pnode =>
      have heq := detach_effect a nd p1 ndn pnode hnd hpp hgp hpnd
      rw [heq]
      refine ⟨?_, ?_, ?_⟩
      · apply get_set_self
        rw [get_set_other _ _ _ _ (fun he => hpnd he.symm)]
        exact hnd
      · intro c hc hcp
        have hcp1 : c ≠ p1 := by
          intro he
          exact hcp (by rw [he])
        rw [get_set_other _ _ _ _ hc, get_set_other _ _ _ _ hcp1]
      · intro c hc
        by_cases hcp : c = p1
        · subst hcp
          rw [get_set_other _ _ _ _ hc, get_set_self _ _ _ pnode hgp, hgp]
          rfl
        · rw [get_set_other _ _ _ _ hc, get_set_other _ _ _ _ hcp]

/-- Attaching a node to a new parent under level hypotheses: the parent's
children become the requested insertion of the node, and the node keeps
its value and children while its parent link moves to the new parent. -/
theorem mxmlAdd_effect (a : Arena) (t nd : Nat) (tn ndn : MxmlNode) (wh : MAdd)
    (child : Option Nat)
    (ht : a.get t = some tn) (hnd : a.get nd = some ndn)
    (hnet : nd ≠ t) (hpar : ndn.parent ≠ some t) (hparnd : ndn.parent ≠ some nd)
    (hchild : ∀ c, child = some c → c ≠ nd ∧ (a.get c).isSome ∧
      (a.get c).bind MxmlNode.parent = some t) :
    (mxmlAdd a t wh child (some nd)).childIds t
      = (match wh, child with
         | MAdd.before, none => nd :: tn.children
         | MAdd.before, some c => insertBeforeId tn.children c nd
         | MAdd.after, none => tn.children ++ [nd]
         | MAdd.after, some c => insertAfterId tn.children c nd)
    ∧ (mxmlAdd a t wh child (some nd)).get nd
        = some ⟨ndn.value, some t, ndn.children⟩ := by
  obtain ⟨hd1, hd2, hd3⟩ := detach_shape a nd ndn hnd hparnd
  have htnd : t ≠ nd := fun he => hnet he.symm
  have ha1t : (detachFromParent a nd).get t = some tn := by
    rw [hd2 t htnd hpar]
    exact ht
  have ha2t : ((detachFromParent a nd).set nd
      ⟨ndn.value, some t, ndn.children⟩).get t = some tn := by
    rw [get_set_other _ _ _ _ htnd]
    exact ha1t
  have ha2nd : ((detachFromParent a nd).set nd
      ⟨ndn.value, some t, ndn.children⟩).get nd
      = some ⟨ndn.value, some t, ndn.children⟩ :=
    get_set_self _ _ _ _ hd1
  have hrel : ∀ c, child = some c →
      ((((detachFromParent a nd).set nd ⟨ndn.value, some t, ndn.children⟩).get c).bind
        MxmlNode.parent) = some t := by
    intro c hc
    obtain ⟨hcnd, hcs, hcp⟩ := hchild c hc
    rw [get_set_other _ _ _ _ hcnd, hd3 c hcnd]
    exact hcp
  rw [mxmlAdd.eq_def]
  dsimp only
  rw [hnd]
  dsimp only
  rw [hd1]
  dsimp only
  rw [ha2t]
  dsimp only
  cases child with
  | none =>
    cases wh with
    | before =>
      refine ⟨?_, ?_⟩
      · unfold Arena.childIds
        rw [get_set_self _ _ _ tn ha2t]
      · rw [get_set_other _ _ _ _ hnet]
        exact ha2nd
    | after =>
      refine ⟨?_, ?_⟩
      · unfold Arena.childIds
        rw [get_set_self _ _ _ tn ha2t]
      · rw [get_set_other _ _ _ _ hnet]
        exact ha2nd
  | some c =>
    have hrc := hrel c rfl
    dsimp only
    rw [if_pos hrc]
    cases wh with
    | before =>
      refine ⟨?_, ?_⟩
      · unfold Arena.childIds
        rw [get_set_self _ _ _ tn ha2t]
      · rw [get_set_other _ _ _ _ hnet]
        exact ha2nd
    | after =>
      refine ⟨?_, ?_⟩
      · unfold Arena.childIds
        rw [get_set_self _ _ _ tn ha2t]
      · rw [get_set_other _ _ _ _ hnet]
        exact ha2nd

/-- Effect of setting an attribute on a present element node. -/
theorem setAttr_effect (a : Arena) (nd : Nat) (nm0 : String)
    (attrs : List (String × String)) (p : Option Nat) (cs : List Nat) (k v : String)
    (hnd : a.get nd = some ⟨MxmlValue.element nm0 attrs, p, cs⟩) :
    mxmlElementSetAttr a nd k v
      = a.set nd ⟨MxmlValue.element nm0 (setAttrList attrs k v), p, cs⟩ := by
  unfold mxmlElementSetAttr
  rw [hnd]

/-- The replace-and-insert core of sort_node: after deleting the duplicate
sibling from a store that may already carry the copied scope on the new
node, the insertion loop places the node exactly at the spec position, the
duplicate is gone, and the node keeps its (possibly updated) value. -/
theorem delete_insert_phase (a a' : Arena) (t nd temp : Nat) (tn ndn tempn : MxmlNode)
    (ndv : MxmlValue) (nm : String)
    (ht : a.get t = some tn) (htemp : a.get temp = some tempn)
    (htemppar : tempn.parent = some t)
    (hnet : nd ≠ t) (hndc : nd ∉ tn.children) (htc : t ∉ tn.children)
    (hcnd : tn.children.Nodup) (htm : temp ∈ tn.children)
    (hchild : ∀ c ∈ tn.children,
      (a.get c).isSome ∧ (a.get c).bind MxmlNode.parent = some t)
    (hsubt : t ∉ subtreeIds a temp) (hsubnd : nd ∉ subtreeIds a temp)
    (hsibs : ∀ c2 ∈ tn.children, c2 ≠ temp → c2 ∉ subtreeIds a temp)
    (hpar : ndn.parent ≠ some t) (hparnd : ndn.parent ≠ some nd)
    (hand : a'.get nd = some ⟨ndv, ndn.parent, ndn.children⟩)
    (haother : ∀ c, c ≠ nd → a'.get c = a.get c)
    (hakeys : ((a'.nodes.map Prod.fst)).Nodup)
    (hafuel : subtreeIds a' temp = subtreeIds a temp) :
    (match (((mxmlDelete a' temp).childIds t).find? (fun c =>
        match mxmlElementGetAttr (mxmlDelete a' temp) c "name" with
        | none => false
        | some tempname => strLt nm tempname)) with
      | some g => mxmlAdd (mxmlDelete a' temp) t MAdd.before (some g) (some nd)
      | none => mxmlAdd (mxmlDelete a' temp) t MAdd.after none (some nd)).childIds t
        = insertSortedSpec a nm (tn.children.erase temp) nd
    ∧ (match (((mxmlDelete a' temp).childIds t).find? (fun c =>
        match mxmlElementGetAttr (mxmlDelete a' temp) c "name" with
        | none => false
        | some tempname => strLt nm tempname)) with
      | some g => mxmlAdd (mxmlDelete a' temp) t MAdd.before (some g) (some nd)
      | none => mxmlAdd (mxmlDelete a' temp) t MAdd.after none (some nd)).get temp = none
    ∧ (match (((mxmlDelete a' temp).childIds t).find? (fun c =>
        match mxmlElementGetAttr (mxmlDelete a' temp) c "name" with
        | none => false
        | some tempname => strLt nm tempname)) with
      | some g => mxmlAdd (mxmlDelete a' temp) t MAdd.before (some g) (some nd)
      | none => mxmlAdd (mxmlDelete a' temp) t MAdd.after none (some nd)).get nd
        = some ⟨ndv, some t, ndn.children⟩ := by
  have htmnd : temp ≠ nd := fun he => hndc (he ▸ htm)
  have htmt : temp ≠ t := fun he => htc (he ▸ htm)
  have ht' : a'.get t = some tn := by
    rw [haother t (fun he => hnet he.symm)]
    exact ht
  have htemp' : a'.get temp = some tempn := by
    rw [haother temp htmnd]
    exact htemp
  have hsubt' : t ∉ subtreeIds a' temp := by rw [hafuel]; exact hsubt
  obtain ⟨hbt, hbother⟩ :=
    mxmlDelete_level a' t temp tn tempn hakeys ht' htemp' htemppar htmt htm hsubt'
  have hbndget : (mxmlDelete a' temp).get nd = some ⟨ndv, ndn.parent, ndn.children⟩ := by
    rw [hbother nd hnet (fun he => htmnd he.symm) (by rw [hafuel]; exact hsubnd)]
    exact hand
  have hbchild : (mxmlDelete a' temp).childIds t = tn.children.erase temp := by
    unfold Arena.childIds
    rw [hbt]
  have hsurv : ∀ c ∈ tn.children.erase temp, (mxmlDelete a' temp).get c = a.get c := by
    intro c hc
    obtain ⟨hcne, hcmem⟩ := (List.Nodup.mem_erase_iff hcnd).mp hc
    have hcnd2 : c ≠ nd := fun he => hndc (he ▸ hcmem)
    have hct : c ≠ t := fun he => htc (he ▸ hcmem)
    rw [hbother c hct hcne (by rw [hafuel]; exact hsibs c hcmem hcne)]
    exact haother c hcnd2
  have hpred : ((mxmlDelete a' temp).childIds t).find? (fun c =>
      match mxmlElementGetAttr (mxmlDelete a' temp) c "name" with
      | none => false
      | some tempname => strLt nm tempname)
      = (tn.children.erase temp).find? (nameGreater a nm) := by
    rw [hbchild]
    apply find_congr_local
    intro x hx
    have hgx : mxmlElementGetAttr (mxmlDelete a' temp) x "name"
        = mxmlElementGetAttr a x "name" :=
      getAttr_ext a (mxmlDelete a' temp) x (hsurv x hx) "name"
    rw [hgx]
    rfl
  rw [hpred]
  unfold insertSortedSpec
  cases hins : (tn.children.erase temp).find? (nameGreater a nm) with
  | some g =>
    have hgmem0 := List.mem_of_find?_eq_some hins
    obtain ⟨hgne, hgmem⟩ := (List.Nodup.mem_erase_iff hcnd).mp hgmem0
    have hgnd : g ≠ nd := fun he => hndc (he ▸ hgmem)
    obtain ⟨hc1, hc2⟩ := hchild g hgmem
    have hph := mxmlAdd_effect (mxmlDelete a' temp) t nd
      ⟨tn.value, tn.parent, tn.children.erase temp⟩ ⟨ndv, ndn.parent, ndn.children⟩
      MAdd.before (some g) hbt hbndget hnet hpar hparnd
      (by
        intro c hc
        have hcg : g = c := by injection hc
        subst hcg
        refine ⟨hgnd, ?_, ?_⟩
        · rw [hsurv g hgmem0]
          exact hc1
        · rw [hsurv g hgmem0]
          exact hc2)
    refine ⟨hph.1, ?_, hph.2⟩
    exact mxmlAdd_get_none _ _ _ _ _ _ (mxmlDelete_get_self a' temp)
  | none =>
    have hph := mxmlAdd_effect (mxmlDelete a' temp) t nd
      ⟨tn.value, tn.parent, tn.children.erase temp⟩ ⟨ndv, ndn.parent, ndn.children⟩
      MAdd.after none hbt hbndget hnet hpar hparnd
      (by intro c hc; cases hc)
    refine ⟨hph.1, ?_, hph.2⟩
    exact mxmlAdd_get_none _ _ _ _ _ _ (mxmlDelete_get_self a' temp)

/-- An attribute read against a known element entry is a plain attribute
list lookup. -/
theorem getAttr_of_get (b : Arena) (x : Nat) (nm0 : String)
    (attrs : List (String × String)) (p : Option Nat) (cs : List Nat) (k : String)
    (h : b.get x = some ⟨MxmlValue.element nm0 attrs, p, cs⟩) :
    mxmlElementGetAttr b x k = attrs.lookup k := by
  unfold mxmlElementGetAttr
  rw [h]

/-- A node with a successful attribute read is an element node. -/
theorem getAttr_element_shape (a : Arena) (nd : Nat) (n : MxmlNode) (k v : String)
    (hget : a.get nd = some n) (h : mxmlElementGetAttr a nd k = some v) :
    ∃ nm0 attrs, n.value = MxmlValue.element nm0 attrs ∧ attrs.lookup k = some v := by
  unfold mxmlElementGetAttr at h
  rw [hget] at h
  cases n with
  | mk val pr ch =>
    cases val with
    | element nm0 attrs => exact ⟨nm0, attrs, rfl, h⟩
    | text w s => exact Option.noConfusion h
    | opq s => exact Option.noConfusion h

/-- C1: sort_node drops a node with no name attribute or an
underscore-prefixed name without touching the tree; otherwise it replaces
the first same-kind same-name sibling of the level (deleting it, after
copying its scope attribute onto the new node exactly when the new node
has none) and inserts the node immediately before the first sibling whose
name compares lexicographically greater, or at the end when none does. -/
theorem sort_node_insert_spec (a : Arena) (t nd : Nat) (tn ndn : MxmlNode) (nm : String)
    (hkeys : (a.nodes.map Prod.fst).Nodup)
    (ht : a.get t = some tn)
    (hnd : a.get nd = some ndn)
    (hpar : ndn.parent ≠ some t)
    (hparnd : ndn.parent ≠ some nd)
    (hnet : nd ≠ t)
    (hndc : nd ∉ tn.children)
    (htc : t ∉ tn.children)
    (hcnd : tn.children.Nodup)
    (hchild : ∀ c ∈ tn.children,
      (a.get c).isSome ∧ (a.get c).bind MxmlNode.parent = some t)
    (hsub : ∀ c ∈ tn.children, t ∉ subtreeIds a c ∧ nd ∉ subtreeIds a c ∧
      ∀ c2 ∈ tn.children, c2 ≠ c → c2 ∉ subtreeIds a c) :
    (mxmlElementGetAttr a nd "name" = none → sort_node a (some t) (some nd) = a)
    ∧ (∀ nm0, mxmlElementGetAttr a nd "name" = some nm0 →
        nm0.toList.head? = some '_' → sort_node a (some t) (some nd) = a)
    ∧ (mxmlElementGetAttr a nd "name" = some nm → nm.toList.head? ≠ some '_' →
        match dupFound a t nd nm with
        | some temp =>
          (sort_node a (some t) (some nd)).childIds t
              = insertSortedSpec a nm (tn.children.erase temp) nd
          ∧ (sort_node a (some t) (some nd)).get temp = none
          ∧ (mxmlElementGetAttr a nd "scope" = none →
              mxmlElementGetAttr (sort_node a (some t) (some nd)) nd "scope"
                = mxmlElementGetAttr a temp "scope")
          ∧ (∀ s, mxmlElementGetAttr a nd "scope" = some s →
              mxmlElementGetAttr (sort_node a (some t) (some nd)) nd "scope" = some s)
        | none =>
          (sort_node a (some t) (some nd)).childIds t
            = insertSortedSpec a nm tn.children nd) := by
  have hcond : ¬(((a.get nd).bind MxmlNode.parent) = some t) := by
    rw [hnd]
    exact hpar
  refine ⟨?_, ?_, ?_⟩
  · intro hnone
    rw [sort_node.eq_def]
    dsimp only
    rw [if_neg hcond, hnone]
  · intro nm0 hsome hus0
    rw [sort_node.eq_def]
    dsimp only
    rw [if_neg hcond, hsome]
    dsimp only
    rw [if_pos hus0]
  · intro hname hus
    obtain ⟨nm0, attrs, hv, hlkname⟩ := getAttr_element_shape a nd ndn "name" nm hnd hname
    have hee : ndn = ⟨MxmlValue.element nm0 attrs, ndn.parent, ndn.children⟩ := by
      rw [← hv]
    have hndfull : a.get nd
        = some ⟨MxmlValue.element nm0 attrs, ndn.parent, ndn.children⟩ := by
      rw [hnd, ← hee]
    have hgname := getAttr_of_get a nd nm0 attrs ndn.parent ndn.children "scope" hndfull
    have hfind : mxmlFindElement a t t (elementNameOf a nd) (some "name") (some nm)
        MDescend.descendFirst = dupFound a t nd nm := by
      rw [findElement_first_level a t tn (elementNameOf a nd) (some "name") (some nm)
        ht hchild hcnd]
      unfold dupFound Arena.childIds
      rw [ht]
    rw [sort_node.eq_def]
    dsimp only
    rw [if_neg hcond, hname]
    dsimp only
    rw [if_neg hus, hfind]
    cases hdup : dupFound a t nd nm with
    | none =>
      dsimp only
      have hci : Arena.childIds a t = tn.children := by
        unfold Arena.childIds
        rw [ht]
      rw [hci]
      have hpred2 : tn.children.find? (fun c =>
          match mxmlElementGetAttr a c "name" with
          | none => false
          | some tempname => strLt nm tempname)
          = tn.children.find? (nameGreater a nm) :=
        find_congr_local _ _ tn.children (fun x _ => rfl)
      rw [hpred2]
      unfold insertSortedSpec
      cases hins : tn.children.find? (nameGreater a nm) with
      | some g =>
        have hgmem := List.mem_of_find?_eq_some hins
        have hgnd : g ≠ nd := fun he => hndc (he ▸ hgmem)
        obtain ⟨hc1, hc2⟩ := hchild g hgmem
        have hph := mxmlAdd_effect a t nd tn ndn MAdd.before (some g) ht hnd hnet
          hpar hparnd
          (by
            intro c hc
            have hcg : g = c := by injection hc
            subst hcg
            exact ⟨hgnd, hc1, hc2⟩)
        exact hph.1
      | none =>
        have hph := mxmlAdd_effect a t nd tn ndn MAdd.after none ht hnd hnet
          hpar hparnd (by intro c hc; cases hc)
        exact hph.1
    | some temp =>
      have hdup2 : tn.children.find? (fun c =>
          findMatches a c (elementNameOf a nd) (some "name") (some nm)) = some temp := by
        unfold dupFound Arena.childIds at hdup
        rw [ht] at hdup
        exact hdup
      have htm := List.mem_of_find?_eq_some hdup2
      obtain ⟨htsome, htpar⟩ := hchild temp htm
      obtain ⟨tempn, htemp⟩ := Option.isSome_iff_exists.mp htsome
      have htemppar : tempn.parent = some t := by
        rw [htemp] at htpar
        exact htpar
      obtain ⟨hst, hsnd, hsibs⟩ := hsub temp htm
      cases hts : mxmlElementGetAttr a temp "scope" with
      | none =>
        dsimp only
        rw [hts]
        have hph := delete_insert_phase a a t nd temp tn ndn tempn ndn.value nm
          ht htemp htemppar hnet hndc htc hcnd htm hchild hst hsnd hsibs hpar hparnd
          hnd (fun c _ => rfl) hkeys rfl
        have he3 : ∀ b : Arena, b.get nd = some ⟨ndn.value, some t, ndn.children⟩ →
            mxmlElementGetAttr b nd "scope" = attrs.lookup "scope" := by
          intro b hb
          exact getAttr_of_get b nd nm0 attrs (some t) ndn.children "scope"
            (by rw [hb, hv])
        refine ⟨hph.1, hph.2.1, ?_, ?_⟩
        · intro h3
          rw [he3 _ hph.2.2]
          rw [hgname] at h3
          exact h3
        · intro s h4
          rw [he3 _ hph.2.2]
          rw [hgname] at h4
          exact h4
      | some sc =>
        dsimp only
        rw [hts]
        dsimp only
        by_cases htnds : mxmlElementGetAttr a nd "scope" = none
        · rw [if_pos htnds]
          have hset := setAttr_effect a nd nm0 attrs ndn.parent ndn.children
            "scope" sc hndfull
          rw [hset]
          have hdfe : (a.set nd ⟨MxmlValue.element nm0 (setAttrList attrs "scope" sc),
              ndn.parent, ndn.children⟩).deleteFuel = a.deleteFuel :=
            deleteFuel_set_eq a nd ⟨MxmlValue.element nm0 attrs, ndn.parent,
              ndn.children⟩ _ hkeys hndfull rfl
          have hafuel : subtreeIds (a.set nd ⟨MxmlValue.element nm0
              (setAttrList attrs "scope" sc), ndn.parent, ndn.children⟩) temp
              = subtreeIds a temp := by
            unfold subtreeIds
            rw [hdfe]
            apply subtreeIdsAux_congr a _ t
            · intro x hx
              unfold childrenView
              by_cases hxnd : x = nd
              · subst hxnd
                rw [get_set_self _ _ _ _ hndfull, hndfull]
                rfl
              · rw [get_set_other _ _ _ _ hxnd]
            · exact hst
          have hph := delete_insert_phase a
            (a.set nd ⟨MxmlValue.element nm0 (setAttrList attrs "scope" sc),
              ndn.parent, ndn.children⟩) t nd temp tn ndn tempn
            (MxmlValue.element nm0 (setAttrList attrs "scope" sc)) nm
            ht htemp htemppar hnet hndc htc hcnd htm hchild hst hsnd hsibs hpar hparnd
            (get_set_self _ _ _ _ hndfull)
            (fun c hc => get_set_other _ _ _ _ hc)
            (by rw [keys_set]; exact hkeys)
            hafuel
          refine ⟨hph.1, hph.2.1, ?_, ?_⟩
          · intro _
            rw [getAttr_of_get _ nd nm0 (setAttrList attrs "scope" sc) (some t)
              ndn.children "scope" hph.2.2]
            exact lookup_setAttrList "scope" sc attrs
          · intro s h4
            rw [htnds] at h4
            exact Option.noConfusion h4
        · rw [if_neg htnds]
          have hph := delete_insert_phase a a t nd temp tn ndn tempn ndn.value nm
            ht htemp htemppar hnet hndc htc hcnd htm hchild hst hsnd hsibs hpar hparnd
            hnd (fun c _ => rfl) hkeys rfl
          have he3 : mxmlElementGetAttr _ nd "scope" = attrs.lookup "scope" :=
            getAttr_of_get _ nd nm0 attrs (some t) ndn.children "scope"
              (by rw [hph.2.2, hv])
          refine ⟨hph.1, hph.2.1, ?_, ?_⟩
          · intro h3
            exact absurd h3 htnds
          · intro s h4
            rw [he3]
            rw [hgname] at h4
            exact h4

/-- Witness: inserting a second function named alpha replaces the existing
alpha (its entry disappears), inherits its scope attribute, and the node
lands before the lexicographically greater sibling zeta. -/
theorem sort_node_insert_spec_witness :
    (sort_node c1arena (some 0) (some 3)).childIds 0 = [3, 2]
    ∧ (sort_node c1arena (some 0) (some 3)).get 1 = none
    ∧ mxmlElementGetAttr (sort_node c1arena (some 0) (some 3)) 3 "scope"
        = some "public" := by
  have h := (sort_node_insert_spec c1arena 0 3
      ⟨MxmlValue.element "mxmldoc" [], none, [1, 2]⟩
      ⟨MxmlValue.element "function" [("name", "alpha")], none, []⟩ "alpha"
      (by decide) (by decide) (by decide) (by decide) (by decide) (by decide)
      (by decide) (by decide) (by decide) (by decide) (by decide)).2.2
      (by decide) (by decide)
  rw [show dupFound c1arena 0 3 "alpha" = some 1 from by decide] at h
  obtain ⟨h1, h2, h3, h4⟩ := h
  refine ⟨h1.trans (by decide), h2, (h3 (by decide)).trans (by decide)⟩
